import Mathlib

/-!
# chat-app: load balancer and message delivery pipeline

A shallow embedding of `src/utils/load-balancer.js`, `src/utils/util.js`,
`src/chat/eventController.js`, the listeners of `src/chat/event.js` and
`src/socket.js`, `src/utils/cluster.js` and `src/utils/redis.js`, followed by the
properties proved about them. The job state machine of the queue engine, which is not
part of the source, is modelled from the specification.

Conventions of the embedding:

* module-level mutable variables become fields of an explicit state record that
  every operation takes and returns;
* calls to external collaborators (the socket.io bus, the bull queues, the
  acknowledgement callback) are recorded, in program order, in a trace of effects;
* values that the environment supplies (probe outcomes, clock readings, the fresh
  uuid, whether a queue addition is rejected) are explicit arguments;
* the string conversion that a template literal performs is explicit, and raises when
  JavaScript raises;
* logging is not modelled.
-/

namespace ChatApp

/-! ## Load balancer (`src/utils/load-balancer.js`) -/

/-- `serverHealth.get(server)` on the JavaScript `Map`, kept as a list of entries in
insertion order; `none` stands for `undefined`. -/
def mapGet : List (String × Bool) → String → Option Bool
  | [], _ => none
  | (k, v) :: rest, server => if k = server then some v else mapGet rest server

/-- `serverHealth.set(server, value)`: an existing key keeps its position, a new key
is appended. -/
def mapSet : List (String × Bool) → String → Bool → List (String × Bool)
  | [], server, value => [(server, value)]
  | (k, v) :: rest, server, value =>
      if k = server then (k, value) :: rest else (k, v) :: mapSet rest server value

/-- The module state of the load balancer: the configured `serverInstances`, the
`serverHealth` map and the cursor `currentServerIndex`. The cursor is a JavaScript
number that only ever holds a non-negative integer (it starts at 0 and is
incremented by one per routed request); it is modelled as a natural number. -/
structure LoadBalancer where
  serverInstances : List String
  serverHealth : List (String × Bool)
  currentServerIndex : Nat
deriving DecidableEq, Repr

/-- Module initialisation, lines 17-28: the cursor is 0 and every configured
instance is set healthy. -/
def LoadBalancer.init (serverInstances : List String) : LoadBalancer where
  serverInstances := serverInstances
  serverHealth := serverInstances.foldl (fun m server => mapSet m server true) []
  currentServerIndex := 0

/-- An HTTP response written by the load balancer itself
(`res.status(status).json({ error, message })`). -/
structure Response where
  status : Nat
  error : String
  message : String
deriving DecidableEq, Repr

/-- Line 62: `serverInstances.filter(server => serverHealth.get(server))`. An entry
passes when the map holds `true` for it (`undefined` and `false` are falsy). -/
def healthyServers (s : LoadBalancer) : List String :=
  s.serverInstances.filter (fun server => mapGet s.serverHealth server == some true)

/-- What the middleware does with a request: answer it itself, or hand it to a proxy
aimed at `targetServer`. -/
inductive Routed where
  | respond (res : Response)
  | proxied (targetServer : String)
deriving DecidableEq, Repr

/-- The load balancer middleware, lines 60-74 and 111: selection of the target and
advance of the cursor. -/
def middleware (s : LoadBalancer) : Routed × LoadBalancer :=
  if h : (healthyServers s).length = 0 then
    (Routed.respond ⟨503, "Service Unavailable", "No healthy servers available"⟩, s)
  else
    let targetServer := (healthyServers s).get
      ⟨s.currentServerIndex % (healthyServers s).length, Nat.mod_lt _ (Nat.pos_of_ne_zero h)⟩
    (Routed.proxied targetServer, { s with currentServerIndex := s.currentServerIndex + 1 })

/-- The `onError` callback of the proxy created for a request whose selected target
was `targetServer`, lines 87-101. It runs on the module state as it is when the
transport failure is reported. -/
def onError (s : LoadBalancer) (targetServer : String) : Response × LoadBalancer :=
  (⟨502, "Bad Gateway", "Server temporarily unavailable"⟩,
   { s with serverHealth := mapSet s.serverHealth targetServer false })

/-- How the proxying of one request ends: the backend's answer is relayed, or the
transport fails and `onError` is invoked. -/
inductive ProxyOutcome where
  | relayed (res : Response)
  | transportError
deriving DecidableEq, Repr

/-- One request served from selection to response, with no other event in between. -/
def handleRequest (s : LoadBalancer) (outcome : ProxyOutcome) :
    Response × LoadBalancer :=
  match middleware s with
  | (Routed.respond res, s1) => (res, s1)
  | (Routed.proxied targetServer, s1) =>
      match outcome with
      | ProxyOutcome.relayed res => (res, s1)
      | ProxyOutcome.transportError => onError s1 targetServer

/-- Outcome of `fetch(server + "/health")`: a response with its status code, or a
raised error. -/
inductive ProbeResult where
  | response (status : Nat)
  | error
deriving DecidableEq, Repr

/-- Function `checkServerHealth`, lines 30-40; returns the value it stored. -/
def checkServerHealth (s : LoadBalancer) (server : String) (probe : ProbeResult) :
    Bool × LoadBalancer :=
  match probe with
  | ProbeResult.response status =>
      let healthy := decide (status = 200)
      (healthy, { s with serverHealth := mapSet s.serverHealth server healthy })
  | ProbeResult.error =>
      (false, { s with serverHealth := mapSet s.serverHealth server false })

/-- The events that change or read the load balancer state. -/
inductive LbEvent where
  | request
  | proxyError (targetServer : String)
  | probe (server : String) (result : ProbeResult)
deriving DecidableEq, Repr

/-- Runs a sequence of events and collects, in order, what the middleware did with
each request. -/
def runEvents : LoadBalancer → List LbEvent → List Routed × LoadBalancer
  | s, [] => ([], s)
  | s, LbEvent.request :: rest =>
      let r := middleware s
      let out := runEvents r.2 rest
      (r.1 :: out.1, out.2)
  | s, LbEvent.proxyError targetServer :: rest => runEvents (onError s targetServer).2 rest
  | s, LbEvent.probe server result :: rest =>
      runEvents (checkServerHealth s server result).2 rest

/-- The first `n` selections made in a row, with no other event in between. -/
def selections (s : LoadBalancer) (n : Nat) : List Routed :=
  (runEvents s (List.replicate n LbEvent.request)).1

/-! ## JavaScript values

Event payloads arrive as JSON and are handled untyped by the controller, so they are
embedded as a small universe of JavaScript values. Numbers are the safe integers (the
ones JSON carries exactly; fractions and `NaN` are left out). An object is the list
of its own key/value entries; what it inherits is the prototype of plain objects, and
an own entry is never a function, JSON having none. -/

/-- A JavaScript value as it reaches, or is built by, the controller. -/
inductive JsVal where
  | undefined
  | null
  | bool (b : Bool)
  | num (n : Int)
  | str (s : String)
  | date (ms : Nat)
  | arr (items : List JsVal)
  | obj (fields : List (String × JsVal))
deriving Repr

/-- JavaScript truthiness, the test behind `!x` and `x || y`. -/
def JsVal.truthy : JsVal → Bool
  | JsVal.undefined => false
  | JsVal.null => false
  | JsVal.bool b => b
  | JsVal.num n => n != 0
  | JsVal.str s => s != ""
  | JsVal.date _ => true
  | JsVal.arr _ => true
  | JsVal.obj _ => true

/-- `Array.isArray(v)`. -/
def JsVal.isArray : JsVal → Bool
  | JsVal.arr _ => true
  | _ => false

/-- The elements of an array value (no elements for anything else). -/
def JsVal.items : JsVal → List JsVal
  | JsVal.arr items => items
  | _ => []

/-- Strict equality `a === b`: primitives compare by value; dates, arrays and objects
compare by reference, and two values decoded from the wire are never the same
reference. -/
def JsVal.strictEq : JsVal → JsVal → Bool
  | JsVal.undefined, JsVal.undefined => true
  | JsVal.null, JsVal.null => true
  | JsVal.bool a, JsVal.bool b => a == b
  | JsVal.num a, JsVal.num b => a == b
  | JsVal.str a, JsVal.str b => a == b
  | _, _ => false

/-- Lookup of a key in the entries of an object; `undefined` when the key is missing. -/
def lookupField : List (String × JsVal) → String → JsVal
  | [], _ => JsVal.undefined
  | (k, v) :: rest, key => if k = key then v else lookupField rest key

/-- Property read `v.key` for the payload keys the controller destructures (none of
which is a built-in property of strings, numbers, booleans or arrays). -/
def JsVal.prop : JsVal → String → JsVal
  | JsVal.obj fields, key => lookupField fields key
  | _, _ => JsVal.undefined

/-- A destructuring default `key = dflt`: the default replaces `undefined` only. -/
def JsVal.orDefault : JsVal → JsVal → JsVal
  | JsVal.undefined, dflt => dflt
  | v, _ => v

/-- Assignment of one key in an object literal: an existing key keeps its position
and takes the new value, a new key is appended. -/
def setField : List (String × JsVal) → String → JsVal → List (String × JsVal)
  | [], key, value => [(key, value)]
  | (k, v) :: rest, key, value =>
      if k = key then (k, value) :: rest else (k, v) :: setField rest key value

/-- The entries that `{...v}` copies: those of a plain object. The controller only
spreads object literals and caller options. -/
def JsVal.spread : JsVal → List (String × JsVal)
  | JsVal.obj fields => fields
  | _ => []

/-- The object literal `{...base, k1: v1, ..., kn: vn}`. -/
def assignFields (base : List (String × JsVal)) (extra : List (String × JsVal)) :
    List (String × JsVal) :=
  extra.foldl (fun acc kv => setField acc kv.1 kv.2) base

mutual
/-- String conversion as performed by a template literal `${v}`; `none` when the
conversion raises a `TypeError`. A plain object is converted by the method `toString`
it has: the inherited one renders `[object Object]`, while an own entry `toString`
hides it and, not being a function, leaves the conversion without a primitive value,
so that it raises. An array is converted by joining its elements. A safe integer
renders as its decimal digits. A date is rendered by its epoch milliseconds: JavaScript
renders a calendar text that depends on the time zone, but no date reaches a template
literal of the source, the values decoded from JSON holding none. -/
def JsVal.toStr : JsVal → Option String
  | JsVal.undefined => some "undefined"
  | JsVal.null => some "null"
  | JsVal.bool b => some (if b then "true" else "false")
  | JsVal.num n => some (toString n)
  | JsVal.str s => some s
  | JsVal.date ms => some (toString ms)
  | JsVal.arr items => JsVal.joinItems items
  | JsVal.obj fields =>
      if fields.any (fun kv => kv.1 == "toString") then none else some "[object Object]"
/-- The comma-separated rendering of array elements (`Array.prototype.join`); `none`
when the conversion of an element raises. -/
def JsVal.joinItems : List JsVal → Option String
  | [] => some ""
  | [x] => JsVal.itemStr x
  | x :: y :: rest =>
      match JsVal.itemStr x with
      | none => none
      | some first =>
          match JsVal.joinItems (y :: rest) with
          | none => none
          | some others => some (first ++ "," ++ others)
/-- String conversion of one array element: `undefined` and `null` render empty, any
other element is converted as by a template literal. -/
def JsVal.itemStr : JsVal → Option String
  | JsVal.undefined => some ""
  | JsVal.null => some ""
  | JsVal.bool b => some (if b then "true" else "false")
  | JsVal.num n => some (toString n)
  | JsVal.str s => some s
  | JsVal.date ms => some (toString ms)
  | JsVal.arr items => JsVal.joinItems items
  | JsVal.obj fields =>
      if fields.any (fun kv => kv.1 == "toString") then none else some "[object Object]"
end

/-! ## Effects and environment of a socket handler -/

/-- The two bull queues of `src/utils/messageQueue.js`. -/
inductive QueueName where
  | messageQueue
  | notificationQueue
deriving DecidableEq, Repr

/-- A call made by a handler to one of its collaborators. An entry records that the
call was made, with its arguments; whether the collaborator raised is supplied by the
environment. -/
inductive Effect where
  /-- Call `io.to(topic).emit(event, payload)`. -/
  | emit (topic : String) (event : String) (payload : JsVal)
  /-- Call `socket.to(topic).emit(event, payload)`. -/
  | broadcast (topic : String) (event : String) (payload : JsVal)
  /-- Call `x.emit(event, payload)` on a socket-like object. -/
  | socketEmit (event : String) (payload : JsVal)
  /-- Call `queue.add(jobType, data, options)`. -/
  | queueAdd (queue : QueueName) (jobType : String) (data : JsVal) (options : JsVal)
  /-- Call of the acknowledgement callback with `payload`. -/
  | ack (payload : JsVal)
deriving Repr

/-- What the surroundings supply to one run of a handler. -/
structure Env where
  /-- Value of `process.env.SERVER_ID || process.pid`. -/
  serverId : JsVal
  /-- Value returned by `uuidv4()`. -/
  uuid : String
  /-- Value of the `k`-th `new Date()` evaluated by the handler (epoch milliseconds). -/
  clock : Nat → Nat
  /-- Method `Date.prototype.toISOString`. -/
  isoString : Nat → String
  /-- Whether the `k`-th `emit` call on the bus raises. -/
  emitRaises : Nat → Bool
  /-- Whether the `k`-th `queue.add` call is rejected. -/
  queueRejects : Nat → Bool

/-- An error raised by a handler: `throw new Error(message)`, or a `TypeError` raised
by the runtime (destructuring of a missing payload, a property read on `null` or
`undefined`, a string conversion that finds no primitive value). -/
inductive Raised where
  | error (message : String)
  | typeError
deriving DecidableEq, Repr

/-- How a handler ends. -/
inductive Outcome where
  | returned
  | threw (e : Raised)
deriving DecidableEq, Repr

/-- One run of a handler: how it ended, the calls it made, in order, and the number
of clock readings (`new Date()`) it took. -/
structure Run where
  outcome : Outcome
  trace : List Effect
  reads : Nat
deriving Repr

/-- What a handler received as its last argument. -/
inductive Callback where
  /-- Nothing usable. -/
  | absent
  /-- A function: the acknowledgement callback. -/
  | function
  /-- An object with an `emit` method. -/
  | emitter
deriving DecidableEq, Repr

/-! ## Utilities (`src/utils/util.js`) -/

/-- Function `sendResponse`, lines 5-32, with `now` the clock reading it takes; a call
without `data` passes `undefined`, which the default `data = null` replaces. An error
raised by the callback is caught. -/
def sendResponse (env : Env) (now : Nat) (socketOrCallback : Callback) (message : String)
    (data : JsVal) : List Effect :=
  let payload := JsVal.obj
    [("success", JsVal.bool true), ("message", JsVal.str message),
     ("data", data.orDefault JsVal.null),
     ("timestamp", JsVal.str (env.isoString now)), ("server_id", env.serverId)]
  match socketOrCallback with
  | Callback.function => [Effect.ack payload]
  | Callback.emitter => [Effect.socketEmit "response" payload]
  | Callback.absent => []

/-- Function `emitToUser`, lines 34-52: the result is `true` unless something raised
inside the `try`; the error is caught. The topic `user_${userId}` is built first: when
that conversion raises, no clock reading is taken and no emit call is made. -/
def emitToUser (env : Env) (now : Nat) (raises : Bool) (userId : JsVal) (event : String)
    (payload : JsVal) : Bool × List Effect :=
  match userId.toStr with
  | none => (false, [])
  | some userName =>
      (!raises,
       [Effect.emit ("user_" ++ userName) event
          (JsVal.obj (assignFields payload.spread
            [("timestamp", JsVal.str (env.isoString now)), ("server_id", env.serverId)]))])

/-- Function `emitToRoom`, lines 54-72: the result is `true` unless the emit raised;
the error is caught. -/
def emitToRoom (env : Env) (now : Nat) (raises : Bool) (roomId : String) (event : String)
    (payload : JsVal) : Bool × List Effect :=
  (!raises,
   [Effect.emit roomId event
      (JsVal.obj (assignFields payload.spread
        [("timestamp", JsVal.str (env.isoString now)), ("server_id", env.serverId)]))])

/-- The options both queue helpers start from: `{ attempts: 3, backoff: { type:
'exponential', delay: 2000 } }`. -/
def defaultJobOptions : List (String × JsVal) :=
  [("attempts", JsVal.num 3),
   ("backoff", JsVal.obj [("type", JsVal.str "exponential"), ("delay", JsVal.num 2000)])]

/-- Function `addToMessageQueue`, lines 117-142: the result is `true` when the job was
returned and `false` when the rejection of `messageQueue.add` was rethrown. -/
def addToMessageQueue (rejected : Bool) (jobType : String) (data : JsVal)
    (options : JsVal) : Bool × List Effect :=
  (!rejected,
   [Effect.queueAdd QueueName.messageQueue jobType data
      (JsVal.obj (assignFields defaultJobOptions options.spread))])

/-- Function `addToNotificationQueue`, lines 144-169. -/
def addToNotificationQueue (rejected : Bool) (jobType : String) (data : JsVal)
    (options : JsVal) : Bool × List Effect :=
  (!rejected,
   [Effect.queueAdd QueueName.notificationQueue jobType data
      (JsVal.obj (assignFields defaultJobOptions options.spread))])

/-! ## Event controller (`src/chat/eventController.js`) -/

/-- Event name `LISTENER.RECEIVE_MESSAGE`. -/
def LISTENER.RECEIVE_MESSAGE : String := "receive_message"

/-- Event name `LISTENER.CHAT_LIST`. -/
def LISTENER.CHAT_LIST : String := "chat_list"

/-- The object `messageData` of `sendMessage`, lines 121-129. -/
def messageData (env : Env) (user_id chat_id dataObj message_type : JsVal) : JsVal :=
  JsVal.obj
    [("id", JsVal.str env.uuid), ("chatId", chat_id), ("userId", user_id),
     ("content", dataObj), ("messageType", message_type),
     ("timestamp", JsVal.date (env.clock 0)), ("server_id", env.serverId)]

/-- The object `chatListUpdate` of `sendMessage`, lines 140-148. -/
def chatListUpdate (env : Env) (chat_id msg : JsVal) : JsVal :=
  JsVal.obj
    [("success", JsVal.bool true), ("message", JsVal.str "Chat list updated successfully."),
     ("data", JsVal.obj [("chat_id", chat_id), ("last_message", msg),
                         ("updated_at", JsVal.date (env.clock 0))])]

/-- The loop `participants.forEach(userId => emitToUser(io, userId, CHAT_LIST,
chatListUpdate))`, lines 150-152, when `i` emits to participants have been made. The
room emit came first, so the next emit to a participant uses clock reading `2 + i` and
is bus call `1 + i`. -/
def emitChatList (env : Env) (update : JsVal) : Nat → List JsVal → List Effect
  | _, [] => []
  | i, userId :: rest =>
      let sent := (emitToUser env (env.clock (2 + i)) (env.emitRaises (1 + i)) userId
        LISTENER.CHAT_LIST update).2
      sent ++ emitChatList env update (i + sent.length) rest

/-- The `offlineUsers` of `sendMessage`, line 160:
`participants.filter(userId => userId !== user_id)`. -/
def offlineUsers (participants : List JsVal) (user_id : JsVal) : List JsVal :=
  participants.filter (fun userId => !(userId.strictEq user_id))

/-- The body of the `try` block of `sendMessage`, lines 155-172: the additions are
awaited one after the other and the first rejection leaves the block (the `catch`
only logs), as would the conversion of `chat_id` in the text of the notification. -/
def enqueueJobs (env : Env) (msg chat_id user_id participants : JsVal) : List Effect :=
  let save := addToMessageQueue (env.queueRejects 0) "saveMessage"
    (JsVal.obj [("messageData", msg)]) (JsVal.obj [])
  if !save.1 then save.2 else
  let update := addToMessageQueue (env.queueRejects 1) "updateChatList"
    (JsVal.obj [("chatId", chat_id), ("participants", participants)]) (JsVal.obj [])
  if !update.1 then save.2 ++ update.2 else
  let offline := offlineUsers participants.items user_id
  if offline.length > 0 then
    match chat_id.toStr with
    | none => save.2 ++ update.2
    | some chatName =>
        save.2 ++ update.2 ++
          (addToNotificationQueue (env.queueRejects 2) "sendPushNotification"
            (JsVal.obj [("userIds", JsVal.arr offline),
                        ("message", JsVal.str ("New message in chat " ++ chatName)),
                        ("type", JsVal.str "new_message"), ("data", msg)]) (JsVal.obj [])).2
  else save.2 ++ update.2

/-- Handler `sendMessage`, lines 105-187, applied to the event payload and the last
argument of the event. The room name `chat_${chat_id}` of line 132 is built outside any
`try`, after the message was stamped: when that conversion raises, the handler raises
with one clock reading taken and no call made. -/
def sendMessage (env : Env) (payload : JsVal) (cb : Callback) : Run :=
  match payload with
  | JsVal.undefined => ⟨Outcome.threw Raised.typeError, [], 0⟩
  | JsVal.null => ⟨Outcome.threw Raised.typeError, [], 0⟩
  | _ =>
  let user_id := payload.prop "user_id"
  let chat_id := payload.prop "chat_id"
  let participants := (payload.prop "participants").orDefault (JsVal.arr [])
  let dataObj := payload.prop "data"
  let message_type := (payload.prop "message_type").orDefault (JsVal.str "text")
  match participants with
  | JsVal.null => ⟨Outcome.threw Raised.typeError, [], 0⟩
  | _ =>
  if !chat_id.truthy then ⟨Outcome.threw (Raised.error "Chat Id is required."), [], 0⟩ else
  if !user_id.truthy then ⟨Outcome.threw (Raised.error "User id is required."), [], 0⟩ else
  if !participants.truthy || !participants.isArray then
    ⟨Outcome.threw (Raised.error "Participants is required and must be an array."), [], 0⟩ else
  if !dataObj.truthy then
    ⟨Outcome.threw (Raised.error "Message data is required."), [], 0⟩ else
  let msg := messageData env user_id chat_id dataObj message_type
  match chat_id.toStr with
  | none => ⟨Outcome.threw Raised.typeError, [], 1⟩
  | some chatName =>
  let roomName := "chat_" ++ chatName
  let room := emitToRoom env (env.clock 1) (env.emitRaises 0) roomName LISTENER.RECEIVE_MESSAGE
    (JsVal.obj [("success", JsVal.bool true),
                ("message", JsVal.str "Message received successfully."), ("data", msg)])
  let users := emitChatList env (chatListUpdate env chat_id msg) 0 participants.items
  let jobs := enqueueJobs env msg chat_id user_id participants
  let resObj := JsVal.obj
    (assignFields msg.spread [("queued_for_processing", JsVal.bool true)])
  ⟨Outcome.returned,
   room.2 ++ users ++ jobs ++
     sendResponse env (env.clock (2 + users.length)) cb "Message sent successfully" resObj,
   3 + users.length⟩

/-! ## Connections and the remaining handlers -/

/-- Event name `LISTENER.MESSAGE_DELETED`. -/
def LISTENER.MESSAGE_DELETED : String := "message_deleted"

/-- Event name `LISTENER.USER_JOINED`. -/
def LISTENER.USER_JOINED : String := "user_joined"

/-- Event name `LISTENER.USER_LEFT`. -/
def LISTENER.USER_LEFT : String := "user_left"

/-- Event name `LISTENER.TYPING_START`. -/
def LISTENER.TYPING_START : String := "typing_start"

/-- Event name `LISTENER.TYPING_STOP`. -/
def LISTENER.TYPING_STOP : String := "typing_stop"

/-- One socket.io connection as the controller uses it: its `id`, the property
`userId` that `register` sets (`undefined` before), and the rooms it has joined through
`socket.join` (the set `socket.rooms`, without the room socket.io names after the
socket itself). -/
structure Socket where
  id : String
  userId : JsVal
  rooms : List String
deriving Repr

/-- A connection right after the handshake: no identity, no room. -/
def Socket.fresh (id : String) : Socket := ⟨id, JsVal.undefined, []⟩

/-- The call `socket.join(room)`: the rooms of a socket form a set. -/
def Socket.join (socket : Socket) (room : String) : Socket :=
  if room ∈ socket.rooms then socket else { socket with rooms := socket.rooms ++ [room] }

/-- The call `socket.leave(room)`. -/
def Socket.leave (socket : Socket) (room : String) : Socket :=
  { socket with rooms := socket.rooms.filter (fun r => r != room) }

/-- The message texts of the errors that the code does not construct itself: the
`TypeError` of the runtime (a run raises at most one) and the error of a bus whose emit
raises. -/
structure ErrorTexts where
  typeError : String
  bus : String
deriving Repr

/-- One run of a handler bound to a connection: how it ended, the calls it made, the
connection afterwards and the number of clock readings it took. -/
structure Handled where
  outcome : Outcome
  trace : List Effect
  socket : Socket
  reads : Nat
deriving Repr

/-- Handler `register`, lines 18-40. The room name `user_${user_id}` of line 24 is
built before the join; when that conversion raises, the handler raises with the
connection untouched. -/
def register (env : Env) (socket : Socket) (payload : JsVal) (ackCallback : Callback) :
    Handled :=
  match payload with
  | JsVal.undefined => ⟨Outcome.threw Raised.typeError, [], socket, 0⟩
  | JsVal.null => ⟨Outcome.threw Raised.typeError, [], socket, 0⟩
  | _ =>
  let user_id := payload.prop "user_id"
  if !user_id.truthy then
    ⟨Outcome.threw (Raised.error "User Id is required."), [], socket, 0⟩ else
  match user_id.toStr with
  | none => ⟨Outcome.threw Raised.typeError, [], socket, 0⟩
  | some userName =>
  let joined := socket.join ("user_" ++ userName)
  let bound : Socket := { joined with userId := user_id }
  let resObj := JsVal.obj
    [("socket_id", JsVal.str socket.id), ("user_id", user_id), ("server_id", env.serverId)]
  ⟨Outcome.returned,
   sendResponse env (env.clock 0) ackCallback "User registered successfully." resObj,
   bound, 1⟩

/-- Handler `joinChat`, lines 42-71. The room name `chat_${chat_id}` of line 48 is
built before the join; when that conversion raises, the handler raises with the
connection untouched. The emit `socket.to(roomName).emit(...)` is not guarded: when it
raises, the error leaves the handler after the join was made. -/
def joinChat (env : Env) (texts : ErrorTexts) (socket : Socket) (payload : JsVal)
    (cb : Callback) : Handled :=
  match payload with
  | JsVal.undefined => ⟨Outcome.threw Raised.typeError, [], socket, 0⟩
  | JsVal.null => ⟨Outcome.threw Raised.typeError, [], socket, 0⟩
  | _ =>
  let chat_id := payload.prop "chat_id"
  if !chat_id.truthy then
    ⟨Outcome.threw (Raised.error "Chat Id is required."), [], socket, 0⟩ else
  if !socket.userId.truthy then
    ⟨Outcome.threw (Raised.error "User must be registered first."), [], socket, 0⟩ else
  match chat_id.toStr with
  | none => ⟨Outcome.threw Raised.typeError, [], socket, 0⟩
  | some chatName =>
  let roomName := "chat_" ++ chatName
  let joined := socket.join roomName
  let notice := Effect.broadcast roomName LISTENER.USER_JOINED
    (JsVal.obj [("user_id", socket.userId), ("chat_id", chat_id),
                ("timestamp", JsVal.str (env.isoString (env.clock 0)))])
  if env.emitRaises 0 then ⟨Outcome.threw (Raised.error texts.bus), [notice], joined, 1⟩ else
  let resObj := JsVal.obj
    [("room_name", JsVal.str roomName), ("chat_id", chat_id), ("user_id", socket.userId)]
  ⟨Outcome.returned,
   notice :: sendResponse env (env.clock 1) cb "Chat joined successfully." resObj,
   joined, 2⟩

/-- Handler `leaveChat`, lines 73-103, of the same shape as `joinChat`: the room name
of line 79 is built before the leave. -/
def leaveChat (env : Env) (texts : ErrorTexts) (socket : Socket) (payload : JsVal)
    (cb : Callback) : Handled :=
  match payload with
  | JsVal.undefined => ⟨Outcome.threw Raised.typeError, [], socket, 0⟩
  | JsVal.null => ⟨Outcome.threw Raised.typeError, [], socket, 0⟩
  | _ =>
  let chat_id := payload.prop "chat_id"
  if !chat_id.truthy then
    ⟨Outcome.threw (Raised.error "Chat Id is required."), [], socket, 0⟩ else
  if !socket.userId.truthy then
    ⟨Outcome.threw (Raised.error "User must be registered first."), [], socket, 0⟩ else
  match chat_id.toStr with
  | none => ⟨Outcome.threw Raised.typeError, [], socket, 0⟩
  | some chatName =>
  let roomName := "chat_" ++ chatName
  let left := socket.leave roomName
  let notice := Effect.broadcast roomName LISTENER.USER_LEFT
    (JsVal.obj [("user_id", socket.userId), ("chat_id", chat_id),
                ("timestamp", JsVal.str (env.isoString (env.clock 0)))])
  if env.emitRaises 0 then ⟨Outcome.threw (Raised.error texts.bus), [notice], left, 1⟩ else
  let resObj := JsVal.obj
    [("room_name", JsVal.str roomName), ("chat_id", chat_id), ("user_id", socket.userId),
     ("message", JsVal.str "Chat left successfully.")]
  ⟨Outcome.returned,
   notice :: sendResponse env (env.clock 1) cb "Chat left successfully." resObj,
   left, 2⟩

/-- Handler `deleteMessage`, lines 189-238. The room name of line 212 is built outside
any `try`, after `deleteData` took its clock reading: when that conversion raises, the
handler raises with no call made. -/
def deleteMessage (env : Env) (payload : JsVal) (cb : Callback) : Run :=
  match payload with
  | JsVal.undefined => ⟨Outcome.threw Raised.typeError, [], 0⟩
  | JsVal.null => ⟨Outcome.threw Raised.typeError, [], 0⟩
  | _ =>
  let message_id := payload.prop "message_id"
  let chat_id := payload.prop "chat_id"
  let user_id := payload.prop "user_id"
  let delete_for_everyone :=
    (payload.prop "delete_for_everyone").orDefault (JsVal.bool false)
  let dataObj := payload.prop "data"
  if !message_id.truthy || !chat_id.truthy || !user_id.truthy then
    ⟨Outcome.threw (Raised.error "Message ID, Chat ID and User ID are required."), [], 0⟩
  else
  let deleteData := JsVal.obj
    [("message_id", message_id), ("deleted_by", user_id),
     ("deleted_at", JsVal.date (env.clock 0)), ("chat_id", chat_id),
     ("delete_for_everyone", delete_for_everyone), ("data", dataObj),
     ("server_id", env.serverId)]
  match chat_id.toStr with
  | none => ⟨Outcome.threw Raised.typeError, [], 1⟩
  | some chatName =>
  let roomName := "chat_" ++ chatName
  let room := emitToRoom env (env.clock 1) (env.emitRaises 0) roomName
    LISTENER.MESSAGE_DELETED
    (JsVal.obj [("success", JsVal.bool true),
                ("message", JsVal.str "Message deleted successfully."),
                ("data", deleteData)])
  let job := addToMessageQueue (env.queueRejects 0) "deleteMessage"
    (JsVal.obj [("messageId", message_id), ("deletedBy", user_id),
                ("deleteForEveryone", delete_for_everyone), ("chatId", chat_id)])
    (JsVal.obj [])
  ⟨Outcome.returned,
   room.2 ++ job.2 ++ sendResponse env (env.clock 2) cb "Message deleted successfully" deleteData,
   3⟩

/-- The common body of `startTyping` and `stopTyping`, lines 241-267, which differ in
the event name only. The room name is built first and its conversion may raise. The
response is sent when `cb` is truthy, and without `data`. -/
def typingNotice (event : String) (env : Env) (texts : ErrorTexts) (socket : Socket)
    (payload : JsVal) (cb : Callback) : Handled :=
  match payload with
  | JsVal.undefined => ⟨Outcome.threw Raised.typeError, [], socket, 0⟩
  | JsVal.null => ⟨Outcome.threw Raised.typeError, [], socket, 0⟩
  | _ =>
  let chat_id := payload.prop "chat_id"
  let user_id := payload.prop "user_id"
  if !chat_id.truthy || !user_id.truthy then
    ⟨Outcome.threw (Raised.error "Chat ID and User ID are required."), [], socket, 0⟩ else
  match chat_id.toStr with
  | none => ⟨Outcome.threw Raised.typeError, [], socket, 0⟩
  | some chatName =>
  let roomName := "chat_" ++ chatName
  let notice := Effect.broadcast roomName event
    (JsVal.obj [("user_id", user_id), ("chat_id", chat_id),
                ("timestamp", JsVal.str (env.isoString (env.clock 0)))])
  if env.emitRaises 0 then ⟨Outcome.threw (Raised.error texts.bus), [notice], socket, 1⟩ else
  match cb with
  | Callback.absent => ⟨Outcome.returned, [notice], socket, 1⟩
  | _ =>
    ⟨Outcome.returned,
     notice :: sendResponse env (env.clock 1) cb "Typing status updated" JsVal.undefined,
     socket, 2⟩

/-- Handler `startTyping`, lines 241-253. -/
def startTyping (env : Env) (texts : ErrorTexts) (socket : Socket) (payload : JsVal)
    (cb : Callback) : Handled :=
  typingNotice LISTENER.TYPING_START env texts socket payload cb

/-- Handler `stopTyping`, lines 255-267. -/
def stopTyping (env : Env) (texts : ErrorTexts) (socket : Socket) (payload : JsVal)
    (cb : Callback) : Handled :=
  typingNotice LISTENER.TYPING_STOP env texts socket payload cb

/-- The text of a raised error, `err.message`. -/
def Raised.message (texts : ErrorTexts) : Raised → String
  | Raised.error message => message
  | Raised.typeError => texts.typeError

/-- Wrapper `catchAsync` of `src/utils/util.js`, lines 90-114, around a handler `fn`
applied to the event payload and the last argument of the event. The acknowledgement
callback is the last argument when that is a function. -/
def catchAsync (env : Env) (texts : ErrorTexts) (fn : JsVal → Callback → Handled)
    (payload : JsVal) (lastArg : Callback) : Handled :=
  let handled := fn payload lastArg
  match handled.outcome with
  | Outcome.returned => handled
  | Outcome.threw err =>
      match lastArg with
      | Callback.function =>
          ⟨Outcome.returned,
           handled.trace ++
             [Effect.ack (JsVal.obj
               [("success", JsVal.bool false), ("status", JsVal.str "error"),
                ("message", JsVal.str
                  (if err.message texts = "" then "Unexpected error" else err.message texts)),
                ("timestamp", JsVal.str (env.isoString (env.clock handled.reads))),
                ("server_id", env.serverId)])],
           handled.socket, handled.reads + 1⟩
      | _ => ⟨Outcome.returned, handled.trace, handled.socket, handled.reads⟩

/-- The events a client can send, as registered in `src/chat/event.js`, lines 11-19. -/
inductive ClientEvent where
  | register
  | joinChat
  | leaveChat
  | sendMessage
  | deleteMessage
  | startTyping
  | stopTyping
deriving DecidableEq, Repr

/-- A handler that does not touch the connection, seen as a handler bound to it. -/
def Run.onSocket (run : Run) (socket : Socket) : Handled :=
  ⟨run.outcome, run.trace, socket, run.reads⟩

/-- The object `eventController(socket, io)`: the handler of each event, bound to the
connection. -/
def controller (env : Env) (texts : ErrorTexts) (socket : Socket) :
    ClientEvent → JsVal → Callback → Handled
  | ClientEvent.register => fun payload cb => register env socket payload cb
  | ClientEvent.joinChat => fun payload cb => joinChat env texts socket payload cb
  | ClientEvent.leaveChat => fun payload cb => leaveChat env texts socket payload cb
  | ClientEvent.sendMessage => fun payload cb => (sendMessage env payload cb).onSocket socket
  | ClientEvent.deleteMessage => fun payload cb =>
      (deleteMessage env payload cb).onSocket socket
  | ClientEvent.startTyping => fun payload cb => startTyping env texts socket payload cb
  | ClientEvent.stopTyping => fun payload cb => stopTyping env texts socket payload cb

/-- The listener that `src/chat/event.js` registers for a client event:
`socket.on(name, catchAsync(controller[name]))`. -/
def onEvent (env : Env) (texts : ErrorTexts) (socket : Socket) (event : ClientEvent)
    (payload : JsVal) (lastArg : Callback) : Handled :=
  catchAsync env texts (controller env texts socket event) payload lastArg

/-- Closing of a connection. socket.io takes a closing socket out of all its rooms and
then runs the two `disconnect` listeners (`src/chat/event.js` lines 22-28,
`src/socket.js` lines 54-60), which only log. -/
def disconnect (socket : Socket) : Handled :=
  ⟨Outcome.returned, [], { socket with rooms := [] }, 0⟩

/-! ## Rooms across connections -/

/-- A `joinChat` (`join = true`) or `leaveChat` event sent by the connection `conn`. -/
structure RoomOp where
  conn : String
  join : Bool
  chat_id : JsVal
  cb : Callback
deriving Repr

/-- The room a room operation is about: `chat_<chat_id>`; none when `chat_id` has no
string conversion. -/
def RoomOp.room (op : RoomOp) : Option String :=
  op.chat_id.toStr.map (fun chatName => "chat_" ++ chatName)

/-- The handler run of a room operation on a connection. -/
def RoomOp.handle (env : Env) (texts : ErrorTexts) (op : RoomOp) (socket : Socket) :
    Handled :=
  if op.join then
    joinChat env texts socket (JsVal.obj [("chat_id", op.chat_id)]) op.cb
  else
    leaveChat env texts socket (JsVal.obj [("chat_id", op.chat_id)]) op.cb

/-- A room operation is successful when its connection exists and its handler
returns. -/
def RoomOp.succeeds (env : Env) (texts : ErrorTexts) (sockets : List Socket) (op : RoomOp) :
    Bool :=
  sockets.any (fun s => s.id == op.conn) &&
    sockets.all (fun s => s.id != op.conn || (op.handle env texts s).outcome == Outcome.returned)

/-- The connections of a process after a room operation. -/
def RoomOp.apply (env : Env) (texts : ErrorTexts) (sockets : List Socket) (op : RoomOp) :
    List Socket :=
  sockets.map (fun s => if s.id = op.conn then (op.handle env texts s).socket else s)

/-- The connections after a sequence of room operations. -/
def runRoomOps (env : Env) (texts : ErrorTexts) : List Socket → List RoomOp → List Socket
  | sockets, [] => sockets
  | sockets, op :: rest => runRoomOps env texts (op.apply env texts sockets) rest

/-- Every operation of the sequence is successful in the state it is applied to. -/
def allSucceed (env : Env) (texts : ErrorTexts) : List Socket → List RoomOp → Bool
  | _, [] => true
  | sockets, op :: rest =>
      op.succeeds env texts sockets && allSucceed env texts (op.apply env texts sockets) rest

/-- The member set of a room: the identifiers of the connections that are in it. -/
def members (sockets : List Socket) (room : String) : List String :=
  (sockets.filter (fun s => decide (room ∈ s.rooms))).map (fun s => s.id)

/-- The most recent operation of connection `conn` on `room` in a sequence: `some true`
for a join, `some false` for a leave, `none` when there is none. -/
def lastRoomOp (ops : List RoomOp) (conn room : String) : Option Bool :=
  ((ops.filter (fun op => decide (op.conn = conn ∧ op.room = some room))).getLast?).map
    (fun op => op.join)

/-! ## Durable job queue -/

/-- Modelled from the spec: the states of a job of the queue engine, which is not in
the source. -/
inductive JobState where
  | queued
  | active
  | completed
  | failed
deriving DecidableEq, Repr

/-- Modelled from the spec: the job record of the queue engine. The engine is the
`bull` package, of which only the callers (`src/utils/util.js`,
`src/utils/messageQueue.js`) are in the source. A job has an attempt count, a maximum
number of attempts, the base delay of its backoff and a state. -/
structure Job where
  attemptsMade : Nat
  maxAttempts : Nat
  baseDelay : Nat
  state : JobState
deriving DecidableEq, Repr

/-- The natural number a JavaScript value holds (0 for anything but a non-negative
number). -/
def JsVal.toNat : JsVal → Nat
  | JsVal.num n => n.toNat
  | _ => 0

/-- Modelled from the spec: `enqueue` of the queue engine, which is not in the source,
admits a job in `queued` state with the retry policy of its options: `attempts`
attempts and a backoff starting from `backoff.delay`. -/
def admitJob (options : JsVal) : Job :=
  ⟨0, (options.prop "attempts").toNat, ((options.prop "backoff").prop "delay").toNat,
   JobState.queued⟩

/-- Modelled from the spec: one transition of the job state machine of the queue
engine, which is not in the source. A worker takes a queued job (`queued → active`);
a handler that succeeds completes it; a handler that fails sends it back to `queued`
with the next backoff delay, each retry delay being the double of the previous one and
the first one the base, or to `failed` once the attempts are exhausted. `completed`
and `failed` are terminal. The result is the job after the transition and the backoff
delay applied, if any. -/
def Job.step (handlerFails : Bool) (job : Job) : Option (Job × Option Nat) :=
  match job.state with
  | JobState.queued => some ({ job with state := JobState.active }, none)
  | JobState.active =>
      if handlerFails then
        if job.attemptsMade + 1 < job.maxAttempts then
          some ({ job with attemptsMade := job.attemptsMade + 1, state := JobState.queued },
                some (job.baseDelay * 2 ^ job.attemptsMade))
        else
          some ({ job with attemptsMade := job.attemptsMade + 1, state := JobState.failed },
                none)
      else
        some ({ job with attemptsMade := job.attemptsMade + 1, state := JobState.completed },
              none)
  | JobState.completed => none
  | JobState.failed => none

/-- Modelled from the spec: the life of a job in the queue engine, which is not in the
source, followed for at most `fuel` transitions: the states it goes through, the
backoff delays applied and the job at the end. `handlerFails k` tells
whether the handler fails on the attempt made after `k` earlier ones. -/
def Job.run (handlerFails : Nat → Bool) : Nat → Job → List JobState × List Nat × Job
  | 0, job => ([job.state], [], job)
  | fuel + 1, job =>
      match job.step (handlerFails job.attemptsMade) with
      | none => ([job.state], [], job)
      | some (next, delay) =>
          let rest := Job.run handlerFails fuel next
          (job.state :: rest.1, delay.toList ++ rest.2.1, rest.2.2)

/-! ## Fleet supervisor (`src/utils/cluster.js`) -/

/-- The environment that `cluster.fork` is given for one worker. -/
structure ForkEnv where
  SERVER_ID : String
  PORT : JsVal
deriving Repr

/-- The fork loop of the master, lines 13-20, for `numWorkers` workers, with `basePort`
the value of `parseInt(process.env.PORT || 5400)`. -/
def forkWorkers (numWorkers basePort : Nat) : List ForkEnv :=
  (List.range numWorkers).map
    (fun i => ⟨"worker_" ++ toString (i + 1), JsVal.num ((basePort + i : Nat) : Int)⟩)

/-- The `cluster.Worker` object that Node hands to the `exit` listener. Its data
properties are `id`, `process` (the child process, with its `pid`) and
`exitedAfterDisconnect`; the environment given to `cluster.fork` goes to the child
process and is not kept on the worker object. -/
structure Worker where
  id : Nat
  pid : Nat
  exitedAfterDisconnect : Bool
deriving Repr

/-- The worker object as a JavaScript value. -/
def Worker.asJs (worker : Worker) : JsVal :=
  JsVal.obj [("id", JsVal.num (worker.id : Int)),
             ("process", JsVal.obj [("pid", JsVal.num (worker.pid : Int))]),
             ("exitedAfterDisconnect", JsVal.bool worker.exitedAfterDisconnect)]

/-- The `exit` listener of the master, lines 22-32, at clock reading `now`, on the worker
object `worker` it is handed: the environment it gives to `cluster.fork` for the new
worker, or the `TypeError` it raises. Line 23 reads `worker.process.pid` and line 28
reads `worker.env.PORT`; either read raises when the property before the last dot is
missing, and then nothing is forked (the pid is also converted to a string, for the
log line). -/
def onWorkerExit (now basePort : Nat) (worker : JsVal) : Except Raised ForkEnv :=
  match worker.prop "process" with
  | JsVal.undefined => Except.error Raised.typeError
  | JsVal.null => Except.error Raised.typeError
  | process =>
  match (process.prop "pid").toStr with
  | none => Except.error Raised.typeError
  | some _ =>
  match worker.prop "env" with
  | JsVal.undefined => Except.error Raised.typeError
  | JsVal.null => Except.error Raised.typeError
  | env =>
      Except.ok
        ⟨"worker_" ++ toString now,
         if (env.prop "PORT").truthy then env.prop "PORT"
         else JsVal.num ((basePort : Nat) : Int)⟩

/-- The live workers after the worker `dead` exited and the `exit` listener ran on the
worker object `worker`: the dead one is gone and the forked one, if any, is added. -/
def replaceWorker (now basePort : Nat) (live : List ForkEnv) (dead : ForkEnv)
    (worker : JsVal) : List ForkEnv :=
  match onWorkerExit now basePort worker with
  | Except.ok env => live.filter (fun w => w.SERVER_ID != dead.SERVER_ID) ++ [env]
  | Except.error _ => live.filter (fun w => w.SERVER_ID != dead.SERVER_ID)

/-! ## Redis client (`src/utils/redis.js`) -/

/-- A client object made by `redis.createClient`: which one it is, whether its
`connect` has succeeded, and the events it has listeners for. -/
structure RedisClient where
  id : Nat
  connected : Bool
  listeners : List String
deriving DecidableEq, Repr

/-- The module state of `src/utils/redis.js`: the variable `redisClient` (`none` for
`null`) and the number of clients `redis.createClient` has made so far. -/
structure RedisModule where
  redisClient : Option RedisClient
  created : Nat
deriving DecidableEq, Repr

/-- The module state at load time. -/
def RedisModule.init : RedisModule := ⟨none, 0⟩

/-- A call made to the `redis` package. -/
inductive RedisCall where
  | createClient
  | connect (client : Nat)
  | on (client : Nat) (event : String)
deriving DecidableEq, Repr

/-- How a call of `createRedisClient` ends: it returns a client, or it rethrows the
error of the package. -/
inductive RedisResult where
  | returned (client : RedisClient)
  | raised
deriving DecidableEq, Repr

/-- Function `createRedisClient`, lines 6-44. `createRaises` and `connectRaises` tell
whether `redis.createClient` and `redisClient.connect()` raise. The result is how the
call ended, the module state afterwards and the calls made to the package. -/
def createRedisClient (m : RedisModule) (createRaises connectRaises : Bool) :
    RedisResult × RedisModule × List RedisCall :=
  match m.redisClient with
  | some client => (RedisResult.returned client, m, [])
  | none =>
      if createRaises then (RedisResult.raised, m, [RedisCall.createClient]) else
      let client : RedisClient := ⟨m.created, false, []⟩
      if connectRaises then
        (RedisResult.raised, ⟨some client, m.created + 1⟩,
         [RedisCall.createClient, RedisCall.connect client.id])
      else
        let ready : RedisClient := ⟨m.created, true, ["error", "connect"]⟩
        (RedisResult.returned ready, ⟨some ready, m.created + 1⟩,
         [RedisCall.createClient, RedisCall.connect client.id,
          RedisCall.on client.id "error", RedisCall.on client.id "connect"])

/-! ## Observations on runs -/

/-- The payloads that pass the four checks of `sendMessage`, lines 113-116: `chat_id`,
`user_id` and `data` are truthy and `participants` (an empty list when the key is
missing) is an array. -/
def passesValidation (payload : JsVal) : Bool :=
  (payload.prop "chat_id").truthy && (payload.prop "user_id").truthy &&
    ((payload.prop "participants").orDefault (JsVal.arr [])).isArray &&
    (payload.prop "data").truthy

/-- Whether an effect is an emit on the bus. -/
def Effect.isEmit : Effect → Bool
  | Effect.emit _ _ _ => true
  | _ => false

/-- Whether an effect is an addition to a queue. -/
def Effect.isQueueAdd : Effect → Bool
  | Effect.queueAdd _ _ _ _ => true
  | _ => false

/-- Whether an effect is an emit of `event` on `topic`. -/
def Effect.isEmitOn (topic event : String) : Effect → Bool
  | Effect.emit t e _ => t == topic && e == event
  | _ => false

/-- Number of emits of `event` on `topic` in a trace. -/
def emitCount (trace : List Effect) (topic event : String) : Nat :=
  trace.countP (Effect.isEmitOn topic event)

/-- Whether an effect is an addition to the given queue. -/
def Effect.isAddTo (queue : QueueName) : Effect → Bool
  | Effect.queueAdd q _ _ _ => q == queue
  | _ => false

/-- Whether an effect is a broadcast of `event` from a socket to `topic`. -/
def Effect.isBroadcastOn (topic event : String) : Effect → Bool
  | Effect.broadcast t e _ => t == topic && e == event
  | _ => false

/-- Number of broadcasts of `event` to `topic` in a trace. -/
def broadcastCount (trace : List Effect) (topic event : String) : Nat :=
  trace.countP (Effect.isBroadcastOn topic event)

/-- Whether an effect publishes an event to other clients, through `io.to(...)` or
through `socket.to(...)`. -/
def Effect.isPublish : Effect → Bool
  | Effect.emit _ _ _ => true
  | Effect.broadcast _ _ _ => true
  | _ => false

/-- Whether an effect is a call of the acknowledgement callback. -/
def Effect.isAck : Effect → Bool
  | Effect.ack _ => true
  | _ => false

/-- Whether an object value has `key` among its own keys. -/
def JsVal.hasKey (v : JsVal) (key : String) : Bool :=
  v.spread.any (fun kv => kv.1 == key)

/-- The payload an effect carries to clients (`undefined` for a queue addition). -/
def Effect.payload : Effect → JsVal
  | Effect.emit _ _ payload => payload
  | Effect.broadcast _ _ payload => payload
  | Effect.socketEmit _ payload => payload
  | Effect.ack payload => payload
  | Effect.queueAdd _ _ _ _ => JsVal.undefined

/-- The payloads that pass the check of `deleteMessage`, lines 197-199: `message_id`,
`chat_id` and `user_id` are truthy. -/
def passesDeleteValidation (payload : JsVal) : Bool :=
  (payload.prop "message_id").truthy && (payload.prop "chat_id").truthy &&
    (payload.prop "user_id").truthy

/-- The number that a list of decimal digit characters denotes, continuing from
`start`. -/
def digitsValue (digits : List Char) (start : Nat) : Nat :=
  digits.foldl (fun acc c => acc * 10 + (c.toNat - 48)) start

/-! ## Sample data -/

/-- Three instances of which the middle one is marked unhealthy, cursor at 5. -/
def sampleBalancer : LoadBalancer where
  serverInstances := ["http://localhost:5400", "http://localhost:5401", "http://localhost:5402"]
  serverHealth := [("http://localhost:5400", true), ("http://localhost:5401", false),
                   ("http://localhost:5402", true)]
  currentServerIndex := 5

/-- An environment in which nothing raises: worker `worker_1`, clock readings 1000,
1001, ... -/
def sampleEnv : Env where
  serverId := JsVal.str "worker_1"
  uuid := "3f2a"
  clock := fun k => 1000 + k
  isoString := fun ms => toString ms
  emitRaises := fun _ => false
  queueRejects := fun _ => false

/-- The environment `sampleEnv` with every queue addition rejected. -/
def queueDownEnv : Env := { sampleEnv with queueRejects := fun _ => true }

/-- The payload of the delivery example: sender `u1`, chat `c1`, participants `u1`
and `u2`, content `{ text: "hi" }`. -/
def samplePayload : JsVal :=
  JsVal.obj
    [("user_id", JsVal.str "u1"), ("chat_id", JsVal.str "c1"),
     ("participants", JsVal.arr [JsVal.str "u1", JsVal.str "u2"]),
     ("data", JsVal.obj [("text", JsVal.str "hi")])]

/-- The payload `samplePayload` with the numeric chat identifier 0. -/
def zeroChatPayload : JsVal :=
  JsVal.obj
    [("user_id", JsVal.str "u1"), ("chat_id", JsVal.num 0),
     ("participants", JsVal.arr [JsVal.str "u1", JsVal.str "u2"]),
     ("data", JsVal.obj [("text", JsVal.str "hi")])]

/-- The payload `samplePayload` with participant `u2` listed twice. -/
def repeatedParticipantPayload : JsVal :=
  JsVal.obj
    [("user_id", JsVal.str "u1"), ("chat_id", JsVal.str "c1"),
     ("participants", JsVal.arr [JsVal.str "u2", JsVal.str "u2"]),
     ("data", JsVal.obj [("text", JsVal.str "hi")])]

/-- Sample texts for the errors of the runtime and of the bus. -/
def sampleTexts : ErrorTexts where
  typeError := "Cannot destructure property of undefined"
  bus := "Connection is closed."

/-- Sample texts for a run whose `TypeError` comes from a string conversion. -/
def conversionTexts : ErrorTexts where
  typeError := "Cannot convert object to primitive value"
  bus := "Connection is closed."

/-- The environment `sampleEnv` with every emit on the bus raising. -/
def busDownEnv : Env := { sampleEnv with emitRaises := fun _ => true }

/-- A connection registered as `u1`, in its own user room only. -/
def sampleSocket : Socket := ⟨"sock-1", JsVal.str "u1", ["user_u1"]⟩

/-- A connection registered as `u1` that has joined the chats `r1` and `r2`. -/
def socketInTwoRooms : Socket := ⟨"sock-1", JsVal.str "u1", ["user_u1", "chat_r1", "chat_r2"]⟩

/-- Payload `{ chat_id: "c1" }`. -/
def chatPayload : JsVal := JsVal.obj [("chat_id", JsVal.str "c1")]

/-- Payload `{ user_id: "u1" }`. -/
def registerPayload : JsVal := JsVal.obj [("user_id", JsVal.str "u1")]

/-- Payload `{ user_id: "u2" }`. -/
def secondRegisterPayload : JsVal := JsVal.obj [("user_id", JsVal.str "u2")]

/-- Payload `{ message_id: "m1", chat_id: "c1", user_id: "u1" }`. -/
def deletePayload : JsVal :=
  JsVal.obj [("message_id", JsVal.str "m1"), ("chat_id", JsVal.str "c1"),
             ("user_id", JsVal.str "u1")]

/-- Two registered connections, each in its own user room only. -/
def sampleSockets : List Socket :=
  [⟨"sock-1", JsVal.str "u1", ["user_u1"]⟩, ⟨"sock-2", JsVal.str "u2", ["user_u2"]⟩]

/-- Connection `sock-1` joins chat `c1`, `sock-2` joins it, then `sock-1` leaves it. -/
def sampleRoomOps : List RoomOp :=
  [⟨"sock-1", true, JsVal.str "c1", Callback.function⟩,
   ⟨"sock-2", true, JsVal.str "c1", Callback.function⟩,
   ⟨"sock-1", false, JsVal.str "c1", Callback.absent⟩]

/-- A handler that raises an error with an empty message. -/
def silentFailure : JsVal → Callback → Handled :=
  fun _ _ => ⟨Outcome.threw (Raised.error ""), [], Socket.fresh "sock-1", 0⟩

/-- Caller options `{ attempts: 5 }`. -/
def fiveAttempts : List (String × JsVal) := [("attempts", JsVal.num 5)]

/-- The payload `deletePayload` with the numeric message identifier 0. -/
def zeroMessagePayload : JsVal :=
  JsVal.obj [("message_id", JsVal.num 0), ("chat_id", JsVal.str "c1"),
             ("user_id", JsVal.str "u1")]

/-- Payload `deletePayload` with `delete_for_everyone: true`. -/
def deleteForEveryonePayload : JsVal :=
  JsVal.obj [("message_id", JsVal.str "m1"), ("chat_id", JsVal.str "c1"),
             ("user_id", JsVal.str "u1"), ("delete_for_everyone", JsVal.bool true)]

/-- The environment `sampleEnv` with the first queue addition rejected. -/
def saveDownEnv : Env := { sampleEnv with queueRejects := fun k => k == 0 }

/-- The environment `sampleEnv` with the second queue addition rejected. -/
def updateDownEnv : Env := { sampleEnv with queueRejects := fun k => k == 1 }

/-- The three default instances of the load balancer. -/
def defaultInstances : List String :=
  ["http://localhost:5400", "http://localhost:5401", "http://localhost:5402"]

/-- Two requests, a third one, a failed probe of the third instance, a request, a
successful probe of the third instance, a request. -/
def flappingEvents : List LbEvent :=
  [LbEvent.request, LbEvent.request, LbEvent.request,
   LbEvent.probe "http://localhost:5402" ProbeResult.error, LbEvent.request,
   LbEvent.probe "http://localhost:5402" (ProbeResult.response 200), LbEvent.request]

/-- The worker object of the first worker forked, with process id 4242, that exited on
its own. -/
def sampleWorker : Worker := ⟨1, 4242, false⟩

/-- An object with an own entry `toString`, as a client can send it:
`{ "toString": 1 }`. -/
def unconvertibleId : JsVal := JsVal.obj [("toString", JsVal.num 1)]

/-- The payload `samplePayload` with the object `unconvertibleId` as chat identifier. -/
def unconvertibleChatPayload : JsVal :=
  JsVal.obj
    [("user_id", JsVal.str "u1"), ("chat_id", unconvertibleId),
     ("participants", JsVal.arr [JsVal.str "u1", JsVal.str "u2"]),
     ("data", JsVal.obj [("text", JsVal.str "hi")])]

/-- Payload `{ chat_id: { toString: 1 } }`. -/
def unconvertibleJoinPayload : JsVal := JsVal.obj [("chat_id", unconvertibleId)]

/-- A clock reading of `Date.now()`. -/
def sampleNow : Nat := 1700000000000

/-! ## Lemmas on the health map and the selection -/

theorem mapGet_mapSet_self (m : List (String × Bool)) (server : String) (value : Bool) :
    mapGet (mapSet m server value) server = some value := by
  induction m with
  | nil => simp [mapSet, mapGet]
  | cons kv rest ih =>
      obtain ⟨k, v⟩ := kv
      by_cases hk : k = server
      · simp [mapSet, mapGet, hk]
      · simp [mapSet, mapGet, hk, ih]

theorem mapGet_mapSet_other (m : List (String × Bool)) (server other : String)
    (value : Bool) (hne : other ≠ server) :
    mapGet (mapSet m server value) other = mapGet m other := by
  induction m with
  | nil =>
      have hne2 : ¬ server = other := fun h => hne h.symm
      simp [mapSet, mapGet, hne2]
  | cons kv rest ih =>
      obtain ⟨k, v⟩ := kv
      by_cases hk : k = server
      · subst hk
        have hne2 : ¬ k = other := fun h => hne h.symm
        simp [mapSet, mapGet, hne2]
      · by_cases hko : k = other
        · subst hko
          simp [mapSet, mapGet, hk]
        · simp [mapSet, mapGet, hk, hko, ih]

theorem mem_healthyServers (s : LoadBalancer) (server : String) :
    server ∈ healthyServers s ↔
      server ∈ s.serverInstances ∧ mapGet s.serverHealth server = some true := by
  simp [healthyServers, List.mem_filter]

theorem healthyServers_eq_nil_iff (s : LoadBalancer) :
    healthyServers s = [] ↔
      ∀ server ∈ s.serverInstances, mapGet s.serverHealth server ≠ some true := by
  simp [healthyServers, List.filter_eq_nil_iff]

theorem middleware_of_healthy (s : LoadBalancer) (hne : healthyServers s ≠ []) :
    ∃ target,
      (healthyServers s)[s.currentServerIndex % (healthyServers s).length]? = some target ∧
      middleware s =
        (Routed.proxied target, { s with currentServerIndex := s.currentServerIndex + 1 }) := by
  have hlen : ¬ (healthyServers s).length = 0 := by
    simpa [List.length_eq_zero] using hne
  have hlt : s.currentServerIndex % (healthyServers s).length < (healthyServers s).length :=
    Nat.mod_lt _ (Nat.pos_of_ne_zero hlen)
  refine ⟨(healthyServers s).get ⟨_, hlt⟩, ?_, ?_⟩
  · simp [List.getElem?_eq_getElem hlt]
  · simp [middleware, hlen]

theorem middleware_of_none_healthy (s : LoadBalancer) (hnil : healthyServers s = []) :
    middleware s =
      (Routed.respond ⟨503, "Service Unavailable", "No healthy servers available"⟩, s) := by
  simp [middleware, hnil]

theorem middleware_keeps_health (s : LoadBalancer) :
    (middleware s).2.serverHealth = s.serverHealth ∧
    (middleware s).2.serverInstances = s.serverInstances := by
  by_cases hnil : healthyServers s = []
  · simp [middleware_of_none_healthy s hnil]
  · obtain ⟨target, _, hmw⟩ := middleware_of_healthy s hnil
    simp [hmw]

theorem healthyServers_middleware (s : LoadBalancer) :
    healthyServers (middleware s).2 = healthyServers s := by
  obtain ⟨hh, hi⟩ := middleware_keeps_health s
  simp [healthyServers, hh, hi]

theorem proxied_mem_healthy (s : LoadBalancer) (target : String)
    (h : (middleware s).1 = Routed.proxied target) : target ∈ healthyServers s := by
  by_cases hnil : healthyServers s = []
  · simp [middleware_of_none_healthy s hnil] at h
  · obtain ⟨t, hget, hmw⟩ := middleware_of_healthy s hnil
    rw [hmw] at h
    simp only [Routed.proxied.injEq] at h
    subst h
    exact List.getElem?_mem hget

theorem selections_succ (s : LoadBalancer) (n : Nat) :
    selections s (n + 1) = (middleware s).1 :: selections (middleware s).2 n := by
  simp [selections, List.replicate_succ, runEvents]

theorem selections_length (s : LoadBalancer) (n : Nat) : (selections s n).length = n := by
  induction n generalizing s with
  | zero => simp [selections, runEvents]
  | succ n ih => simp [selections_succ, ih]

theorem selections_getElem? (s : LoadBalancer) (hne : healthyServers s ≠ []) (n k : Nat)
    (hk : k < n) :
    (selections s n)[k]? =
      ((healthyServers s)[(s.currentServerIndex + k) % (healthyServers s).length]?).map
        Routed.proxied := by
  induction n generalizing s k with
  | zero => omega
  | succ n ih =>
      obtain ⟨target, hget, hmw⟩ := middleware_of_healthy s hne
      have hh : healthyServers (middleware s).2 = healthyServers s :=
        healthyServers_middleware s
      rw [selections_succ]
      cases k with
      | zero => simp [hmw, hget]
      | succ k =>
          have hne2 : healthyServers (middleware s).2 ≠ [] := by rw [hh]; exact hne
          have hstep := ih (middleware s).2 hne2 k (by omega)
          rw [List.getElem?_cons_succ, hstep, hh]
          have hc : (middleware s).2.currentServerIndex = s.currentServerIndex + 1 := by
            simp [hmw]
          rw [hc]
          have harith : s.currentServerIndex + 1 + k = s.currentServerIndex + (k + 1) := by
            omega
          rw [harith]

theorem unhealthy_never_routed (b : String) (events : List LbEvent) (s : LoadBalancer)
    (hb : mapGet s.serverHealth b ≠ some true)
    (hev : ∀ e ∈ events, e ≠ LbEvent.probe b (ProbeResult.response 200)) :
    Routed.proxied b ∉ (runEvents s events).1 := by
  induction events generalizing s with
  | nil => simp [runEvents]
  | cons e rest ih =>
      have hrest : ∀ e' ∈ rest, e' ≠ LbEvent.probe b (ProbeResult.response 200) :=
        fun e' he' => hev e' (List.mem_cons_of_mem _ he')
      cases e with
      | request =>
          have hkeep := (middleware_keeps_health s).1
          have hb2 : mapGet (middleware s).2.serverHealth b ≠ some true := by
            rw [hkeep]; exact hb
          have hhead : (middleware s).1 ≠ Routed.proxied b := by
            intro hp
            exact hb ((mem_healthyServers s b).1 (proxied_mem_healthy s b hp)).2
          simp only [runEvents, List.mem_cons, not_or]
          exact ⟨fun h => hhead h.symm, ih (middleware s).2 hb2 hrest⟩
      | proxyError targetServer =>
          have hb2 : mapGet (onError s targetServer).2.serverHealth b ≠ some true := by
            by_cases ht : b = targetServer
            · subst ht
              simp [onError, mapGet_mapSet_self]
            · simp only [onError]
              rw [mapGet_mapSet_other _ _ _ _ ht]
              exact hb
          simpa [runEvents] using ih (onError s targetServer).2 hb2 hrest
      | probe server result =>
          have hb2 : mapGet (checkServerHealth s server result).2.serverHealth b ≠ some true := by
            by_cases ht : b = server
            · subst ht
              cases result with
              | response status =>
                  have hst : status ≠ 200 := by
                    intro h200
                    subst h200
                    exact hev _ (List.mem_cons_self _ _) rfl
                  simp [checkServerHealth, mapGet_mapSet_self, hst]
              | error => simp [checkServerHealth, mapGet_mapSet_self]
            · cases result with
              | response status =>
                  simp only [checkServerHealth]
                  rw [mapGet_mapSet_other _ _ _ _ ht]
                  exact hb
              | error =>
                  simp only [checkServerHealth]
                  rw [mapGet_mapSet_other _ _ _ _ ht]
                  exact hb
          simpa [runEvents] using ih (checkServerHealth s server result).2 hb2 hrest

/-! ## Lemmas on string conversion and `sendMessage` -/

theorem toStr_obj (fields : List (String × JsVal)) :
    (JsVal.obj fields).toStr =
      if fields.any (fun kv => kv.1 == "toString") then none else some "[object Object]" := by
  simp [JsVal.toStr]

theorem toStr_obj_eq_none_iff (fields : List (String × JsVal)) :
    (JsVal.obj fields).toStr = none ↔ ∃ kv ∈ fields, kv.1 = "toString" := by
  rw [toStr_obj]
  by_cases h : fields.any (fun kv => kv.1 == "toString") = true
  · simp only [h, if_true, true_iff]
    simpa using h
  · simp only [h, if_false]
    simp only [List.any_eq_true, beq_iff_eq] at h
    simp [h]

theorem toStr_primitive (v : JsVal)
    (h : (∃ s, v = JsVal.str s) ∨ (∃ n, v = JsVal.num n) ∨ (∃ b, v = JsVal.bool b)) :
    ∃ name, v.toStr = some name := by
  rcases h with ⟨s, rfl⟩ | ⟨n, rfl⟩ | ⟨b, rfl⟩
  · exact ⟨s, by simp [JsVal.toStr]⟩
  · exact ⟨toString n, by simp [JsVal.toStr]⟩
  · exact ⟨if b then "true" else "false", by simp [JsVal.toStr]⟩

theorem emitChatList_eq_map (env : Env) (update : JsVal) (i : Nat) (items : List JsVal) :
    emitChatList env update i items =
      ((items.filterMap JsVal.toStr).enumFrom i).map (fun p =>
        Effect.emit ("user_" ++ p.2) "chat_list"
          (JsVal.obj (assignFields update.spread
            [("timestamp", JsVal.str (env.isoString (env.clock (2 + p.1)))),
             ("server_id", env.serverId)]))) := by
  induction items generalizing i with
  | nil => simp [emitChatList]
  | cons u rest ih =>
      cases hu : u.toStr with
      | none => simp [emitChatList, emitToUser, hu, ih, List.filterMap_cons]
      | some name =>
          simp [emitChatList, emitToUser, hu, ih, List.filterMap_cons, List.enumFrom_cons,
            LISTENER.CHAT_LIST]

theorem emitChatList_length (env : Env) (update : JsVal) (i : Nat) (items : List JsVal) :
    (emitChatList env update i items).length = (items.filterMap JsVal.toStr).length := by
  simp [emitChatList_eq_map]

theorem truthy_of_isArray (v : JsVal) (h : v.isArray = true) : v.truthy = true := by
  cases v <;> first | rfl | simp [JsVal.isArray] at h

theorem passesValidation_iff (payload : JsVal) :
    passesValidation payload = true ↔
      (payload.prop "chat_id").truthy = true ∧ (payload.prop "user_id").truthy = true ∧
      ((payload.prop "participants").orDefault (JsVal.arr [])).isArray = true ∧
      (payload.prop "data").truthy = true := by
  simp [passesValidation, and_assoc]

theorem sendMessage_of_valid (env : Env) (payload : JsVal) (cb : Callback)
    (hvalid : passesValidation payload = true) (chatName : String)
    (hname : (payload.prop "chat_id").toStr = some chatName) :
    sendMessage env payload cb =
      ⟨Outcome.returned,
       (emitToRoom env (env.clock 1) (env.emitRaises 0)
          ("chat_" ++ chatName) LISTENER.RECEIVE_MESSAGE
          (JsVal.obj [("success", JsVal.bool true),
                      ("message", JsVal.str "Message received successfully."),
                      ("data", messageData env (payload.prop "user_id") (payload.prop "chat_id")
                         (payload.prop "data")
                         ((payload.prop "message_type").orDefault (JsVal.str "text")))])).2 ++
       emitChatList env
         (chatListUpdate env (payload.prop "chat_id")
           (messageData env (payload.prop "user_id") (payload.prop "chat_id")
              (payload.prop "data")
              ((payload.prop "message_type").orDefault (JsVal.str "text")))) 0
         ((payload.prop "participants").orDefault (JsVal.arr [])).items ++
       enqueueJobs env
         (messageData env (payload.prop "user_id") (payload.prop "chat_id")
            (payload.prop "data")
            ((payload.prop "message_type").orDefault (JsVal.str "text")))
         (payload.prop "chat_id") (payload.prop "user_id")
         ((payload.prop "participants").orDefault (JsVal.arr [])) ++
       sendResponse env
         (env.clock (2 + (((payload.prop "participants").orDefault
            (JsVal.arr [])).items.filterMap JsVal.toStr).length))
         cb "Message sent successfully"
         (JsVal.obj (assignFields
           (messageData env (payload.prop "user_id") (payload.prop "chat_id")
              (payload.prop "data")
              ((payload.prop "message_type").orDefault (JsVal.str "text"))).spread
           [("queued_for_processing", JsVal.bool true)])),
       3 + (((payload.prop "participants").orDefault
          (JsVal.arr [])).items.filterMap JsVal.toStr).length⟩ := by
  obtain ⟨hc, hu, hp, hd⟩ := (passesValidation_iff payload).1 hvalid
  cases payload with
  | undefined => simp [JsVal.prop, JsVal.truthy] at hc
  | null => simp [JsVal.prop, JsVal.truthy] at hc
  | obj fields =>
    unfold sendMessage
    simp only []
    split
    · rename_i hnull
      rw [hnull] at hp
      simp [JsVal.isArray] at hp
    · simp [hc, hu, hp, hd, truthy_of_isArray _ hp, hname, emitChatList_length]
  | _ => simp [JsVal.prop, JsVal.truthy] at hc

theorem sendMessage_of_unconvertible (env : Env) (payload : JsVal) (cb : Callback)
    (hvalid : passesValidation payload = true)
    (hnone : (payload.prop "chat_id").toStr = none) :
    sendMessage env payload cb = ⟨Outcome.threw Raised.typeError, [], 1⟩ := by
  obtain ⟨hc, hu, hp, hd⟩ := (passesValidation_iff payload).1 hvalid
  cases payload with
  | undefined => simp [JsVal.prop, JsVal.truthy] at hc
  | null => simp [JsVal.prop, JsVal.truthy] at hc
  | obj fields =>
    unfold sendMessage
    simp only []
    split
    · rename_i hnull
      rw [hnull] at hp
      simp [JsVal.isArray] at hp
    · simp [hc, hu, hp, hd, truthy_of_isArray _ hp, hnone]
  | _ => simp [JsVal.prop, JsVal.truthy] at hc

theorem sendMessage_of_invalid (env : Env) (payload : JsVal) (cb : Callback)
    (hinvalid : passesValidation payload = false) :
    ∃ e, sendMessage env payload cb = ⟨Outcome.threw e, [], 0⟩ := by
  cases payload with
  | undefined => exact ⟨_, rfl⟩
  | null => exact ⟨_, rfl⟩
  | obj fields =>
    unfold sendMessage
    simp only []
    split
    · exact ⟨_, rfl⟩
    · by_cases hc : ((JsVal.obj fields).prop "chat_id").truthy = true
      · by_cases hu : ((JsVal.obj fields).prop "user_id").truthy = true
        · by_cases hp :
            (((JsVal.obj fields).prop "participants").orDefault (JsVal.arr [])).isArray = true
          · by_cases hd : ((JsVal.obj fields).prop "data").truthy = true
            · have hv := (passesValidation_iff (JsVal.obj fields)).2 ⟨hc, hu, hp, hd⟩
              rw [hv] at hinvalid
              cases hinvalid
            · exact ⟨Raised.error "Message data is required.",
                by simp [hc, hu, hp, hd, truthy_of_isArray _ hp]⟩
          · exact ⟨Raised.error "Participants is required and must be an array.",
              by simp [hc, hu, hp]⟩
        · exact ⟨Raised.error "User id is required.", by simp [hc, hu]⟩
      · exact ⟨Raised.error "Chat Id is required.", by simp [hc]⟩
  | bool b =>
    exact ⟨Raised.error "Chat Id is required.",
      by simp [sendMessage, JsVal.prop, JsVal.orDefault, JsVal.truthy]⟩
  | num n =>
    exact ⟨Raised.error "Chat Id is required.",
      by simp [sendMessage, JsVal.prop, JsVal.orDefault, JsVal.truthy]⟩
  | str t =>
    exact ⟨Raised.error "Chat Id is required.",
      by simp [sendMessage, JsVal.prop, JsVal.orDefault, JsVal.truthy]⟩
  | date ms =>
    exact ⟨Raised.error "Chat Id is required.",
      by simp [sendMessage, JsVal.prop, JsVal.orDefault, JsVal.truthy]⟩
  | arr items =>
    exact ⟨Raised.error "Chat Id is required.",
      by simp [sendMessage, JsVal.prop, JsVal.orDefault, JsVal.truthy]⟩

theorem sendMessage_threw_trace (env : Env) (payload : JsVal) (cb : Callback) (e : Raised)
    (h : (sendMessage env payload cb).outcome = Outcome.threw e) :
    (sendMessage env payload cb).trace = [] ∧
    (passesValidation payload = false ∨ (payload.prop "chat_id").toStr = none) := by
  by_cases hvalid : passesValidation payload = true
  · cases hname : (payload.prop "chat_id").toStr with
    | none =>
        rw [sendMessage_of_unconvertible env payload cb hvalid hname]
        exact ⟨rfl, Or.inr rfl⟩
    | some chatName =>
        rw [sendMessage_of_valid env payload cb hvalid chatName hname] at h
        cases h
  · have hinvalid : passesValidation payload = false := by simpa using hvalid
    obtain ⟨e2, he2⟩ := sendMessage_of_invalid env payload cb hinvalid
    rw [he2]
    exact ⟨rfl, Or.inl hinvalid⟩

theorem enqueueJobs_all_queueAdd (env : Env) (msg chat_id user_id participants : JsVal) :
    ∀ e ∈ enqueueJobs env msg chat_id user_id participants, e.isQueueAdd = true := by
  intro e he
  unfold enqueueJobs at he
  simp only [addToMessageQueue, addToNotificationQueue] at he
  split at he
  · simp at he
    subst he
    rfl
  · split at he
    · simp at he
      rcases he with he | he <;> subst he <;> rfl
    · split at he
      · split at he
        · simp at he
          rcases he with he | he <;> subst he <;> rfl
        · simp at he
          rcases he with he | he | he <;> subst he <;> rfl
      · simp at he
        rcases he with he | he <;> subst he <;> rfl

theorem sendResponse_no_emit_no_add (env : Env) (now : Nat) (cb : Callback) (message : String)
    (data : JsVal) :
    ∀ e ∈ sendResponse env now cb message data, e.isEmit = false ∧ e.isQueueAdd = false := by
  intro e he
  cases cb <;> simp [sendResponse] at he <;> subst he <;> exact ⟨rfl, rfl⟩

theorem emitChatList_all_emit (env : Env) (update : JsVal) (i : Nat) (items : List JsVal) :
    ∀ e ∈ emitChatList env update i items, e.isEmit = true := by
  intro e he
  rw [emitChatList_eq_map] at he
  obtain ⟨p, _, hp⟩ := List.mem_map.1 he
  subst hp
  rfl

theorem countP_emitChatList (env : Env) (update : JsVal) (topic : String) (i : Nat)
    (items : List JsVal) :
    (emitChatList env update i items).countP (Effect.isEmitOn topic "chat_list") =
      (items.filterMap JsVal.toStr).countP (fun userName => "user_" ++ userName == topic) := by
  rw [emitChatList_eq_map]
  generalize items.filterMap JsVal.toStr = names
  induction names generalizing i with
  | nil => simp
  | cons u rest ih =>
      simp only [List.enumFrom_cons, List.map_cons, List.countP_cons, ih, Effect.isEmitOn]
      simp

theorem countP_emitChatList_other (env : Env) (update : JsVal) (topic event : String)
    (hev : event ≠ "chat_list") (i : Nat) (items : List JsVal) :
    (emitChatList env update i items).countP (Effect.isEmitOn topic event) = 0 := by
  rw [List.countP_eq_zero]
  intro e he
  rw [emitChatList_eq_map] at he
  obtain ⟨p, _, hp⟩ := List.mem_map.1 he
  subst hp
  have hne : ¬ "chat_list" = event := fun h => hev h.symm
  simp [Effect.isEmitOn, hne]

theorem countP_isEmitOn_of_no_emit (topic event : String) (l : List Effect)
    (h : ∀ e ∈ l, e.isEmit = false) : l.countP (Effect.isEmitOn topic event) = 0 := by
  rw [List.countP_eq_zero]
  intro e he
  have hno := h e he
  cases e <;> simp [Effect.isEmitOn, Effect.isEmit] at hno ⊢

theorem isEmit_false_of_isQueueAdd (e : Effect) (h : e.isQueueAdd = true) :
    e.isEmit = false := by
  cases e <;> simp [Effect.isQueueAdd, Effect.isEmit] at h ⊢

theorem filter_isEmit_parts (a b c d : List Effect) (ha : ∀ e ∈ a, e.isEmit = true)
    (hb : ∀ e ∈ b, e.isEmit = true) (hc : ∀ e ∈ c, e.isEmit = false)
    (hd : ∀ e ∈ d, e.isEmit = false) :
    (a ++ b ++ c ++ d).filter Effect.isEmit = a ++ b := by
  have hc2 : c.filter Effect.isEmit = [] :=
    List.filter_eq_nil_iff.2 (fun e he => by simp [hc e he])
  have hd2 : d.filter Effect.isEmit = [] :=
    List.filter_eq_nil_iff.2 (fun e he => by simp [hd e he])
  simp [List.filter_append, List.filter_eq_self.2 ha, List.filter_eq_self.2 hb, hc2, hd2]

theorem emitToRoom_all_emit (env : Env) (now : Nat) (raises : Bool) (roomId event : String)
    (payload : JsVal) :
    ∀ e ∈ (emitToRoom env now raises roomId event payload).2, e.isEmit = true := by
  intro e he
  simp [emitToRoom] at he
  subst he
  rfl

theorem emits_before_rest (emits rest : List Effect)
    (hemits : ∀ e ∈ emits, e.isQueueAdd = false) (hrest : ∀ e ∈ rest, e.isEmit = false)
    (i j : Nat) (e1 e2 : Effect) (h1 : (emits ++ rest)[i]? = some e1)
    (h2 : (emits ++ rest)[j]? = some e2) (hadd : e1.isQueueAdd = true)
    (hemit : e2.isEmit = true) : j < i := by
  have hi : emits.length ≤ i := by
    by_contra hlt
    rw [List.getElem?_append_left (by omega)] at h1
    have := hemits e1 (List.getElem?_mem h1)
    rw [hadd] at this
    cases this
  have hj : j < emits.length := by
    by_contra hge
    rw [List.getElem?_append_right (by omega)] at h2
    have := hrest e2 (List.getElem?_mem h2)
    rw [hemit] at this
    cases this
  omega

theorem isQueueAdd_false_of_isEmit (e : Effect) (h : e.isEmit = true) :
    e.isQueueAdd = false := by
  cases e <;> simp [Effect.isQueueAdd, Effect.isEmit] at h ⊢

theorem filter_isAddTo_of_no_add (queue : QueueName) (l : List Effect)
    (h : ∀ e ∈ l, e.isQueueAdd = false) : l.filter (Effect.isAddTo queue) = [] := by
  rw [List.filter_eq_nil_iff]
  intro e he
  have hno := h e he
  cases e <;> simp [Effect.isAddTo, Effect.isQueueAdd] at hno ⊢

theorem filterMap_toStr_map_str (names : List String) :
    (names.map JsVal.str).filterMap JsVal.toStr = names := by
  induction names with
  | nil => rfl
  | cons n rest ih => simp [JsVal.toStr, ih]

theorem sendMessage_emits (env : Env) (payload : JsVal) (cb : Callback)
    (hvalid : passesValidation payload = true) (chatName : String)
    (hname : (payload.prop "chat_id").toStr = some chatName) :
    (sendMessage env payload cb).trace.filter Effect.isEmit =
      Effect.emit ("chat_" ++ chatName) "receive_message"
        (JsVal.obj
          [("success", JsVal.bool true),
           ("message", JsVal.str "Message received successfully."),
           ("data", messageData env (payload.prop "user_id") (payload.prop "chat_id")
              (payload.prop "data")
              ((payload.prop "message_type").orDefault (JsVal.str "text"))),
           ("timestamp", JsVal.str (env.isoString (env.clock 1))),
           ("server_id", env.serverId)]) ::
      ((((payload.prop "participants").orDefault (JsVal.arr [])).items.filterMap
          JsVal.toStr).enumFrom 0).map
        (fun p => Effect.emit ("user_" ++ p.2) "chat_list"
          (JsVal.obj
            [("success", JsVal.bool true),
             ("message", JsVal.str "Chat list updated successfully."),
             ("data", JsVal.obj
                [("chat_id", payload.prop "chat_id"),
                 ("last_message", messageData env (payload.prop "user_id")
                    (payload.prop "chat_id") (payload.prop "data")
                    ((payload.prop "message_type").orDefault (JsVal.str "text"))),
                 ("updated_at", JsVal.date (env.clock 0))]),
             ("timestamp", JsVal.str (env.isoString (env.clock (2 + p.1)))),
             ("server_id", env.serverId)])) := by
  rw [sendMessage_of_valid env payload cb hvalid chatName hname]
  rw [filter_isEmit_parts _ _ _ _ (emitToRoom_all_emit _ _ _ _ _ _)
    (emitChatList_all_emit env _ 0 _)
    (fun e he => isEmit_false_of_isQueueAdd e (enqueueJobs_all_queueAdd _ _ _ _ _ e he))
    (fun e he => (sendResponse_no_emit_no_add _ _ _ _ _ e he).1), emitChatList_eq_map]
  simp [emitToRoom, LISTENER.RECEIVE_MESSAGE, chatListUpdate, assignFields,
    setField, JsVal.spread]

theorem sendMessage_invalid_eq (envA envB : Env) (payload : JsVal) (cb : Callback)
    (hinvalid : passesValidation payload = false) :
    sendMessage envA payload cb = sendMessage envB payload cb := by
  cases payload with
  | undefined => rfl
  | null => rfl
  | obj fields =>
      by_cases hc : ((JsVal.obj fields).prop "chat_id").truthy = true
      · by_cases hu : ((JsVal.obj fields).prop "user_id").truthy = true
        · by_cases hpa : (((JsVal.obj fields).prop "participants").orDefault
              (JsVal.arr [])).isArray = true
          · by_cases hd : ((JsVal.obj fields).prop "data").truthy = true
            · have hv2 := (passesValidation_iff (JsVal.obj fields)).2 ⟨hc, hu, hpa, hd⟩
              rw [hv2] at hinvalid
              cases hinvalid
            · unfold sendMessage
              simp only []
              split
              · rfl
              · simp [hc, hu, hpa, hd, truthy_of_isArray _ hpa]
          · unfold sendMessage
            simp only []
            split
            · rfl
            · simp [hc, hu, hpa]
        · unfold sendMessage
          simp only []
          split
          · rfl
          · simp [hc, hu]
      · unfold sendMessage
        simp only []
        split
        · rfl
        · simp [hc]
  | bool b => simp [sendMessage, JsVal.prop, JsVal.orDefault, JsVal.truthy]
  | num n => simp [sendMessage, JsVal.prop, JsVal.orDefault, JsVal.truthy]
  | str t => simp [sendMessage, JsVal.prop, JsVal.orDefault, JsVal.truthy]
  | date ms => simp [sendMessage, JsVal.prop, JsVal.orDefault, JsVal.truthy]
  | arr items => simp [sendMessage, JsVal.prop, JsVal.orDefault, JsVal.truthy]

/-! ## Load balancer: selection, health probes, proxy errors -/

/-- C1: whenever some configured instance is marked healthy, the middleware proxies
the request to `healthy[c % healthy.length]`, where `healthy` is the configured
instance list filtered, in order, to the entries marked healthy and `c` is the cursor,
and it leaves the cursor at `c + 1` (health map and instance list untouched). -/
theorem middleware_selects_round_robin (s : LoadBalancer)
    (hhealthy : ∃ server ∈ s.serverInstances, mapGet s.serverHealth server = some true) :
    healthyServers s =
        s.serverInstances.filter (fun server => decide (mapGet s.serverHealth server = some true)) ∧
    List.Sublist (healthyServers s) s.serverInstances ∧
    ∃ target,
      (healthyServers s)[s.currentServerIndex % (healthyServers s).length]? = some target ∧
      middleware s =
        (Routed.proxied target,
         { serverInstances := s.serverInstances, serverHealth := s.serverHealth,
           currentServerIndex := s.currentServerIndex + 1 }) := by
  have hne : healthyServers s ≠ [] := by
    intro hnil
    obtain ⟨server, hmem, hget⟩ := hhealthy
    exact (healthyServers_eq_nil_iff s).1 hnil server hmem hget
  refine ⟨?_, List.filter_sublist _, ?_⟩
  · unfold healthyServers
    congr 1
    funext server
    cases hget : mapGet s.serverHealth server with
    | none => rfl
    | some b => cases b <;> rfl
  · exact middleware_of_healthy s hne

/-- Witness for C1: instances 5400, 5401 (unhealthy), 5402 with the cursor at 5 route
to `healthy[5 % 2]`, the instance on port 5402, and move the cursor to 6. -/
theorem middleware_selects_round_robin_witness :
    (∃ server ∈ sampleBalancer.serverInstances,
        mapGet sampleBalancer.serverHealth server = some true) ∧
    (healthyServers sampleBalancer)[5 % 2]? = some "http://localhost:5402" ∧
    ∃ target,
      (healthyServers sampleBalancer)[sampleBalancer.currentServerIndex %
          (healthyServers sampleBalancer).length]? = some target ∧
      middleware sampleBalancer =
        (Routed.proxied target,
         { serverInstances := sampleBalancer.serverInstances,
           serverHealth := sampleBalancer.serverHealth,
           currentServerIndex := sampleBalancer.currentServerIndex + 1 }) :=
  ⟨⟨"http://localhost:5400", by decide, by decide⟩, by decide,
   (middleware_selects_round_robin sampleBalancer
      ⟨"http://localhost:5400", by decide, by decide⟩).2.2⟩

/-- C2: the middleware answers 503 (service unavailable) exactly when no configured
instance is marked healthy; it then picks no target, proxies nothing (the whole
request ends with that 503 whatever the backends would have done) and leaves the
state, cursor included, as it was. -/
theorem middleware_unavailable_iff (s : LoadBalancer) :
    ((∃ res, (middleware s).1 = Routed.respond res ∧ res.status = 503) ↔
      ∀ server ∈ s.serverInstances, mapGet s.serverHealth server ≠ some true) ∧
    (∀ res, (middleware s).1 = Routed.respond res →
      res = ⟨503, "Service Unavailable", "No healthy servers available"⟩ ∧
      (∀ target, (middleware s).1 ≠ Routed.proxied target) ∧
      (middleware s).2 = s ∧
      ∀ outcome, handleRequest s outcome = (res, s)) := by
  constructor
  · constructor
    · rintro ⟨res, hres, _⟩
      by_cases hnil : healthyServers s = []
      · exact (healthyServers_eq_nil_iff s).1 hnil
      · obtain ⟨target, _, hmw⟩ := middleware_of_healthy s hnil
        simp [hmw] at hres
    · intro hall
      have hnil := (healthyServers_eq_nil_iff s).2 hall
      exact ⟨_, by rw [middleware_of_none_healthy s hnil], rfl⟩
  · intro res hres
    by_cases hnil : healthyServers s = []
    · have hmw := middleware_of_none_healthy s hnil
      rw [hmw] at hres
      simp only [Routed.respond.injEq] at hres
      subst hres
      refine ⟨rfl, ?_, ?_, ?_⟩
      · intro target
        simp [hmw]
      · simp [hmw]
      · intro outcome
        simp [handleRequest, hmw]
    · obtain ⟨target, _, hmw⟩ := middleware_of_healthy s hnil
      simp [hmw] at hres

/-- C3: while the health map stays fixed (only selections happen), the `k`-th
selection from cursor `c` is `healthy[(c + k) % healthy.length]`, so the healthy
instances are visited in strict rotation and every instance returned is marked
healthy. Over instances `[A, B, C]` with `B` not marked healthy the selections are `A`
and `C`, alternating. An instance that is not marked healthy is never returned, by any
sequence of requests, proxy errors and probes, unless that sequence contains a
successful probe of it; such a probe makes it eligible again. -/
theorem selections_rotate_over_healthy (s : LoadBalancer) (n : Nat)
    (hhealthy : ∃ server ∈ s.serverInstances, mapGet s.serverHealth server = some true) :
    (selections s n).length = n ∧
    (∀ k, k < n →
      (selections s n)[k]? =
        ((healthyServers s)[(s.currentServerIndex + k) % (healthyServers s).length]?).map
          Routed.proxied) ∧
    (∀ target, Routed.proxied target ∈ selections s n →
      target ∈ s.serverInstances ∧ mapGet s.serverHealth target = some true) ∧
    (∀ (A B C : String) (health : List (String × Bool)) (c k : Nat),
      mapGet health A = some true → mapGet health B ≠ some true →
      mapGet health C = some true → k < n →
      (selections ⟨[A, B, C], health, c⟩ n)[k]? =
        some (Routed.proxied (if (c + k) % 2 = 0 then A else C))) ∧
    (∀ (b : String) (events : List LbEvent), mapGet s.serverHealth b ≠ some true →
      (∀ e ∈ events, e ≠ LbEvent.probe b (ProbeResult.response 200)) →
      Routed.proxied b ∉ (runEvents s events).1) ∧
    (∀ b ∈ s.serverInstances,
      b ∈ healthyServers (checkServerHealth s b (ProbeResult.response 200)).2) := by
  have hne : healthyServers s ≠ [] := by
    intro hnil
    obtain ⟨server, hmem, hget⟩ := hhealthy
    exact (healthyServers_eq_nil_iff s).1 hnil server hmem hget
  refine ⟨selections_length s n, fun k hk => selections_getElem? s hne n k hk, ?_, ?_,
    fun b events hb hev => unhealthy_never_routed b events s hb hev, ?_⟩
  · intro target hmem
    obtain ⟨k, hk⟩ := List.mem_iff_getElem?.1 hmem
    have hlt : k < n := by
      have h1 := (List.getElem?_eq_some.1 hk).1
      rwa [selections_length] at h1
    rw [selections_getElem? s hne n k hlt] at hk
    cases hidx : (healthyServers s)[(s.currentServerIndex + k) % (healthyServers s).length]? with
    | none => simp [hidx] at hk
    | some t =>
        rw [hidx] at hk
        simp only [Option.map_some', Option.some.injEq, Routed.proxied.injEq] at hk
        subst hk
        exact (mem_healthyServers s t).1 (List.getElem?_mem hidx)
  · intro A B C health c k hA hB hC hk
    have hBf : (mapGet health B == some true) = false := by
      cases hget : mapGet health B with
      | none => rfl
      | some v =>
          cases v with
          | false => rfl
          | true => exact absurd hget hB
    have hH : healthyServers ⟨[A, B, C], health, c⟩ = [A, C] := by
      simp [healthyServers, List.filter, hA, hBf, hC]
    have hne2 : healthyServers ⟨[A, B, C], health, c⟩ ≠ [] := by simp [hH]
    rw [selections_getElem? _ hne2 n k hk, hH]
    have hmod : (c + k) % 2 = 0 ∨ (c + k) % 2 = 1 := by omega
    rcases hmod with h0 | h1
    · simp [h0]
    · simp [h1]
  · intro b hb
    rw [mem_healthyServers]
    refine ⟨hb, ?_⟩
    simp [checkServerHealth, mapGet_mapSet_self]

/-- Witness for C3: with the instance on port 5401 unhealthy and the cursor at 5, four
selections in a row return the instances on ports 5402, 5400, 5402, 5400. -/
theorem selections_rotate_over_healthy_witness :
    (∃ server ∈ sampleBalancer.serverInstances,
        mapGet sampleBalancer.serverHealth server = some true) ∧
    selections sampleBalancer 4 =
      [Routed.proxied "http://localhost:5402", Routed.proxied "http://localhost:5400",
       Routed.proxied "http://localhost:5402", Routed.proxied "http://localhost:5400"] ∧
    (selections sampleBalancer 4).length = 4 ∧
    ∀ target, Routed.proxied target ∈ selections sampleBalancer 4 →
      target ∈ sampleBalancer.serverInstances ∧
      mapGet sampleBalancer.serverHealth target = some true :=
  ⟨⟨"http://localhost:5400", by decide, by decide⟩, by decide,
   (selections_rotate_over_healthy sampleBalancer 4
      ⟨"http://localhost:5400", by decide, by decide⟩).1,
   (selections_rotate_over_healthy sampleBalancer 4
      ⟨"http://localhost:5400", by decide, by decide⟩).2.2.1⟩

/-- C4 (as amended): `checkServerHealth` stores and returns `true` when the probe is
answered with status 200, and `false` when it is answered with any other status, the
other success statuses of HTTP included, or raises; the stored value is the returned
one, and the health of every other instance, the instance list and the cursor are
unchanged. -/
theorem checkServerHealth_marks (s : LoadBalancer) (server : String) :
    (checkServerHealth s server (ProbeResult.response 200)).1 = true ∧
    (∀ status, status ≠ 200 →
      (checkServerHealth s server (ProbeResult.response status)).1 = false) ∧
    (checkServerHealth s server ProbeResult.error).1 = false ∧
    (∀ probe, mapGet (checkServerHealth s server probe).2.serverHealth server =
      some (checkServerHealth s server probe).1) ∧
    (∀ probe other, other ≠ server →
      mapGet (checkServerHealth s server probe).2.serverHealth other =
        mapGet s.serverHealth other) ∧
    (∀ probe, (checkServerHealth s server probe).2.serverInstances = s.serverInstances ∧
      (checkServerHealth s server probe).2.currentServerIndex = s.currentServerIndex) := by
  refine ⟨by simp [checkServerHealth], ?_, by simp [checkServerHealth], ?_, ?_, ?_⟩
  · intro status hst
    simp [checkServerHealth, hst]
  · intro probe
    cases probe <;> simp [checkServerHealth, mapGet_mapSet_self]
  · intro probe other hne
    cases probe <;> simp [checkServerHealth, mapGet_mapSet_other _ _ _ _ hne]
  · intro probe
    cases probe <;> simp [checkServerHealth]

/-- C4, counterexample: a probe of the first default instance that is answered with
status 204, a success status of HTTP (`200 ≤ 204 < 300`), stores and returns `false`,
and the instance leaves the healthy list; status 201 is treated the same. -/
theorem checkServerHealth_rejects_status_204 :
    (200 : Nat) ≤ 204 ∧ (204 : Nat) < 300 ∧
    (checkServerHealth (LoadBalancer.init defaultInstances) "http://localhost:5400"
      (ProbeResult.response 204)).1 = false ∧
    mapGet (checkServerHealth (LoadBalancer.init defaultInstances) "http://localhost:5400"
      (ProbeResult.response 204)).2.serverHealth "http://localhost:5400" = some false ∧
    healthyServers (checkServerHealth (LoadBalancer.init defaultInstances)
      "http://localhost:5400" (ProbeResult.response 204)).2 =
      ["http://localhost:5401", "http://localhost:5402"] ∧
    (checkServerHealth (LoadBalancer.init defaultInstances) "http://localhost:5400"
      (ProbeResult.response 201)).1 = false := by
  decide

/-- C5: the `onError` callback of a proxied request answers 502 and sets the target
selected for that request to unhealthy, so that the target is outside the healthy list
and the next selection cannot return it; the health of every other instance, the
instance list and the cursor are unchanged. A request whose proxying fails at the
transport layer ends exactly in that callback, applied to the target the middleware
selected for it. -/
theorem onError_marks_target_unhealthy (s : LoadBalancer) (targetServer : String) :
    (onError s targetServer).1.status = 502 ∧
    mapGet (onError s targetServer).2.serverHealth targetServer = some false ∧
    (∀ other, other ≠ targetServer →
      mapGet (onError s targetServer).2.serverHealth other = mapGet s.serverHealth other) ∧
    targetServer ∉ healthyServers (onError s targetServer).2 ∧
    (middleware (onError s targetServer).2).1 ≠ Routed.proxied targetServer ∧
    (onError s targetServer).2.serverInstances = s.serverInstances ∧
    (onError s targetServer).2.currentServerIndex = s.currentServerIndex ∧
    (∀ s0 s1, middleware s0 = (Routed.proxied targetServer, s1) →
      handleRequest s0 ProxyOutcome.transportError = onError s1 targetServer) := by
  have hset : mapGet (onError s targetServer).2.serverHealth targetServer = some false := by
    simp [onError, mapGet_mapSet_self]
  have hnot : targetServer ∉ healthyServers (onError s targetServer).2 := by
    intro hmem
    have h2 := ((mem_healthyServers _ _).1 hmem).2
    rw [hset] at h2
    simp at h2
  refine ⟨rfl, hset, ?_, hnot, ?_, rfl, rfl, ?_⟩
  · intro other hne
    simp [onError, mapGet_mapSet_other _ _ _ _ hne]
  · intro hp
    exact hnot (proxied_mem_healthy _ _ hp)
  · intro s0 s1 hmw
    simp [handleRequest, hmw]

/-! ## Message delivery pipeline: `sendMessage` -/

/-- C6 (as amended): `sendMessage` raises exactly when `chat_id`, `user_id` or `data`
is falsy (missing, `null`, `false`, `0` or the empty string), or `participants`, when
supplied, is not an array, or `chat_id` has no string conversion; and when it raises,
its trace is empty: nothing was emitted on any topic and nothing was added to a queue.
A string, a number or a boolean always has a string conversion, and an object has none
exactly when it has an own entry `toString`. -/
theorem sendMessage_fails_iff_rejected (env : Env) (payload : JsVal) (cb : Callback) :
    ((∃ e, (sendMessage env payload cb).outcome = Outcome.threw e) ↔
      ((payload.prop "chat_id").truthy = false ∨ (payload.prop "user_id").truthy = false ∨
       (payload.prop "data").truthy = false ∨
       ((payload.prop "participants").orDefault (JsVal.arr [])).isArray = false ∨
       (payload.prop "chat_id").toStr = none)) ∧
    ((∃ e, (sendMessage env payload cb).outcome = Outcome.threw e) →
      (sendMessage env payload cb).trace = []) ∧
    (∀ v : JsVal, v.truthy = false ↔
      v = JsVal.undefined ∨ v = JsVal.null ∨ v = JsVal.bool false ∨ v = JsVal.num 0 ∨
      v = JsVal.str "") ∧
    (∀ v : JsVal, ((∃ s, v = JsVal.str s) ∨ (∃ n, v = JsVal.num n) ∨ (∃ b, v = JsVal.bool b)) →
      ∃ name, v.toStr = some name) ∧
    (∀ fields, (JsVal.obj fields).toStr = none ↔ ∃ kv ∈ fields, kv.1 = "toString") := by
  refine ⟨?_, ?_, ?_, toStr_primitive, toStr_obj_eq_none_iff⟩
  · by_cases hvalid : passesValidation payload = true
    · obtain ⟨hc, hu, hp, hd⟩ := (passesValidation_iff payload).1 hvalid
      cases hname : (payload.prop "chat_id").toStr with
      | none =>
          rw [sendMessage_of_unconvertible env payload cb hvalid hname]
          simp
      | some chatName =>
          rw [sendMessage_of_valid env payload cb hvalid chatName hname]
          simp [hc, hu, hp, hd]
    · have hinvalid : passesValidation payload = false := by simpa using hvalid
      obtain ⟨e, he⟩ := sendMessage_of_invalid env payload cb hinvalid
      constructor
      · intro _
        by_contra hcon
        simp only [not_or, Bool.not_eq_false] at hcon
        exact hvalid ((passesValidation_iff payload).2
          ⟨hcon.1, hcon.2.1, hcon.2.2.2.1, hcon.2.2.1⟩)
      · intro _
        exact ⟨e, by rw [he]⟩
  · rintro ⟨e, he⟩
    exact (sendMessage_threw_trace env payload cb e he).1
  · intro v
    cases v with
    | bool b => cases b <;> simp [JsVal.truthy]
    | _ => simp [JsVal.truthy]

/-- C6, counterexample: with `chat_id: 0`, `user_id: "u1"`, two participants in a list
and content `{ text: "hi" }`, every field is present and `participants` is a list, yet
`sendMessage` raises "Chat Id is required.". -/
theorem sendMessage_rejects_chat_id_zero :
    zeroChatPayload.prop "chat_id" = JsVal.num 0 ∧
    zeroChatPayload.prop "user_id" = JsVal.str "u1" ∧
    zeroChatPayload.prop "data" = JsVal.obj [("text", JsVal.str "hi")] ∧
    zeroChatPayload.prop "participants" = JsVal.arr [JsVal.str "u1", JsVal.str "u2"] ∧
    (sendMessage sampleEnv zeroChatPayload Callback.function).outcome =
      Outcome.threw (Raised.error "Chat Id is required.") :=
  ⟨rfl, rfl, rfl, rfl, rfl⟩

/-- C7 (as amended): for every payload that passes validation and whose `chat_id` has
the string conversion `chatName`, the emits made are, in order, one `receive_message`
on the topic `chat_<chatName>` and then, for each entry of `participants` that has a
string conversion, in list order, one `chat_list` on the topic `user_<entry>`, all
carrying the same stamped message (an entry without a string conversion gets none).
Hence `receive_message` is emitted exactly once, on the room topic, and a topic
receives as many `chat_list` events as there are entries of `participants` naming it
(the sender's entry included). -/
theorem sendMessage_fanout (env : Env) (payload : JsVal) (cb : Callback)
    (hvalid : passesValidation payload = true) (chatName : String)
    (hname : (payload.prop "chat_id").toStr = some chatName) :
    (∀ msg, msg = messageData env (payload.prop "user_id") (payload.prop "chat_id")
        (payload.prop "data") ((payload.prop "message_type").orDefault (JsVal.str "text")) →
      (sendMessage env payload cb).trace.filter Effect.isEmit =
        Effect.emit ("chat_" ++ chatName) "receive_message"
          (JsVal.obj
            [("success", JsVal.bool true),
             ("message", JsVal.str "Message received successfully."), ("data", msg),
             ("timestamp", JsVal.str (env.isoString (env.clock 1))),
             ("server_id", env.serverId)]) ::
        ((((payload.prop "participants").orDefault (JsVal.arr [])).items.filterMap
            JsVal.toStr).enumFrom 0).map
          (fun p => Effect.emit ("user_" ++ p.2) "chat_list"
            (JsVal.obj
              [("success", JsVal.bool true),
               ("message", JsVal.str "Chat list updated successfully."),
               ("data", JsVal.obj [("chat_id", payload.prop "chat_id"), ("last_message", msg),
                                   ("updated_at", JsVal.date (env.clock 0))]),
               ("timestamp", JsVal.str (env.isoString (env.clock (2 + p.1)))),
               ("server_id", env.serverId)]))) ∧
    (∀ topic, emitCount (sendMessage env payload cb).trace topic "receive_message" =
      if topic = "chat_" ++ chatName then 1 else 0) ∧
    (∀ topic, emitCount (sendMessage env payload cb).trace topic "chat_list" =
      (((payload.prop "participants").orDefault (JsVal.arr [])).items.filterMap
        JsVal.toStr).countP (fun userName => "user_" ++ userName == topic)) ∧
    (∀ names : List String,
      ((payload.prop "participants").orDefault (JsVal.arr [])).items = names.map JsVal.str →
      ((payload.prop "participants").orDefault (JsVal.arr [])).items.filterMap JsVal.toStr =
        names) := by
  have hjobs2 : ∀ e ∈ enqueueJobs env
      (messageData env (payload.prop "user_id") (payload.prop "chat_id") (payload.prop "data")
        ((payload.prop "message_type").orDefault (JsVal.str "text")))
      (payload.prop "chat_id") (payload.prop "user_id")
      ((payload.prop "participants").orDefault (JsVal.arr [])), e.isEmit = false :=
    fun e he => isEmit_false_of_isQueueAdd e (enqueueJobs_all_queueAdd _ _ _ _ _ e he)
  have hresp2 : ∀ now data, ∀ e ∈ sendResponse env now cb "Message sent successfully" data,
      e.isEmit = false :=
    fun now data e he => (sendResponse_no_emit_no_add env now cb _ data e he).1
  refine ⟨?_, ?_, ?_, ?_⟩
  · intro msg hmsg
    subst hmsg
    exact sendMessage_emits env payload cb hvalid chatName hname
  · intro topic
    rw [sendMessage_of_valid env payload cb hvalid chatName hname]
    simp only [emitCount, List.countP_append]
    rw [countP_isEmitOn_of_no_emit _ _ _ hjobs2, countP_isEmitOn_of_no_emit _ _ _ (hresp2 _ _),
      countP_emitChatList_other env _ topic "receive_message" (by decide)]
    by_cases ht : topic = "chat_" ++ chatName
    · simp [emitToRoom, Effect.isEmitOn, LISTENER.RECEIVE_MESSAGE, ht]
    · have ht2 : ¬ "chat_" ++ chatName = topic := fun h => ht h.symm
      simp [emitToRoom, Effect.isEmitOn, LISTENER.RECEIVE_MESSAGE, ht, ht2]
  · intro topic
    rw [sendMessage_of_valid env payload cb hvalid chatName hname]
    simp only [emitCount, List.countP_append]
    rw [countP_isEmitOn_of_no_emit _ _ _ hjobs2, countP_isEmitOn_of_no_emit _ _ _ (hresp2 _ _),
      countP_emitChatList]
    simp [emitToRoom, Effect.isEmitOn, LISTENER.RECEIVE_MESSAGE]
  · intro names hnames
    rw [hnames]
    exact filterMap_toStr_map_str names

/-- Witness for C7: sender `u1`, chat `c1`, participants `u1` and `u2` give exactly one
`receive_message` on the topic of `c1` and exactly one `chat_list` on the topic of
`u2`. -/
theorem sendMessage_fanout_witness :
    passesValidation samplePayload = true ∧
    (samplePayload.prop "chat_id").toStr = some "c1" ∧
    emitCount (sendMessage sampleEnv samplePayload Callback.function).trace "chat_c1"
      "receive_message" = 1 ∧
    emitCount (sendMessage sampleEnv samplePayload Callback.function).trace "user_u2"
      "chat_list" = 1 :=
  ⟨rfl, rfl,
   (sendMessage_fanout sampleEnv samplePayload Callback.function rfl "c1" rfl).2.1 "chat_c1",
   (sendMessage_fanout sampleEnv samplePayload Callback.function rfl "c1" rfl).2.2.1 "user_u2"⟩

/-- C7, counterexample: with participants `["u2", "u2"]` the payload passes validation
and two `chat_list` events, not one, are emitted on the topic `user_u2`. -/
theorem sendMessage_repeated_participant_emits_twice :
    passesValidation repeatedParticipantPayload = true ∧
    (repeatedParticipantPayload.prop "participants").items = [JsVal.str "u2", JsVal.str "u2"] ∧
    emitCount (sendMessage sampleEnv repeatedParticipantPayload Callback.function).trace
      "user_u2" "chat_list" = 2 :=
  ⟨rfl, rfl, rfl⟩

/-- C8 (as amended): for every payload that passes validation and whose `chat_id` has a
string conversion, and every outcome of the queue additions, `sendMessage` returns
without raising. Its trace is the emits (one on the room and one per participant entry
that has a string conversion, the same as when no addition is rejected), then queue
additions only, then the response; and when the last argument is an acknowledgement
callback, the last call made is that callback with `success: true` and, as `data`, the
stamped message extended with `queued_for_processing: true`. For every payload
whatsoever, how the handler ends and what it emits do not depend on which additions
are rejected. -/
theorem sendMessage_survives_queue_failure (env : Env) (payload : JsVal) (cb : Callback)
    (hvalid : passesValidation payload = true) (chatName : String)
    (hname : (payload.prop "chat_id").toStr = some chatName) :
    (sendMessage env payload cb).outcome = Outcome.returned ∧
    (∃ emits jobs,
      (sendMessage env payload cb).trace =
        emits ++ jobs ++
          sendResponse env
            (env.clock (2 + (((payload.prop "participants").orDefault
              (JsVal.arr [])).items.filterMap JsVal.toStr).length))
            cb "Message sent successfully"
            (JsVal.obj
              [("id", JsVal.str env.uuid), ("chatId", payload.prop "chat_id"),
               ("userId", payload.prop "user_id"), ("content", payload.prop "data"),
               ("messageType", (payload.prop "message_type").orDefault (JsVal.str "text")),
               ("timestamp", JsVal.date (env.clock 0)), ("server_id", env.serverId),
               ("queued_for_processing", JsVal.bool true)]) ∧
      emits =
        (sendMessage { env with queueRejects := fun _ => false } payload cb).trace.filter
          Effect.isEmit ∧
      emits.length = 1 + (((payload.prop "participants").orDefault
        (JsVal.arr [])).items.filterMap JsVal.toStr).length ∧
      (∀ e ∈ emits, e.isEmit = true) ∧ (∀ e ∈ jobs, e.isQueueAdd = true)) ∧
    (cb = Callback.function →
      (sendMessage env payload cb).trace.getLast? =
        some (Effect.ack (JsVal.obj
          [("success", JsVal.bool true), ("message", JsVal.str "Message sent successfully"),
           ("data", JsVal.obj
              [("id", JsVal.str env.uuid), ("chatId", payload.prop "chat_id"),
               ("userId", payload.prop "user_id"), ("content", payload.prop "data"),
               ("messageType", (payload.prop "message_type").orDefault (JsVal.str "text")),
               ("timestamp", JsVal.date (env.clock 0)), ("server_id", env.serverId),
               ("queued_for_processing", JsVal.bool true)]),
           ("timestamp", JsVal.str (env.isoString (env.clock
              (2 + (((payload.prop "participants").orDefault
                (JsVal.arr [])).items.filterMap JsVal.toStr).length)))),
           ("server_id", env.serverId)]))) ∧
    (∀ (rejects : Nat → Bool) (p : JsVal) (c : Callback),
      (sendMessage { env with queueRejects := rejects } p c).outcome =
        (sendMessage env p c).outcome ∧
      (sendMessage { env with queueRejects := rejects } p c).trace.filter Effect.isEmit =
        (sendMessage env p c).trace.filter Effect.isEmit) := by
  have hres : JsVal.obj (assignFields
      (messageData env (payload.prop "user_id") (payload.prop "chat_id") (payload.prop "data")
        ((payload.prop "message_type").orDefault (JsVal.str "text"))).spread
      [("queued_for_processing", JsVal.bool true)]) =
      JsVal.obj
        [("id", JsVal.str env.uuid), ("chatId", payload.prop "chat_id"),
         ("userId", payload.prop "user_id"), ("content", payload.prop "data"),
         ("messageType", (payload.prop "message_type").orDefault (JsVal.str "text")),
         ("timestamp", JsVal.date (env.clock 0)), ("server_id", env.serverId),
         ("queued_for_processing", JsVal.bool true)] := by
    simp [messageData, JsVal.spread, assignFields, setField]
  refine ⟨?_, ?_, ?_, ?_⟩
  · rw [sendMessage_of_valid env payload cb hvalid chatName hname]
  · rw [sendMessage_of_valid env payload cb hvalid chatName hname, hres]
    refine ⟨_, _, rfl, ?_, ?_, ?_, enqueueJobs_all_queueAdd env _ _ _ _⟩
    · rw [sendMessage_emits _ payload cb hvalid chatName hname, emitChatList_eq_map]
      simp [emitToRoom, LISTENER.RECEIVE_MESSAGE, chatListUpdate, assignFields,
        setField, JsVal.spread, messageData]
    · simp [emitToRoom, emitChatList_length]
      omega
    · intro e he
      rcases List.mem_append.1 he with h | h
      · exact emitToRoom_all_emit _ _ _ _ _ _ e h
      · exact emitChatList_all_emit _ _ _ _ e h
  · intro hcb
    subst hcb
    rw [sendMessage_of_valid env payload Callback.function hvalid chatName hname, hres]
    simp [sendResponse, JsVal.orDefault]
  · intro rejects p c
    by_cases hv : passesValidation p = true
    · cases hn : (p.prop "chat_id").toStr with
      | none =>
          rw [sendMessage_of_unconvertible _ p c hv hn, sendMessage_of_unconvertible _ p c hv hn]
          exact ⟨rfl, rfl⟩
      | some name =>
          refine ⟨?_, ?_⟩
          · rw [sendMessage_of_valid _ p c hv name hn, sendMessage_of_valid _ p c hv name hn]
          · rw [sendMessage_emits _ p c hv name hn, sendMessage_emits _ p c hv name hn]
            rfl
    · have hinvalid : passesValidation p = false := by simpa using hv
      rw [sendMessage_invalid_eq { env with queueRejects := rejects } env p c hinvalid]
      exact ⟨rfl, rfl⟩

/-- Witness for C8: with every queue addition rejected, the delivery example still
returns, and its last call is the acknowledgement with `success: true`. -/
theorem sendMessage_survives_queue_failure_witness :
    passesValidation samplePayload = true ∧
    (samplePayload.prop "chat_id").toStr = some "c1" ∧
    queueDownEnv.queueRejects 0 = true ∧
    (sendMessage queueDownEnv samplePayload Callback.function).outcome = Outcome.returned ∧
    emitCount (sendMessage queueDownEnv samplePayload Callback.function).trace "user_u2"
      "chat_list" = 1 ∧
    ((sendMessage queueDownEnv samplePayload Callback.function).trace.getLast?.map
      (fun e => match e with
        | Effect.ack p => (p.prop "success").truthy
        | _ => false)) = some true :=
  ⟨rfl, rfl, rfl,
   (sendMessage_survives_queue_failure queueDownEnv samplePayload Callback.function rfl "c1"
      rfl).1,
   rfl, rfl⟩

/-- C8, counterexample: the delivery example with the object `{ toString: 1 }` as
`chat_id` passes the four checks, every field being present and truthy and
`participants` a list; yet `sendMessage` raises a `TypeError`, with the queue up as with
the queue down, having emitted nothing, and the listener acknowledges with
`success: false`. -/
theorem sendMessage_fails_on_unconvertible_chat_id :
    passesValidation unconvertibleChatPayload = true ∧
    (unconvertibleChatPayload.prop "chat_id").truthy = true ∧
    (unconvertibleChatPayload.prop "chat_id").toStr = none ∧
    (sendMessage sampleEnv unconvertibleChatPayload Callback.function).outcome =
      Outcome.threw Raised.typeError ∧
    (sendMessage queueDownEnv unconvertibleChatPayload Callback.function).outcome =
      Outcome.threw Raised.typeError ∧
    (sendMessage queueDownEnv unconvertibleChatPayload Callback.function).trace = [] ∧
    ((onEvent queueDownEnv conversionTexts sampleSocket ClientEvent.sendMessage
      unconvertibleChatPayload Callback.function).trace.map
        (fun e => (e.isAck, e.payload.prop "success", e.payload.prop "message"))) =
      [(true, JsVal.bool false, JsVal.str "Cannot convert object to primitive value")] :=
  ⟨rfl, rfl, rfl, rfl, rfl, rfl, rfl⟩

/-- C9: in every run of `sendMessage`, every emit comes before every queue addition:
if position `i` of the trace holds a queue addition and position `j` holds an emit,
then `j < i`. -/
theorem sendMessage_emits_before_enqueues (env : Env) (payload : JsVal) (cb : Callback)
    (i j : Nat) (e1 e2 : Effect)
    (h1 : (sendMessage env payload cb).trace[i]? = some e1)
    (h2 : (sendMessage env payload cb).trace[j]? = some e2)
    (hadd : e1.isQueueAdd = true) (hemit : e2.isEmit = true) : j < i := by
  cases hout : (sendMessage env payload cb).outcome with
  | threw e =>
      rw [(sendMessage_threw_trace env payload cb e hout).1] at h1
      simp at h1
  | returned =>
      have hvalid : passesValidation payload = true := by
        by_contra hv
        have hinvalid : passesValidation payload = false := by simpa using hv
        obtain ⟨e, he⟩ := sendMessage_of_invalid env payload cb hinvalid
        rw [he] at hout
        cases hout
      cases hname : (payload.prop "chat_id").toStr with
      | none =>
          rw [sendMessage_of_unconvertible env payload cb hvalid hname] at hout
          cases hout
      | some chatName =>
          rw [sendMessage_of_valid env payload cb hvalid chatName hname] at h1 h2
          simp only [List.append_assoc] at h1 h2
          rw [← List.append_assoc] at h1 h2
          refine emits_before_rest _ _ ?_ ?_ i j e1 e2 h1 h2 hadd hemit
          · intro e he
            rcases List.mem_append.1 he with h | h
            · exact isQueueAdd_false_of_isEmit e (emitToRoom_all_emit _ _ _ _ _ _ e h)
            · exact isQueueAdd_false_of_isEmit e (emitChatList_all_emit _ _ _ _ e h)
          · intro e he
            rcases List.mem_append.1 he with h | h
            · exact isEmit_false_of_isQueueAdd e (enqueueJobs_all_queueAdd _ _ _ _ _ e h)
            · exact (sendResponse_no_emit_no_add _ _ _ _ _ e h).1

/-- Witness for C9: in the delivery example the first queue addition is at position 3
of the trace and the last emit, the `chat_list` for `u2`, at position 2. -/
theorem sendMessage_emits_before_enqueues_witness :
    ((sendMessage sampleEnv samplePayload Callback.function).trace[3]?.map
      Effect.isQueueAdd) = some true ∧
    ((sendMessage sampleEnv samplePayload Callback.function).trace[2]?.map
      (Effect.isEmitOn "user_u2" "chat_list")) = some true ∧
    2 < 3 :=
  ⟨rfl, rfl,
   sendMessage_emits_before_enqueues sampleEnv samplePayload Callback.function 3 2 _ _
     rfl rfl rfl rfl⟩

/-- C10 (as amended): for every payload that passes validation and whose `chat_id` has
the string conversion `chatName`, when the `saveMessage` and `updateChatList` additions
are accepted, the additions made to the notification queue are: none when every entry
of `participants` is strictly equal to the sender's `user_id`, and otherwise exactly one
`sendPushNotification` job whose `userIds` is `participants` with the entries strictly
equal to `user_id` removed, order kept. So a notification job is added if and only if
some participant differs from the sender. -/
theorem sendMessage_notification_job (env : Env) (payload : JsVal) (cb : Callback)
    (hvalid : passesValidation payload = true) (chatName : String)
    (hname : (payload.prop "chat_id").toStr = some chatName)
    (hsave : env.queueRejects 0 = false) (hupdate : env.queueRejects 1 = false) :
    (∀ recipients,
      recipients = ((payload.prop "participants").orDefault (JsVal.arr [])).items.filter
        (fun userId => !(userId.strictEq (payload.prop "user_id"))) →
      (recipients = [] →
        (sendMessage env payload cb).trace.filter
          (Effect.isAddTo QueueName.notificationQueue) = []) ∧
      (recipients ≠ [] →
        (sendMessage env payload cb).trace.filter
          (Effect.isAddTo QueueName.notificationQueue) =
          [Effect.queueAdd QueueName.notificationQueue "sendPushNotification"
            (JsVal.obj
              [("userIds", JsVal.arr recipients),
               ("message", JsVal.str ("New message in chat " ++ chatName)),
               ("type", JsVal.str "new_message"),
               ("data", messageData env (payload.prop "user_id") (payload.prop "chat_id")
                  (payload.prop "data")
                  ((payload.prop "message_type").orDefault (JsVal.str "text")))])
            (JsVal.obj
              [("attempts", JsVal.num 3),
               ("backoff", JsVal.obj [("type", JsVal.str "exponential"),
                                      ("delay", JsVal.num 2000)])])])) ∧
    ((∃ e ∈ (sendMessage env payload cb).trace,
        e.isAddTo QueueName.notificationQueue = true) ↔
      ∃ userId ∈ ((payload.prop "participants").orDefault (JsVal.arr [])).items,
        userId.strictEq (payload.prop "user_id") = false) := by
  have hfilter : ∀ recipients,
      recipients = ((payload.prop "participants").orDefault (JsVal.arr [])).items.filter
        (fun userId => !(userId.strictEq (payload.prop "user_id"))) →
      (sendMessage env payload cb).trace.filter (Effect.isAddTo QueueName.notificationQueue) =
        if recipients.length > 0 then
          [Effect.queueAdd QueueName.notificationQueue "sendPushNotification"
            (JsVal.obj
              [("userIds", JsVal.arr recipients),
               ("message", JsVal.str ("New message in chat " ++ chatName)),
               ("type", JsVal.str "new_message"),
               ("data", messageData env (payload.prop "user_id") (payload.prop "chat_id")
                  (payload.prop "data")
                  ((payload.prop "message_type").orDefault (JsVal.str "text")))])
            (JsVal.obj
              [("attempts", JsVal.num 3),
               ("backoff", JsVal.obj [("type", JsVal.str "exponential"),
                                      ("delay", JsVal.num 2000)])])]
        else [] := by
    intro recipients hrec
    rw [sendMessage_of_valid env payload cb hvalid chatName hname]
    simp only [List.filter_append]
    rw [filter_isAddTo_of_no_add _ _
        (fun e he => isQueueAdd_false_of_isEmit e (emitToRoom_all_emit _ _ _ _ _ _ e he)),
      filter_isAddTo_of_no_add _ _
        (fun e he => isQueueAdd_false_of_isEmit e (emitChatList_all_emit _ _ _ _ e he)),
      filter_isAddTo_of_no_add _ _
        (fun e he => (sendResponse_no_emit_no_add _ _ _ _ _ e he).2)]
    simp only [enqueueJobs, addToMessageQueue, addToNotificationQueue, hsave, hupdate,
      offlineUsers, ← hrec, hname]
    by_cases hlen : recipients.length > 0
    · simp [hlen, Effect.isAddTo, assignFields, defaultJobOptions, JsVal.spread]
    · simp [hlen, Effect.isAddTo]
  constructor
  · intro recipients hrec
    have h := hfilter recipients hrec
    constructor
    · intro hnil
      rw [h, hnil]
      rfl
    · intro hne
      have hlen : recipients.length > 0 := List.length_pos.2 hne
      rw [h, if_pos hlen]
  · have h := hfilter _ rfl
    constructor
    · rintro ⟨e, he, hadd⟩
      have hmem : e ∈ (sendMessage env payload cb).trace.filter
          (Effect.isAddTo QueueName.notificationQueue) := List.mem_filter.2 ⟨he, hadd⟩
      rw [h] at hmem
      split at hmem
      · rename_i hlen
        obtain ⟨userId, hu⟩ := List.exists_mem_of_length_pos hlen
        obtain ⟨hin, hneq⟩ := List.mem_filter.1 hu
        exact ⟨userId, hin, by simpa using hneq⟩
      · simp at hmem
    · rintro ⟨userId, hin, hneq⟩
      have hu : userId ∈ ((payload.prop "participants").orDefault (JsVal.arr [])).items.filter
          (fun userId => !(userId.strictEq (payload.prop "user_id"))) :=
        List.mem_filter.2 ⟨hin, by simp [hneq]⟩
      have hlen := List.length_pos_of_mem hu
      rw [if_pos hlen] at h
      have hmem : Effect.queueAdd QueueName.notificationQueue "sendPushNotification"
          (JsVal.obj
            [("userIds", JsVal.arr
              (((payload.prop "participants").orDefault (JsVal.arr [])).items.filter
                (fun userId => !(userId.strictEq (payload.prop "user_id"))))),
             ("message", JsVal.str ("New message in chat " ++ chatName)),
             ("type", JsVal.str "new_message"),
             ("data", messageData env (payload.prop "user_id") (payload.prop "chat_id")
                (payload.prop "data")
                ((payload.prop "message_type").orDefault (JsVal.str "text")))])
          (JsVal.obj
            [("attempts", JsVal.num 3),
             ("backoff", JsVal.obj [("type", JsVal.str "exponential"),
                                    ("delay", JsVal.num 2000)])]) ∈
          (sendMessage env payload cb).trace.filter
            (Effect.isAddTo QueueName.notificationQueue) := by
        rw [h]
        exact List.mem_singleton.2 rfl
      exact ⟨_, (List.mem_filter.1 hmem).1, rfl⟩

/-- Witness for C10: in the delivery example (sender `u1`, participants `u1` and `u2`,
queues up) one notification job is added and its recipients are `["u2"]`. -/
theorem sendMessage_notification_job_witness :
    passesValidation samplePayload = true ∧
    (samplePayload.prop "chat_id").toStr = some "c1" ∧
    sampleEnv.queueRejects 0 = false ∧ sampleEnv.queueRejects 1 = false ∧
    ((sendMessage sampleEnv samplePayload Callback.function).trace.filter
        (Effect.isAddTo QueueName.notificationQueue)).map
      (fun e => match e with
        | Effect.queueAdd _ _ data _ => data.prop "userIds"
        | _ => JsVal.undefined) = [JsVal.arr [JsVal.str "u2"]] ∧
    ((∃ e ∈ (sendMessage sampleEnv samplePayload Callback.function).trace,
        e.isAddTo QueueName.notificationQueue = true) ↔
      ∃ userId ∈ ((samplePayload.prop "participants").orDefault (JsVal.arr [])).items,
        userId.strictEq (samplePayload.prop "user_id") = false) :=
  ⟨rfl, rfl, rfl, rfl, rfl,
   (sendMessage_notification_job sampleEnv samplePayload Callback.function rfl "c1" rfl rfl
      rfl).2⟩

/-- C10, counterexample: the delivery example with the object `{ toString: 1 }` as
`chat_id` passes the four checks, no queue addition would be rejected, and participant
`u2` differs from the sender `u1`; yet no notification job is added, nor any other
job. -/
theorem sendMessage_unconvertible_chat_id_adds_no_job :
    passesValidation unconvertibleChatPayload = true ∧
    sampleEnv.queueRejects 0 = false ∧ sampleEnv.queueRejects 1 = false ∧
    sampleEnv.queueRejects 2 = false ∧
    offlineUsers ((unconvertibleChatPayload.prop "participants").orDefault (JsVal.arr [])).items
      (unconvertibleChatPayload.prop "user_id") = [JsVal.str "u2"] ∧
    (sendMessage sampleEnv unconvertibleChatPayload Callback.function).trace.filter
      (Effect.isAddTo QueueName.notificationQueue) = [] ∧
    (sendMessage sampleEnv unconvertibleChatPayload Callback.function).trace.filter
      Effect.isQueueAdd = [] :=
  ⟨rfl, rfl, rfl, rfl, rfl, rfl, rfl⟩

/-! ## Lemmas on connections -/

theorem mem_rooms_join (socket : Socket) (room r : String) :
    r ∈ (socket.join room).rooms ↔ r = room ∨ r ∈ socket.rooms := by
  unfold Socket.join
  by_cases h : room ∈ socket.rooms
  · simp only [h, if_true]
    constructor
    · exact fun hr => Or.inr hr
    · rintro (hr | hr)
      · rw [hr]; exact h
      · exact hr
  · simp only [h, if_false, List.mem_append, List.mem_singleton]
    exact or_comm

theorem mem_rooms_leave (socket : Socket) (room r : String) :
    r ∈ (socket.leave room).rooms ↔ r ≠ room ∧ r ∈ socket.rooms := by
  simp [Socket.leave, List.mem_filter, and_comm]

theorem leave_of_not_mem (socket : Socket) (room : String) (h : room ∉ socket.rooms) :
    socket.leave room = socket := by
  have hf : socket.rooms.filter (fun r => r != room) = socket.rooms := by
    rw [List.filter_eq_self]
    intro r hr
    have hne : r ≠ room := fun heq => h (heq ▸ hr)
    simp [hne]
  cases socket with
  | mk id userId rooms =>
      simp only [Socket.leave] at hf ⊢
      rw [hf]

theorem leave_leave (socket : Socket) (room : String) :
    (socket.leave room).leave room = socket.leave room := by
  apply leave_of_not_mem
  intro h
  exact ((mem_rooms_leave socket room room).1 h).1 rfl

theorem prop_truthy_not_nullish (payload : JsVal) (key : String)
    (h : (payload.prop key).truthy = true) :
    ∃ fields, payload = JsVal.obj fields := by
  cases payload with
  | obj fields => exact ⟨fields, rfl⟩
  | _ => simp [JsVal.prop, JsVal.truthy] at h

theorem joinChat_of_ready (env : Env) (texts : ErrorTexts) (socket : Socket)
    (payload : JsVal) (cb : Callback) (hchat : (payload.prop "chat_id").truthy = true)
    (hreg : socket.userId.truthy = true) (chatName : String)
    (hname : (payload.prop "chat_id").toStr = some chatName) :
    joinChat env texts socket payload cb =
      if env.emitRaises 0 then
        ⟨Outcome.threw (Raised.error texts.bus),
         [Effect.broadcast ("chat_" ++ chatName) "user_joined"
            (JsVal.obj [("user_id", socket.userId), ("chat_id", payload.prop "chat_id"),
                        ("timestamp", JsVal.str (env.isoString (env.clock 0)))])],
         socket.join ("chat_" ++ chatName), 1⟩
      else
        ⟨Outcome.returned,
         Effect.broadcast ("chat_" ++ chatName) "user_joined"
            (JsVal.obj [("user_id", socket.userId), ("chat_id", payload.prop "chat_id"),
                        ("timestamp", JsVal.str (env.isoString (env.clock 0)))]) ::
           sendResponse env (env.clock 1) cb "Chat joined successfully."
             (JsVal.obj [("room_name", JsVal.str ("chat_" ++ chatName)),
                         ("chat_id", payload.prop "chat_id"), ("user_id", socket.userId)]),
         socket.join ("chat_" ++ chatName), 2⟩ := by
  obtain ⟨fields, hp⟩ := prop_truthy_not_nullish payload "chat_id" hchat
  subst hp
  simp [joinChat, hchat, hreg, hname, LISTENER.USER_JOINED]

theorem leaveChat_of_ready (env : Env) (texts : ErrorTexts) (socket : Socket)
    (payload : JsVal) (cb : Callback) (hchat : (payload.prop "chat_id").truthy = true)
    (hreg : socket.userId.truthy = true) (chatName : String)
    (hname : (payload.prop "chat_id").toStr = some chatName) :
    leaveChat env texts socket payload cb =
      if env.emitRaises 0 then
        ⟨Outcome.threw (Raised.error texts.bus),
         [Effect.broadcast ("chat_" ++ chatName) "user_left"
            (JsVal.obj [("user_id", socket.userId), ("chat_id", payload.prop "chat_id"),
                        ("timestamp", JsVal.str (env.isoString (env.clock 0)))])],
         socket.leave ("chat_" ++ chatName), 1⟩
      else
        ⟨Outcome.returned,
         Effect.broadcast ("chat_" ++ chatName) "user_left"
            (JsVal.obj [("user_id", socket.userId), ("chat_id", payload.prop "chat_id"),
                        ("timestamp", JsVal.str (env.isoString (env.clock 0)))]) ::
           sendResponse env (env.clock 1) cb "Chat left successfully."
             (JsVal.obj [("room_name", JsVal.str ("chat_" ++ chatName)),
                         ("chat_id", payload.prop "chat_id"), ("user_id", socket.userId),
                         ("message", JsVal.str "Chat left successfully.")]),
         socket.leave ("chat_" ++ chatName), 2⟩ := by
  obtain ⟨fields, hp⟩ := prop_truthy_not_nullish payload "chat_id" hchat
  subst hp
  simp [leaveChat, hchat, hreg, hname, LISTENER.USER_LEFT]

theorem not_ready_cases (chat_id userId : JsVal)
    (hready : ¬ (chat_id.truthy = true ∧ userId.truthy = true ∧ ∃ name, chat_id.toStr = some name)) :
    chat_id.truthy = false ∨ userId.truthy = false ∨ chat_id.toStr = none := by
  by_cases hc : chat_id.truthy = true
  · by_cases hr : userId.truthy = true
    · right
      right
      cases hn : chat_id.toStr with
      | none => rfl
      | some name => exact absurd ⟨hc, hr, name, hn⟩ hready
    · right
      left
      simpa using hr
  · left
    simpa using hc

theorem joinChat_of_not_ready (env : Env) (texts : ErrorTexts) (socket : Socket)
    (payload : JsVal) (cb : Callback)
    (h : (payload.prop "chat_id").truthy = false ∨ socket.userId.truthy = false ∨
      (payload.prop "chat_id").toStr = none) :
    ∃ e, joinChat env texts socket payload cb = ⟨Outcome.threw e, [], socket, 0⟩ := by
  cases payload with
  | undefined => exact ⟨Raised.typeError, rfl⟩
  | null => exact ⟨Raised.typeError, rfl⟩
  | obj fields =>
      by_cases hc : ((JsVal.obj fields).prop "chat_id").truthy = true
      · by_cases hr : socket.userId.truthy = true
        · have hn : ((JsVal.obj fields).prop "chat_id").toStr = none := by
            rcases h with h | h | h
            · rw [hc] at h; cases h
            · rw [hr] at h; cases h
            · exact h
          exact ⟨Raised.typeError, by simp [joinChat, hc, hr, hn]⟩
        · exact ⟨Raised.error "User must be registered first.", by simp [joinChat, hc, hr]⟩
      · exact ⟨Raised.error "Chat Id is required.", by simp [joinChat, hc]⟩
  | bool b => exact ⟨Raised.error "Chat Id is required.", by simp [joinChat, JsVal.prop, JsVal.truthy]⟩
  | num n => exact ⟨Raised.error "Chat Id is required.", by simp [joinChat, JsVal.prop, JsVal.truthy]⟩
  | str t => exact ⟨Raised.error "Chat Id is required.", by simp [joinChat, JsVal.prop, JsVal.truthy]⟩
  | date ms => exact ⟨Raised.error "Chat Id is required.", by simp [joinChat, JsVal.prop, JsVal.truthy]⟩
  | arr items => exact ⟨Raised.error "Chat Id is required.", by simp [joinChat, JsVal.prop, JsVal.truthy]⟩

theorem leaveChat_of_not_ready (env : Env) (texts : ErrorTexts) (socket : Socket)
    (payload : JsVal) (cb : Callback)
    (h : (payload.prop "chat_id").truthy = false ∨ socket.userId.truthy = false ∨
      (payload.prop "chat_id").toStr = none) :
    ∃ e, leaveChat env texts socket payload cb = ⟨Outcome.threw e, [], socket, 0⟩ := by
  cases payload with
  | undefined => exact ⟨Raised.typeError, rfl⟩
  | null => exact ⟨Raised.typeError, rfl⟩
  | obj fields =>
      by_cases hc : ((JsVal.obj fields).prop "chat_id").truthy = true
      · by_cases hr : socket.userId.truthy = true
        · have hn : ((JsVal.obj fields).prop "chat_id").toStr = none := by
            rcases h with h | h | h
            · rw [hc] at h; cases h
            · rw [hr] at h; cases h
            · exact h
          exact ⟨Raised.typeError, by simp [leaveChat, hc, hr, hn]⟩
        · exact ⟨Raised.error "User must be registered first.", by simp [leaveChat, hc, hr]⟩
      · exact ⟨Raised.error "Chat Id is required.", by simp [leaveChat, hc]⟩
  | bool b => exact ⟨Raised.error "Chat Id is required.", by simp [leaveChat, JsVal.prop, JsVal.truthy]⟩
  | num n => exact ⟨Raised.error "Chat Id is required.", by simp [leaveChat, JsVal.prop, JsVal.truthy]⟩
  | str t => exact ⟨Raised.error "Chat Id is required.", by simp [leaveChat, JsVal.prop, JsVal.truthy]⟩
  | date ms => exact ⟨Raised.error "Chat Id is required.", by simp [leaveChat, JsVal.prop, JsVal.truthy]⟩
  | arr items => exact ⟨Raised.error "Chat Id is required.", by simp [leaveChat, JsVal.prop, JsVal.truthy]⟩

theorem sendResponse_no_broadcast (env : Env) (now : Nat) (cb : Callback) (message : String)
    (data : JsVal) :
    ∀ e ∈ sendResponse env now cb message data, e.isPublish = false := by
  intro e he
  cases cb <;> simp [sendResponse] at he <;> subst he <;> rfl

theorem filter_isPublish_sendResponse (env : Env) (now : Nat) (cb : Callback)
    (message : String) (data : JsVal) :
    (sendResponse env now cb message data).filter Effect.isPublish = [] := by
  rw [List.filter_eq_nil_iff]
  intro e he
  simp [sendResponse_no_broadcast env now cb message data e he]

theorem countP_isBroadcastOn_sendResponse (env : Env) (now : Nat) (cb : Callback)
    (message : String) (data : JsVal) (topic event : String) :
    (sendResponse env now cb message data).countP (Effect.isBroadcastOn topic event) = 0 := by
  rw [List.countP_eq_zero]
  intro e he
  have hno := sendResponse_no_broadcast env now cb message data e he
  cases e <;> simp [Effect.isBroadcastOn, Effect.isPublish] at hno ⊢

/-! ## Registry: `register`, `joinChat`, `sendMessage` and registration -/

/-- C11 (as amended): `register` raises exactly when `user_id` is falsy (missing or
empty) or has no string conversion; it then leaves the connection as it was and makes
no call. Otherwise it returns, whatever identity the connection already has: the
binding becomes the new `user_id` and the connection is added to the room
`user_<user_id>`, keeping the rooms it was in. -/
theorem register_fails_iff_falsy (env : Env) (socket : Socket) (payload : JsVal)
    (cb : Callback) :
    ((∃ e, (register env socket payload cb).outcome = Outcome.threw e) ↔
      ((payload.prop "user_id").truthy = false ∨ (payload.prop "user_id").toStr = none)) ∧
    ((∃ e, (register env socket payload cb).outcome = Outcome.threw e) →
      (register env socket payload cb).socket = socket ∧
      (register env socket payload cb).trace = []) ∧
    ((payload.prop "user_id").truthy = true →
      ∀ userName, (payload.prop "user_id").toStr = some userName →
      (register env socket payload cb).outcome = Outcome.returned ∧
      (register env socket payload cb).socket.userId = payload.prop "user_id" ∧
      (register env socket payload cb).socket.id = socket.id ∧
      ∀ r, r ∈ (register env socket payload cb).socket.rooms ↔
        r = "user_" ++ userName ∨ r ∈ socket.rooms) := by
  by_cases hu : (payload.prop "user_id").truthy = true
  · obtain ⟨fields, hp⟩ := prop_truthy_not_nullish payload "user_id" hu
    subst hp
    cases hn : ((JsVal.obj fields).prop "user_id").toStr with
    | none =>
        have hrun : register env socket (JsVal.obj fields) cb =
            ⟨Outcome.threw Raised.typeError, [], socket, 0⟩ := by
          simp [register, hu, hn]
        rw [hrun]
        refine ⟨?_, ?_, ?_⟩
        · simp
        · intro _
          exact ⟨rfl, rfl⟩
        · intro _ userName hname
          cases hname
    | some name =>
        have hrun : register env socket (JsVal.obj fields) cb =
            ⟨Outcome.returned,
             sendResponse env (env.clock 0) cb "User registered successfully."
               (JsVal.obj [("socket_id", JsVal.str socket.id),
                           ("user_id", (JsVal.obj fields).prop "user_id"),
                           ("server_id", env.serverId)]),
             { socket.join ("user_" ++ name) with
               userId := (JsVal.obj fields).prop "user_id" }, 1⟩ := by
          simp [register, hu, hn]
        rw [hrun]
        refine ⟨?_, ?_, ?_⟩
        · simp [hu]
        · rintro ⟨e, he⟩
          cases he
        · intro _ userName hname
          cases hname
          refine ⟨rfl, rfl, ?_, ?_⟩
          · simp only [Socket.join]
            split <;> rfl
          · intro r
            exact mem_rooms_join socket _ r
  · have hf : (payload.prop "user_id").truthy = false := by simpa using hu
    have hrun : ∃ e, register env socket payload cb = ⟨Outcome.threw e, [], socket, 0⟩ := by
      cases payload with
      | undefined => exact ⟨Raised.typeError, rfl⟩
      | null => exact ⟨Raised.typeError, rfl⟩
      | obj fields => exact ⟨Raised.error "User Id is required.", by simp [register, hf]⟩
      | bool b => exact ⟨Raised.error "User Id is required.", by simp [register, hf]⟩
      | num n => exact ⟨Raised.error "User Id is required.", by simp [register, hf]⟩
      | str t => exact ⟨Raised.error "User Id is required.", by simp [register, hf]⟩
      | date ms => exact ⟨Raised.error "User Id is required.", by simp [register, hf]⟩
      | arr items => exact ⟨Raised.error "User Id is required.", by simp [register, hf]⟩
    obtain ⟨e, he⟩ := hrun
    rw [he]
    refine ⟨?_, ?_, ?_⟩
    · simp [hf]
    · intro _
      exact ⟨rfl, rfl⟩
    · intro ht
      rw [hf] at ht
      cases ht

/-- C11, counterexample: on a fresh connection `register` with `user_id: "u1"` and then
`register` with `user_id: "u2"` both return; the second is not rejected and the binding
is `"u2"` afterwards, the first one is not kept. -/
theorem register_twice_rebinds :
    (register sampleEnv (Socket.fresh "sock-1") registerPayload Callback.function).outcome =
      Outcome.returned ∧
    (register sampleEnv (Socket.fresh "sock-1") registerPayload Callback.function).socket.userId =
      JsVal.str "u1" ∧
    (register sampleEnv
      (register sampleEnv (Socket.fresh "sock-1") registerPayload Callback.function).socket
      secondRegisterPayload Callback.function).outcome = Outcome.returned ∧
    (register sampleEnv
      (register sampleEnv (Socket.fresh "sock-1") registerPayload Callback.function).socket
      secondRegisterPayload Callback.function).socket.userId = JsVal.str "u2" ∧
    (register sampleEnv
      (register sampleEnv (Socket.fresh "sock-1") registerPayload Callback.function).socket
      secondRegisterPayload Callback.function).socket.rooms = ["user_u1", "user_u2"] :=
  ⟨rfl, rfl, rfl, rfl, rfl⟩

/-- C12 (as amended): on a connection that is not registered `joinChat` raises, leaves
the connection (its rooms included) as it was and makes no call. On a registered
connection, with a truthy `chat_id` that has the string conversion `chatName`, the
connection is in the room `chat_<chatName>` afterwards (its other rooms unchanged) and
the events published are exactly one: `user_joined` to that room, carrying the bound
user id and the chat id; the handler then returns when that emit does not raise. -/
theorem joinChat_requires_registration (env : Env) (texts : ErrorTexts) (socket : Socket)
    (payload : JsVal) (cb : Callback) :
    (socket.userId.truthy = false →
      (∃ e, (joinChat env texts socket payload cb).outcome = Outcome.threw e) ∧
      (joinChat env texts socket payload cb).socket = socket ∧
      (joinChat env texts socket payload cb).trace = []) ∧
    (socket.userId.truthy = true → (payload.prop "chat_id").truthy = true →
      ∀ chatName, (payload.prop "chat_id").toStr = some chatName →
      (∀ r, r ∈ (joinChat env texts socket payload cb).socket.rooms ↔
        r = "chat_" ++ chatName ∨ r ∈ socket.rooms) ∧
      socket.id ∈ members [(joinChat env texts socket payload cb).socket]
        ("chat_" ++ chatName) ∧
      (joinChat env texts socket payload cb).trace.filter Effect.isPublish =
        [Effect.broadcast ("chat_" ++ chatName) "user_joined"
          (JsVal.obj [("user_id", socket.userId), ("chat_id", payload.prop "chat_id"),
                      ("timestamp", JsVal.str (env.isoString (env.clock 0)))])] ∧
      broadcastCount (joinChat env texts socket payload cb).trace
        ("chat_" ++ chatName) "user_joined" = 1 ∧
      (env.emitRaises 0 = false →
        (joinChat env texts socket payload cb).outcome = Outcome.returned)) := by
  constructor
  · intro hreg
    obtain ⟨e, he⟩ := joinChat_of_not_ready env texts socket payload cb (Or.inr (Or.inl hreg))
    rw [he]
    exact ⟨⟨e, rfl⟩, rfl, rfl⟩
  · intro hreg hchat chatName hname
    rw [joinChat_of_ready env texts socket payload cb hchat hreg chatName hname]
    have hid : (socket.join ("chat_" ++ chatName)).id = socket.id := by
      simp only [Socket.join]
      split <;> rfl
    have hin : "chat_" ++ chatName ∈ (socket.join ("chat_" ++ chatName)).rooms :=
      (mem_rooms_join socket _ _).2 (Or.inl rfl)
    cases hraise : env.emitRaises 0
    · simp only [Bool.false_eq_true, if_false]
      refine ⟨fun r => mem_rooms_join socket _ r, ?_, ?_, ?_, by simp⟩
      · simp [members, hin, hid]
      · simp [List.filter_cons, Effect.isPublish, filter_isPublish_sendResponse]
      · simp [broadcastCount, List.countP_cons, Effect.isBroadcastOn,
          countP_isBroadcastOn_sendResponse]
    · simp only [if_true]
      refine ⟨fun r => mem_rooms_join socket _ r, ?_, ?_, ?_, by simp⟩
      · simp [members, hin, hid]
      · simp [Effect.isPublish]
      · simp [broadcastCount, Effect.isBroadcastOn]

/-- Witness for C12: a connection registered as `u1` that joins chat `c1` is in the room
`chat_c1` afterwards and one `user_joined` is broadcast to that room; a fresh
connection is refused and makes no call. -/
theorem joinChat_requires_registration_witness :
    sampleSocket.userId.truthy = true ∧ (chatPayload.prop "chat_id").truthy = true ∧
    (chatPayload.prop "chat_id").toStr = some "c1" ∧
    broadcastCount (joinChat sampleEnv sampleTexts sampleSocket chatPayload Callback.function).trace
      "chat_c1" "user_joined" = 1 ∧
    (joinChat sampleEnv sampleTexts sampleSocket chatPayload Callback.function).socket.rooms =
      ["user_u1", "chat_c1"] ∧
    (Socket.fresh "sock-2").userId.truthy = false ∧
    (joinChat sampleEnv sampleTexts (Socket.fresh "sock-2") chatPayload Callback.function).trace =
      [] :=
  ⟨rfl, rfl, rfl,
   ((joinChat_requires_registration sampleEnv sampleTexts sampleSocket chatPayload
      Callback.function).2 rfl rfl "c1" rfl).2.2.2.1,
   rfl, rfl,
   ((joinChat_requires_registration sampleEnv sampleTexts (Socket.fresh "sock-2") chatPayload
      Callback.function).1 rfl).2.2⟩

/-- C12, counterexample: a connection registered as `u1` sends `joinChat` with the
object `{ toString: 1 }` as `chat_id`, a truthy value. The handler raises a
`TypeError`: the connection joins no room and nothing is published. -/
theorem joinChat_fails_on_unconvertible_chat_id :
    sampleSocket.userId.truthy = true ∧
    (unconvertibleJoinPayload.prop "chat_id").truthy = true ∧
    (joinChat sampleEnv conversionTexts sampleSocket unconvertibleJoinPayload
      Callback.function).outcome = Outcome.threw Raised.typeError ∧
    (joinChat sampleEnv conversionTexts sampleSocket unconvertibleJoinPayload
      Callback.function).socket.rooms = sampleSocket.rooms ∧
    (joinChat sampleEnv conversionTexts sampleSocket unconvertibleJoinPayload
      Callback.function).trace = [] ∧
    ((onEvent sampleEnv conversionTexts sampleSocket ClientEvent.joinChat
      unconvertibleJoinPayload Callback.function).trace.map
        (fun e => (e.isAck, e.payload.prop "success", e.payload.prop "message"))) =
      [(true, JsVal.bool false, JsVal.str "Cannot convert object to primitive value")] :=
  ⟨rfl, rfl, rfl, rfl, rfl, rfl⟩

/-- C13, evaluation: `sendMessage` never reads the connection. The listener for
`sendMessage` on a fresh connection (no bound user identifier), given the delivery
example, returns, emits `receive_message` on `chat_c1` and `chat_list` on `user_u2`,
adds three jobs and acknowledges with `success: true`; and for every payload the calls
made are the same on any two connections. -/
theorem sendMessage_ignores_registration :
    (Socket.fresh "sock-1").userId = JsVal.undefined ∧
    (onEvent sampleEnv sampleTexts (Socket.fresh "sock-1") ClientEvent.sendMessage
      samplePayload Callback.function).outcome = Outcome.returned ∧
    emitCount (onEvent sampleEnv sampleTexts (Socket.fresh "sock-1") ClientEvent.sendMessage
      samplePayload Callback.function).trace "chat_c1" "receive_message" = 1 ∧
    emitCount (onEvent sampleEnv sampleTexts (Socket.fresh "sock-1") ClientEvent.sendMessage
      samplePayload Callback.function).trace "user_u2" "chat_list" = 1 ∧
    ((onEvent sampleEnv sampleTexts (Socket.fresh "sock-1") ClientEvent.sendMessage
      samplePayload Callback.function).trace.filter Effect.isQueueAdd).length = 3 ∧
    ((onEvent sampleEnv sampleTexts (Socket.fresh "sock-1") ClientEvent.sendMessage
      samplePayload Callback.function).trace.getLast?.map
        (fun e => (e.isAck, (e.payload.prop "success").truthy))) = some (true, true) ∧
    (∀ (env : Env) (texts : ErrorTexts) (s1 s2 : Socket) (payload : JsVal) (cb : Callback),
      (onEvent env texts s1 ClientEvent.sendMessage payload cb).trace =
        (onEvent env texts s2 ClientEvent.sendMessage payload cb).trace ∧
      (onEvent env texts s1 ClientEvent.sendMessage payload cb).outcome =
        (onEvent env texts s2 ClientEvent.sendMessage payload cb).outcome) := by
  refine ⟨rfl, rfl, rfl, rfl, rfl, rfl, ?_⟩
  intro env texts s1 s2 payload cb
  simp only [onEvent, catchAsync, controller, Run.onSocket]
  cases hout : (sendMessage env payload cb).outcome with
  | returned => simp
  | threw e => cases cb <;> simp

/-! ## Lemmas on room membership across connections -/

theorem mem_members_iff (sockets : List Socket) (conn room : String) :
    conn ∈ members sockets room ↔ ∃ s ∈ sockets, s.id = conn ∧ room ∈ s.rooms := by
  simp only [members, List.mem_map, List.mem_filter, decide_eq_true_eq]
  constructor
  · rintro ⟨s, ⟨hs, hr⟩, hid⟩
    exact ⟨s, hs, hid, hr⟩
  · rintro ⟨s, hs, hid, hr⟩
    exact ⟨s, ⟨hs, hr⟩, hid⟩

theorem RoomOp.handle_returned (env : Env) (texts : ErrorTexts) (op : RoomOp) (s : Socket)
    (hret : (op.handle env texts s).outcome = Outcome.returned) :
    (op.handle env texts s).socket.id = s.id ∧
    ∃ opRoom, op.room = some opRoom ∧
      ∀ r, r ∈ (op.handle env texts s).socket.rooms ↔
        if op.join = true then r = opRoom ∨ r ∈ s.rooms else r ≠ opRoom ∧ r ∈ s.rooms := by
  have hprop : (JsVal.obj [("chat_id", op.chat_id)]).prop "chat_id" = op.chat_id := by
    simp [JsVal.prop, lookupField]
  by_cases hready : op.chat_id.truthy = true ∧ s.userId.truthy = true ∧
      ∃ name, op.chat_id.toStr = some name
  · obtain ⟨hchat, hreg, name, hname⟩ := hready
    have hchat2 : ((JsVal.obj [("chat_id", op.chat_id)]).prop "chat_id").truthy = true := by
      rw [hprop]; exact hchat
    have hname2 : ((JsVal.obj [("chat_id", op.chat_id)]).prop "chat_id").toStr = some name := by
      rw [hprop]; exact hname
    have hroom : op.room = some ("chat_" ++ name) := by
      simp [RoomOp.room, hname]
    cases hjoin : op.join
    · simp only [RoomOp.handle, hjoin, Bool.false_eq_true, if_false] at hret ⊢
      rw [leaveChat_of_ready env texts s _ op.cb hchat2 hreg name hname2] at hret ⊢
      cases hraise : env.emitRaises 0
      · simp only [Bool.false_eq_true, if_false]
        exact ⟨rfl, _, hroom, fun r => mem_rooms_leave s _ r⟩
      · simp [hraise] at hret
    · simp only [RoomOp.handle, hjoin, if_true] at hret ⊢
      rw [joinChat_of_ready env texts s _ op.cb hchat2 hreg name hname2] at hret ⊢
      cases hraise : env.emitRaises 0
      · simp only [Bool.false_eq_true, if_false]
        refine ⟨?_, _, hroom, fun r => mem_rooms_join s _ r⟩
        simp only [Socket.join]
        split <;> rfl
      · simp [hraise] at hret
  · have hnot : ((JsVal.obj [("chat_id", op.chat_id)]).prop "chat_id").truthy = false ∨
        s.userId.truthy = false ∨
        ((JsVal.obj [("chat_id", op.chat_id)]).prop "chat_id").toStr = none := by
      rw [hprop]
      exact not_ready_cases _ _ hready
    cases hjoin : op.join
    · simp only [RoomOp.handle, hjoin, Bool.false_eq_true, if_false] at hret
      obtain ⟨e, he⟩ := leaveChat_of_not_ready env texts s _ op.cb hnot
      rw [he] at hret
      cases hret
    · simp only [RoomOp.handle, hjoin, if_true] at hret
      obtain ⟨e, he⟩ := joinChat_of_not_ready env texts s _ op.cb hnot
      rw [he] at hret
      cases hret

theorem RoomOp.handle_rooms (env : Env) (texts : ErrorTexts) (op : RoomOp) (s : Socket)
    (hret : (op.handle env texts s).outcome = Outcome.returned) :
    (op.handle env texts s).socket.id = s.id ∧
    ∀ r, r ∈ (op.handle env texts s).socket.rooms ↔
      if op.join = true then op.room = some r ∨ r ∈ s.rooms
      else op.room ≠ some r ∧ r ∈ s.rooms := by
  obtain ⟨hid, opRoom, hroom, hrooms⟩ := RoomOp.handle_returned env texts op s hret
  refine ⟨hid, fun r => ?_⟩
  rw [hrooms r, hroom]
  have heq : some opRoom = some r ↔ r = opRoom := by
    constructor
    · intro h
      exact (Option.some.inj h).symm
    · intro h
      rw [h]
  cases op.join
  · simp only [Bool.false_eq_true, if_false, ne_eq, heq]
  · simp only [if_true, heq]

theorem mem_members_apply (env : Env) (texts : ErrorTexts) (sockets : List Socket)
    (op : RoomOp) (hok : op.succeeds env texts sockets = true) (conn room : String) :
    conn ∈ members (op.apply env texts sockets) room ↔
      if op.conn = conn ∧ op.room = some room then op.join = true
      else conn ∈ members sockets room := by
  simp only [RoomOp.succeeds, Bool.and_eq_true, List.any_eq_true, List.all_eq_true,
    beq_iff_eq, Bool.or_eq_true, bne_iff_ne, ne_eq] at hok
  obtain ⟨⟨s0, hs0, hid0⟩, hall⟩ := hok
  have hret : ∀ s ∈ sockets, s.id = op.conn →
      (op.handle env texts s).outcome = Outcome.returned := by
    intro s hs hid
    rcases hall s hs with h | h
    · exact absurd hid h
    · exact h
  rw [mem_members_iff, mem_members_iff]
  simp only [RoomOp.apply, List.mem_map]
  by_cases hmatch : op.conn = conn ∧ op.room = some room
  · obtain ⟨hconn, hroom⟩ := hmatch
    simp only [hconn, hroom, and_self, if_true]
    constructor
    · rintro ⟨s', ⟨s, hs, hs'⟩, hid, hr⟩
      by_cases hsid : s.id = op.conn
      · have hh := RoomOp.handle_rooms env texts op s (hret s hs hsid)
        rw [hconn] at hsid
        rw [if_pos hsid] at hs'
        subst hs'
        have hr2 := (hh.2 room).1 hr
        cases hjoin : op.join
        · rw [hjoin] at hr2
          simp only [Bool.false_eq_true, if_false] at hr2
          exact absurd hroom hr2.1
        · rfl
      · rw [hconn] at hsid
        rw [if_neg hsid] at hs'
        subst hs'
        exact absurd hid hsid
    · intro hjoin
      have hh := RoomOp.handle_rooms env texts op s0 (hret s0 hs0 hid0)
      refine ⟨(op.handle env texts s0).socket, ⟨s0, hs0, ?_⟩, ?_, ?_⟩
      · rw [← hconn, if_pos hid0]
      · rw [hh.1, hid0, hconn]
      · rw [hh.2 room, hjoin]
        simp [hroom]
  · rw [if_neg hmatch]
    constructor
    · rintro ⟨s', ⟨s, hs, hs'⟩, hid, hr⟩
      by_cases hsid : s.id = op.conn
      · have hh := RoomOp.handle_rooms env texts op s (hret s hs hsid)
        rw [if_pos hsid] at hs'
        subst hs'
        rw [hh.1] at hid
        have hroom : ¬ op.room = some room := fun h => hmatch ⟨hsid ▸ hid, h⟩
        have hr2 := (hh.2 room).1 hr
        refine ⟨s, hs, hid, ?_⟩
        cases hjoin : op.join
        · rw [hjoin] at hr2
          simp only [Bool.false_eq_true, if_false] at hr2
          exact hr2.2
        · rw [hjoin] at hr2
          simp only [if_true] at hr2
          rcases hr2 with h | h
          · exact absurd h hroom
          · exact h
      · rw [if_neg hsid] at hs'
        subst hs'
        exact ⟨s, hs, hid, hr⟩
    · rintro ⟨s, hs, hid, hr⟩
      by_cases hsid : s.id = op.conn
      · have hh := RoomOp.handle_rooms env texts op s (hret s hs hsid)
        have hroom : ¬ op.room = some room := fun h => hmatch ⟨hsid ▸ hid, h⟩
        refine ⟨(op.handle env texts s).socket, ⟨s, hs, by rw [if_pos hsid]⟩, ?_, ?_⟩
        · rw [hh.1, hid]
        · rw [hh.2 room]
          cases hjoin : op.join
          · simp only [Bool.false_eq_true, if_false]
            exact ⟨hroom, hr⟩
          · simp only [if_true]
            exact Or.inr hr
      · exact ⟨s, ⟨s, hs, by rw [if_neg hsid]⟩, hid, hr⟩

theorem lastRoomOp_cons (op : RoomOp) (rest : List RoomOp) (conn room : String) :
    lastRoomOp (op :: rest) conn room =
      match lastRoomOp rest conn room with
      | some j => some j
      | none => if op.conn = conn ∧ op.room = some room then some op.join else none := by
  unfold lastRoomOp
  by_cases hmatch : op.conn = conn ∧ op.room = some room
  · rw [List.filter_cons_of_pos (by simpa using hmatch), List.getLast?_cons]
    cases hlast : (rest.filter (fun op => decide (op.conn = conn ∧ op.room = some room))).getLast? with
    | none => simp [hmatch]
    | some o => simp
  · rw [List.filter_cons_of_neg (by simpa using hmatch)]
    cases hlast : (rest.filter (fun op => decide (op.conn = conn ∧ op.room = some room))).getLast? with
    | none => simp [hmatch]
    | some o => simp

theorem mem_members_run (env : Env) (texts : ErrorTexts) (ops : List RoomOp)
    (sockets : List Socket) (hok : allSucceed env texts sockets ops = true)
    (conn room : String) :
    conn ∈ members (runRoomOps env texts sockets ops) room ↔
      match lastRoomOp ops conn room with
      | some j => j = true
      | none => conn ∈ members sockets room := by
  induction ops generalizing sockets with
  | nil => simp [runRoomOps, lastRoomOp]
  | cons op rest ih =>
      simp only [allSucceed, Bool.and_eq_true] at hok
      obtain ⟨hop, hrest⟩ := hok
      rw [runRoomOps, ih _ hrest, lastRoomOp_cons]
      cases hlast : lastRoomOp rest conn room with
      | some j => rfl
      | none =>
          simp only
          rw [mem_members_apply env texts sockets op hop conn room]
          by_cases hmatch : op.conn = conn ∧ op.room = some room
          · simp [hmatch]
          · simp [hmatch]

/-! ## Registry: disconnect, `leaveChat`, room membership -/

/-- C14 (as amended): closing a connection takes it out of every room it had joined,
and that is all: the `disconnect` listeners make no call, so no `user_left` is
published on any topic, and the property `userId` of the connection is left as it
was. -/
theorem disconnect_only_leaves_rooms (socket : Socket) :
    (disconnect socket).outcome = Outcome.returned ∧
    (disconnect socket).socket.rooms = [] ∧
    (∀ room, socket.id ∉ members [(disconnect socket).socket] room) ∧
    (disconnect socket).socket.userId = socket.userId ∧
    (disconnect socket).trace = [] ∧
    (∀ topic, broadcastCount (disconnect socket).trace topic "user_left" = 0 ∧
      emitCount (disconnect socket).trace topic "user_left" = 0) := by
  refine ⟨rfl, rfl, ?_, rfl, rfl, ?_⟩
  · intro room
    simp [members, disconnect]
  · intro topic
    simp [disconnect, broadcastCount, emitCount]

/-- C14, counterexample: closing a connection registered as `u1` that is in the rooms
of chats `r1` and `r2` publishes no `user_left` on either room, not one on each, and
the connection still carries `u1`. -/
theorem disconnect_publishes_nothing :
    socketInTwoRooms.rooms = ["user_u1", "chat_r1", "chat_r2"] ∧
    broadcastCount (disconnect socketInTwoRooms).trace "chat_r1" "user_left" = 0 ∧
    emitCount (disconnect socketInTwoRooms).trace "chat_r1" "user_left" = 0 ∧
    broadcastCount (disconnect socketInTwoRooms).trace "chat_r2" "user_left" = 0 ∧
    emitCount (disconnect socketInTwoRooms).trace "chat_r2" "user_left" = 0 ∧
    (disconnect socketInTwoRooms).socket.userId = JsVal.str "u1" :=
  ⟨rfl, rfl, rfl, rfl, rfl, rfl⟩

/-- C15 (as amended): for a registered connection and a room it has not joined, the
room `chat_<chatName>` of a truthy `chat_id` with the string conversion `chatName`,
`leaveChat` (when its emit does not raise) returns, acknowledges with `success: true`
and leaves the connection, its rooms included, unchanged, but it still publishes one
`user_left` to that room. Leaving a second time leaves the connection as the first
leave left it, for every connection and payload. -/
theorem leaveChat_of_room_not_joined (env : Env) (texts : ErrorTexts) (socket : Socket)
    (payload : JsVal) (cb : Callback) (hreg : socket.userId.truthy = true)
    (hchat : (payload.prop "chat_id").truthy = true) (chatName : String)
    (hname : (payload.prop "chat_id").toStr = some chatName)
    (hnot : "chat_" ++ chatName ∉ socket.rooms)
    (hbus : env.emitRaises 0 = false) :
    (leaveChat env texts socket payload cb).outcome = Outcome.returned ∧
    (leaveChat env texts socket payload cb).socket = socket ∧
    (leaveChat env texts socket payload cb).trace.filter Effect.isPublish =
      [Effect.broadcast ("chat_" ++ chatName) "user_left"
        (JsVal.obj [("user_id", socket.userId), ("chat_id", payload.prop "chat_id"),
                    ("timestamp", JsVal.str (env.isoString (env.clock 0)))])] ∧
    broadcastCount (leaveChat env texts socket payload cb).trace
      ("chat_" ++ chatName) "user_left" = 1 ∧
    (cb = Callback.function →
      (leaveChat env texts socket payload cb).trace.getLast? =
        some (Effect.ack (JsVal.obj
          [("success", JsVal.bool true), ("message", JsVal.str "Chat left successfully."),
           ("data", JsVal.obj
              [("room_name", JsVal.str ("chat_" ++ chatName)),
               ("chat_id", payload.prop "chat_id"), ("user_id", socket.userId),
               ("message", JsVal.str "Chat left successfully.")]),
           ("timestamp", JsVal.str (env.isoString (env.clock 1))),
           ("server_id", env.serverId)]))) ∧
    (∀ (env1 env2 : Env) (s : Socket) (p : JsVal) (cb1 cb2 : Callback),
      (leaveChat env2 texts (leaveChat env1 texts s p cb1).socket p cb2).socket =
        (leaveChat env1 texts s p cb1).socket) := by
  refine ⟨?_, ?_, ?_, ?_, ?_, ?_⟩
  · rw [leaveChat_of_ready env texts socket payload cb hchat hreg chatName hname]
    simp [hbus]
  · rw [leaveChat_of_ready env texts socket payload cb hchat hreg chatName hname]
    simp [hbus, leave_of_not_mem socket _ hnot]
  · rw [leaveChat_of_ready env texts socket payload cb hchat hreg chatName hname]
    simp [hbus, List.filter_cons, Effect.isPublish, filter_isPublish_sendResponse]
  · rw [leaveChat_of_ready env texts socket payload cb hchat hreg chatName hname]
    simp [hbus, broadcastCount, List.countP_cons, Effect.isBroadcastOn,
      countP_isBroadcastOn_sendResponse]
  · intro hcb
    subst hcb
    rw [leaveChat_of_ready env texts socket payload Callback.function hchat hreg chatName hname]
    simp [hbus, sendResponse, JsVal.orDefault]
  · intro env1 env2 s p cb1 cb2
    by_cases hready : (p.prop "chat_id").truthy = true ∧ s.userId.truthy = true ∧
        ∃ name, (p.prop "chat_id").toStr = some name
    · obtain ⟨hc, hr, name, hn⟩ := hready
      have hfirst : (leaveChat env1 texts s p cb1).socket = s.leave ("chat_" ++ name) := by
        rw [leaveChat_of_ready env1 texts s p cb1 hc hr name hn]
        split <;> rfl
      rw [hfirst]
      have hr2 : (s.leave ("chat_" ++ name)).userId.truthy = true := hr
      rw [leaveChat_of_ready env2 texts _ p cb2 hc hr2 name hn]
      split <;> exact leave_leave s _
    · have hnot2 := not_ready_cases _ _ hready
      obtain ⟨e1, he1⟩ := leaveChat_of_not_ready env1 texts s p cb1 hnot2
      rw [he1]
      obtain ⟨e2, he2⟩ := leaveChat_of_not_ready env2 texts s p cb2 hnot2
      rw [he2]

/-- Witness for C15: a connection registered as `u1` that is not in chat `c1` leaves
`c1`: the call returns, the connection is unchanged, and one `user_left` goes to
`chat_c1`. -/
theorem leaveChat_of_room_not_joined_witness :
    sampleSocket.userId.truthy = true ∧ (chatPayload.prop "chat_id").truthy = true ∧
    (chatPayload.prop "chat_id").toStr = some "c1" ∧
    "chat_" ++ "c1" ∉ sampleSocket.rooms ∧
    sampleEnv.emitRaises 0 = false ∧
    (leaveChat sampleEnv sampleTexts sampleSocket chatPayload Callback.function).outcome =
      Outcome.returned ∧
    (leaveChat sampleEnv sampleTexts sampleSocket chatPayload Callback.function).socket =
      sampleSocket :=
  ⟨rfl, rfl, rfl, by decide, rfl,
   (leaveChat_of_room_not_joined sampleEnv sampleTexts sampleSocket chatPayload
      Callback.function rfl rfl "c1" rfl (by decide) rfl).1,
   (leaveChat_of_room_not_joined sampleEnv sampleTexts sampleSocket chatPayload
      Callback.function rfl rfl "c1" rfl (by decide) rfl).2.1⟩

/-- C15, counterexample: a connection registered as `u1` that has not joined chat `c1`
sends `leaveChat` for `c1`, and one `user_left` is published to `chat_c1`. -/
theorem leaveChat_unjoined_room_publishes :
    sampleSocket.userId.truthy = true ∧
    "chat_c1" ∉ sampleSocket.rooms ∧
    broadcastCount
      (leaveChat sampleEnv sampleTexts sampleSocket chatPayload Callback.function).trace
      "chat_c1" "user_left" = 1 :=
  ⟨rfl, by decide, rfl⟩

/-- C16: after any sequence of `joinChat` / `leaveChat` operations that all succeed, a
connection is a member of a room exactly according to its most recent operation on
that room: a member when that was a join, not a member when that was a leave, and as
before the sequence when it made none. So when no connection is in the room at the
start, its member set is exactly the connections whose most recent operation on it is
a join. -/
theorem members_follow_last_operation (env : Env) (texts : ErrorTexts)
    (sockets : List Socket) (ops : List RoomOp)
    (hok : allSucceed env texts sockets ops = true) (conn room : String) :
    (lastRoomOp ops conn room = some true →
      conn ∈ members (runRoomOps env texts sockets ops) room) ∧
    (lastRoomOp ops conn room = some false →
      conn ∉ members (runRoomOps env texts sockets ops) room) ∧
    (lastRoomOp ops conn room = none →
      (conn ∈ members (runRoomOps env texts sockets ops) room ↔
        conn ∈ members sockets room)) ∧
    ((∀ c, c ∉ members sockets room) →
      (conn ∈ members (runRoomOps env texts sockets ops) room ↔
        lastRoomOp ops conn room = some true)) := by
  have h := mem_members_run env texts ops sockets hok conn room
  refine ⟨?_, ?_, ?_, ?_⟩
  · intro hlast
    rw [hlast] at h
    exact h.2 rfl
  · intro hlast
    rw [hlast] at h
    intro hmem
    have := h.1 hmem
    cases this
  · intro hlast
    rw [hlast] at h
    exact h
  · intro hempty
    cases hlast : lastRoomOp ops conn room with
    | none =>
        rw [hlast] at h
        simp only [h]
        constructor
        · intro hmem
          exact absurd hmem (hempty conn)
        · intro hfalse
          cases hfalse
    | some j =>
        rw [hlast] at h
        simp only [h, Option.some.injEq]

/-- Witness for C16: `sock-1` joins chat `c1`, `sock-2` joins it, `sock-1` leaves it;
all three succeed, and the members of `chat_c1` are then `sock-2` alone. -/
theorem members_follow_last_operation_witness :
    allSucceed sampleEnv sampleTexts sampleSockets sampleRoomOps = true ∧
    members (runRoomOps sampleEnv sampleTexts sampleSockets sampleRoomOps) "chat_c1" =
      ["sock-2"] ∧
    lastRoomOp sampleRoomOps "sock-2" "chat_c1" = some true ∧
    "sock-2" ∈ members (runRoomOps sampleEnv sampleTexts sampleSockets sampleRoomOps)
      "chat_c1" ∧
    lastRoomOp sampleRoomOps "sock-1" "chat_c1" = some false ∧
    "sock-1" ∉ members (runRoomOps sampleEnv sampleTexts sampleSockets sampleRoomOps)
      "chat_c1" :=
  ⟨rfl, rfl, rfl,
   (members_follow_last_operation sampleEnv sampleTexts sampleSockets sampleRoomOps rfl
      "sock-2" "chat_c1").1 rfl,
   rfl,
   (members_follow_last_operation sampleEnv sampleTexts sampleSockets sampleRoomOps rfl
      "sock-1" "chat_c1").2.1 rfl⟩

/-! ## Lemmas on payload keys, `deleteMessage` and typing notices -/

theorem any_key_setField_self (l : List (String × JsVal)) (key : String) (value : JsVal) :
    (setField l key value).any (fun kv => kv.1 == key) = true := by
  induction l with
  | nil => simp [setField]
  | cons kv rest ih =>
      obtain ⟨k, v⟩ := kv
      by_cases hk : k = key
      · simp [setField, hk]
      · simp only [setField, hk, if_false, List.any_cons, ih, Bool.or_true]

theorem any_key_setField_of_any (l : List (String × JsVal)) (key other : String)
    (value : JsVal) (h : l.any (fun kv => kv.1 == other) = true) :
    (setField l key value).any (fun kv => kv.1 == other) = true := by
  induction l with
  | nil => simp at h
  | cons kv rest ih =>
      obtain ⟨k, v⟩ := kv
      by_cases hk : k = key
      · simpa [setField, hk] using h
      · simp only [setField, hk, if_false, List.any_cons, Bool.or_eq_true] at h ⊢
        rcases h with h | h
        · exact Or.inl h
        · exact Or.inr (ih h)

theorem stamped_has_keys (env : Env) (now : Nat) (base : List (String × JsVal)) :
    (JsVal.obj (assignFields base
      [("timestamp", JsVal.str (env.isoString now)), ("server_id", env.serverId)])).hasKey
        "timestamp" = true ∧
    (JsVal.obj (assignFields base
      [("timestamp", JsVal.str (env.isoString now)), ("server_id", env.serverId)])).hasKey
        "server_id" = true := by
  simp only [JsVal.hasKey, JsVal.spread, assignFields, List.foldl]
  exact ⟨any_key_setField_of_any _ _ _ _ (any_key_setField_self _ _ _),
    any_key_setField_self _ _ _⟩

theorem passesDeleteValidation_iff (payload : JsVal) :
    passesDeleteValidation payload = true ↔
      (payload.prop "message_id").truthy = true ∧ (payload.prop "chat_id").truthy = true ∧
      (payload.prop "user_id").truthy = true := by
  simp [passesDeleteValidation, and_assoc]

theorem deleteMessage_of_valid (env : Env) (payload : JsVal) (cb : Callback)
    (hvalid : passesDeleteValidation payload = true) (chatName : String)
    (hname : (payload.prop "chat_id").toStr = some chatName) :
    deleteMessage env payload cb =
      ⟨Outcome.returned,
       (emitToRoom env (env.clock 1) (env.emitRaises 0)
          ("chat_" ++ chatName) LISTENER.MESSAGE_DELETED
          (JsVal.obj
            [("success", JsVal.bool true),
             ("message", JsVal.str "Message deleted successfully."),
             ("data", JsVal.obj
                [("message_id", payload.prop "message_id"),
                 ("deleted_by", payload.prop "user_id"),
                 ("deleted_at", JsVal.date (env.clock 0)),
                 ("chat_id", payload.prop "chat_id"),
                 ("delete_for_everyone",
                  (payload.prop "delete_for_everyone").orDefault (JsVal.bool false)),
                 ("data", payload.prop "data"), ("server_id", env.serverId)])])).2 ++
       (addToMessageQueue (env.queueRejects 0) "deleteMessage"
          (JsVal.obj
            [("messageId", payload.prop "message_id"), ("deletedBy", payload.prop "user_id"),
             ("deleteForEveryone",
              (payload.prop "delete_for_everyone").orDefault (JsVal.bool false)),
             ("chatId", payload.prop "chat_id")]) (JsVal.obj [])).2 ++
       sendResponse env (env.clock 2) cb "Message deleted successfully"
         (JsVal.obj
            [("message_id", payload.prop "message_id"),
             ("deleted_by", payload.prop "user_id"),
             ("deleted_at", JsVal.date (env.clock 0)),
             ("chat_id", payload.prop "chat_id"),
             ("delete_for_everyone",
              (payload.prop "delete_for_everyone").orDefault (JsVal.bool false)),
             ("data", payload.prop "data"), ("server_id", env.serverId)]),
       3⟩ := by
  obtain ⟨hm, hc, hu⟩ := (passesDeleteValidation_iff payload).1 hvalid
  obtain ⟨fields, hp⟩ := prop_truthy_not_nullish payload "chat_id" hc
  subst hp
  simp [deleteMessage, hm, hc, hu, hname]

theorem deleteMessage_of_unconvertible (env : Env) (payload : JsVal) (cb : Callback)
    (hvalid : passesDeleteValidation payload = true)
    (hnone : (payload.prop "chat_id").toStr = none) :
    deleteMessage env payload cb = ⟨Outcome.threw Raised.typeError, [], 1⟩ := by
  obtain ⟨hm, hc, hu⟩ := (passesDeleteValidation_iff payload).1 hvalid
  obtain ⟨fields, hp⟩ := prop_truthy_not_nullish payload "chat_id" hc
  subst hp
  simp [deleteMessage, hm, hc, hu, hnone]

theorem deleteMessage_of_invalid (env : Env) (payload : JsVal) (cb : Callback)
    (hinvalid : passesDeleteValidation payload = false) :
    ∃ e, deleteMessage env payload cb = ⟨Outcome.threw e, [], 0⟩ ∧
      ∀ env2, deleteMessage env2 payload cb = ⟨Outcome.threw e, [], 0⟩ := by
  have hcases : (payload.prop "message_id").truthy = false ∨
      (payload.prop "chat_id").truthy = false ∨ (payload.prop "user_id").truthy = false := by
    simp only [passesDeleteValidation, Bool.and_eq_false_iff] at hinvalid
    rcases hinvalid with (h | h) | h
    · exact Or.inl h
    · exact Or.inr (Or.inl h)
    · exact Or.inr (Or.inr h)
  cases payload with
  | undefined => exact ⟨Raised.typeError, rfl, fun _ => rfl⟩
  | null => exact ⟨Raised.typeError, rfl, fun _ => rfl⟩
  | obj fields =>
      refine ⟨Raised.error "Message ID, Chat ID and User ID are required.", ?_, ?_⟩
      · rcases hcases with h | h | h <;> simp [deleteMessage, h]
      · intro env2
        rcases hcases with h | h | h <;> simp [deleteMessage, h]
  | bool b =>
      exact ⟨Raised.error "Message ID, Chat ID and User ID are required.",
        by simp [deleteMessage, JsVal.prop, JsVal.truthy],
        fun _ => by simp [deleteMessage, JsVal.prop, JsVal.truthy]⟩
  | num n =>
      exact ⟨Raised.error "Message ID, Chat ID and User ID are required.",
        by simp [deleteMessage, JsVal.prop, JsVal.truthy],
        fun _ => by simp [deleteMessage, JsVal.prop, JsVal.truthy]⟩
  | str t =>
      exact ⟨Raised.error "Message ID, Chat ID and User ID are required.",
        by simp [deleteMessage, JsVal.prop, JsVal.truthy],
        fun _ => by simp [deleteMessage, JsVal.prop, JsVal.truthy]⟩
  | date ms =>
      exact ⟨Raised.error "Message ID, Chat ID and User ID are required.",
        by simp [deleteMessage, JsVal.prop, JsVal.truthy],
        fun _ => by simp [deleteMessage, JsVal.prop, JsVal.truthy]⟩
  | arr items =>
      exact ⟨Raised.error "Message ID, Chat ID and User ID are required.",
        by simp [deleteMessage, JsVal.prop, JsVal.truthy],
        fun _ => by simp [deleteMessage, JsVal.prop, JsVal.truthy]⟩

theorem typingNotice_publishes (event : String) (env : Env) (texts : ErrorTexts)
    (socket : Socket) (payload : JsVal) (cb : Callback) :
    ∀ e ∈ (typingNotice event env texts socket payload cb).trace, e.isPublish = true →
      ∃ topic, e = Effect.broadcast topic event
        (JsVal.obj [("user_id", payload.prop "user_id"), ("chat_id", payload.prop "chat_id"),
                    ("timestamp", JsVal.str (env.isoString (env.clock 0)))]) := by
  intro e he hpub
  by_cases hready : (payload.prop "chat_id").truthy = true ∧
      (payload.prop "user_id").truthy = true ∧ ∃ name, (payload.prop "chat_id").toStr = some name
  · obtain ⟨hc, hu, name, hn⟩ := hready
    obtain ⟨fields, hp⟩ := prop_truthy_not_nullish payload "chat_id" hc
    subst hp
    refine ⟨"chat_" ++ name, ?_⟩
    cases hraise : env.emitRaises 0
    · cases cb with
      | absent =>
          simp [typingNotice, hc, hu, hn, hraise] at he
          exact he
      | function =>
          simp only [typingNotice, hc, hu, hn, hraise, Bool.not_true, Bool.or_self,
            Bool.false_eq_true, if_false, List.mem_cons] at he
          rcases he with he | he
          · exact he
          · rw [sendResponse_no_broadcast _ _ _ _ _ e he] at hpub
            cases hpub
      | emitter =>
          simp only [typingNotice, hc, hu, hn, hraise, Bool.not_true, Bool.or_self,
            Bool.false_eq_true, if_false, List.mem_cons] at he
          rcases he with he | he
          · exact he
          · rw [sendResponse_no_broadcast _ _ _ _ _ e he] at hpub
            cases hpub
    · simp [typingNotice, hc, hu, hn, hraise] at he
      exact he
  · have hnone : (typingNotice event env texts socket payload cb).trace = [] := by
      have hor := not_ready_cases _ _ hready
      cases payload with
      | undefined => rfl
      | null => rfl
      | obj fields =>
          by_cases hc : ((JsVal.obj fields).prop "chat_id").truthy = true
          · by_cases hu : ((JsVal.obj fields).prop "user_id").truthy = true
            · have hn : ((JsVal.obj fields).prop "chat_id").toStr = none := by
                rcases hor with h | h | h
                · rw [hc] at h; cases h
                · rw [hu] at h; cases h
                · exact h
              simp [typingNotice, hc, hu, hn]
            · simp [typingNotice, hc, hu]
          · simp [typingNotice, hc]
      | bool b => simp [typingNotice, JsVal.prop, JsVal.truthy]
      | num n => simp [typingNotice, JsVal.prop, JsVal.truthy]
      | str t => simp [typingNotice, JsVal.prop, JsVal.truthy]
      | date ms => simp [typingNotice, JsVal.prop, JsVal.truthy]
      | arr items => simp [typingNotice, JsVal.prop, JsVal.truthy]
    rw [hnone] at he
    cases he

theorem joinChat_publishes (env : Env) (texts : ErrorTexts) (socket : Socket)
    (payload : JsVal) (cb : Callback) :
    ∀ e ∈ (joinChat env texts socket payload cb).trace, e.isPublish = true →
      ∃ topic, e = Effect.broadcast topic "user_joined"
        (JsVal.obj [("user_id", socket.userId), ("chat_id", payload.prop "chat_id"),
                    ("timestamp", JsVal.str (env.isoString (env.clock 0)))]) := by
  intro e he hpub
  by_cases hready : (payload.prop "chat_id").truthy = true ∧ socket.userId.truthy = true ∧
      ∃ name, (payload.prop "chat_id").toStr = some name
  · obtain ⟨hc, hr, name, hn⟩ := hready
    refine ⟨"chat_" ++ name, ?_⟩
    rw [joinChat_of_ready env texts socket payload cb hc hr name hn] at he
    split at he
    · simpa using he
    · simp only [List.mem_cons] at he
      rcases he with he | he
      · exact he
      · rw [sendResponse_no_broadcast _ _ _ _ _ e he] at hpub
        cases hpub
  · obtain ⟨e2, he2⟩ := joinChat_of_not_ready env texts socket payload cb
      (not_ready_cases _ _ hready)
    rw [he2] at he
    cases he

theorem leaveChat_publishes (env : Env) (texts : ErrorTexts) (socket : Socket)
    (payload : JsVal) (cb : Callback) :
    ∀ e ∈ (leaveChat env texts socket payload cb).trace, e.isPublish = true →
      ∃ topic, e = Effect.broadcast topic "user_left"
        (JsVal.obj [("user_id", socket.userId), ("chat_id", payload.prop "chat_id"),
                    ("timestamp", JsVal.str (env.isoString (env.clock 0)))]) := by
  intro e he hpub
  by_cases hready : (payload.prop "chat_id").truthy = true ∧ socket.userId.truthy = true ∧
      ∃ name, (payload.prop "chat_id").toStr = some name
  · obtain ⟨hc, hr, name, hn⟩ := hready
    refine ⟨"chat_" ++ name, ?_⟩
    rw [leaveChat_of_ready env texts socket payload cb hc hr name hn] at he
    split at he
    · simpa using he
    · simp only [List.mem_cons] at he
      rcases he with he | he
      · exact he
      · rw [sendResponse_no_broadcast _ _ _ _ _ e he] at hpub
        cases hpub
  · obtain ⟨e2, he2⟩ := leaveChat_of_not_ready env texts socket payload cb
      (not_ready_cases _ _ hready)
    rw [he2] at he
    cases he

theorem isPublish_false_of_isQueueAdd (e : Effect) (h : e.isQueueAdd = true) :
    e.isPublish = false := by
  cases e <;> simp [Effect.isQueueAdd, Effect.isPublish] at h ⊢

theorem emitToRoom_stamped (env : Env) (now : Nat) (raises : Bool) (roomId event : String)
    (payload : JsVal) :
    ∀ e ∈ (emitToRoom env now raises roomId event payload).2,
      e.payload.hasKey "timestamp" = true ∧ e.payload.hasKey "server_id" = true := by
  intro e he
  simp only [emitToRoom, List.mem_singleton] at he
  subst he
  exact stamped_has_keys env now _

theorem emitToUser_stamped (env : Env) (now : Nat) (raises : Bool) (userId : JsVal)
    (event : String) (payload : JsVal) :
    ∀ e ∈ (emitToUser env now raises userId event payload).2,
      e.payload.hasKey "timestamp" = true ∧ e.payload.hasKey "server_id" = true := by
  intro e he
  unfold emitToUser at he
  split at he
  · cases he
  · simp only [List.mem_singleton] at he
    subst he
    exact stamped_has_keys env now _

theorem emitChatList_stamped (env : Env) (update : JsVal) (i : Nat) (items : List JsVal) :
    ∀ e ∈ emitChatList env update i items,
      e.payload.hasKey "timestamp" = true ∧ e.payload.hasKey "server_id" = true := by
  intro e he
  rw [emitChatList_eq_map] at he
  obtain ⟨p, _, hp⟩ := List.mem_map.1 he
  subst hp
  exact stamped_has_keys env _ _

theorem lookupField_setField (l : List (String × JsVal)) (key other : String)
    (value : JsVal) :
    lookupField (setField l key value) other =
      if other = key then value else lookupField l other := by
  induction l with
  | nil =>
      by_cases h : other = key
      · simp [setField, lookupField, h]
      · have h2 : ¬ key = other := fun hh => h hh.symm
        simp [setField, lookupField, h, h2]
  | cons kv rest ih =>
      obtain ⟨k, v⟩ := kv
      by_cases hk : k = key
      · subst hk
        by_cases h : other = k
        · subst h
          simp [setField, lookupField]
        · have h2 : ¬ k = other := fun hh => h hh.symm
          simp [setField, lookupField, h, h2]
      · by_cases hko : k = other
        · subst hko
          simp [setField, lookupField, hk]
        · simp [setField, lookupField, hk, hko, ih]

theorem lookupField_assignFields (extra : List (String × JsVal))
    (hkeys : (extra.map Prod.fst).Nodup) (base : List (String × JsVal)) (key : String) :
    lookupField (assignFields base extra) key =
      if key ∈ extra.map Prod.fst then lookupField extra key else lookupField base key := by
  induction extra generalizing base with
  | nil => simp [assignFields]
  | cons kv rest ih =>
      obtain ⟨k, v⟩ := kv
      simp only [List.map_cons, List.nodup_cons] at hkeys
      obtain ⟨hk, hrest⟩ := hkeys
      have hstep : assignFields base ((k, v) :: rest) = assignFields (setField base k v) rest := by
        simp [assignFields]
      rw [hstep, ih hrest, lookupField_setField]
      by_cases hkey : key = k
      · subst hkey
        simp [hk, lookupField]
      · have hkey2 : ¬ k = key := fun hh => hkey hh.symm
        have hmem : key ∈ k :: rest.map Prod.fst ↔ key ∈ rest.map Prod.fst := by
          simp [hkey]
        simp only [hkey, hkey2, lookupField, if_false, List.map_cons]
        by_cases hin : key ∈ rest.map Prod.fst
        · rw [if_pos hin, if_pos (hmem.2 hin)]
        · rw [if_neg hin, if_neg (fun h => hin (hmem.1 h))]

/-! ## Error boundary, payload stamps, bus errors, job options -/

/-- C17: the wrapper `catchAsync` always returns, whatever the handler and its
arguments. When the handler raises and the last argument is a function, the wrapper
adds to the handler's calls exactly one call of that function, with `success: false`,
the message of the error (`"Unexpected error"` when that message is empty) and a
timestamp; when the last argument is not a function it adds nothing; and when the
handler returns, the wrapper adds nothing at all. -/
theorem catchAsync_contains_errors (env : Env) (texts : ErrorTexts)
    (fn : JsVal → Callback → Handled) (payload : JsVal) (lastArg : Callback) :
    (catchAsync env texts fn payload lastArg).outcome = Outcome.returned ∧
    (∀ err, (fn payload lastArg).outcome = Outcome.threw err → lastArg = Callback.function →
      (catchAsync env texts fn payload lastArg).trace =
        (fn payload lastArg).trace ++
          [Effect.ack (JsVal.obj
            [("success", JsVal.bool false), ("status", JsVal.str "error"),
             ("message", JsVal.str
                (if err.message texts = "" then "Unexpected error" else err.message texts)),
             ("timestamp", JsVal.str (env.isoString (env.clock (fn payload lastArg).reads))),
             ("server_id", env.serverId)])]) ∧
    (∀ err, (fn payload lastArg).outcome = Outcome.threw err → lastArg ≠ Callback.function →
      (catchAsync env texts fn payload lastArg).trace = (fn payload lastArg).trace) ∧
    ((fn payload lastArg).outcome = Outcome.returned →
      catchAsync env texts fn payload lastArg = fn payload lastArg) ∧
    (catchAsync env texts fn payload lastArg).socket = (fn payload lastArg).socket := by
  cases hout : (fn payload lastArg).outcome with
  | returned =>
      have hrun : catchAsync env texts fn payload lastArg = fn payload lastArg := by
        simp [catchAsync, hout]
      rw [hrun]
      refine ⟨hout, ?_, ?_, fun _ => rfl, rfl⟩
      · intro err herr
        cases herr
      · intro err herr
        cases herr
  | threw e =>
      cases lastArg with
      | function =>
          refine ⟨by simp [catchAsync, hout], ?_, ?_, ?_, by simp [catchAsync, hout]⟩
          · intro err herr _
            cases herr
            simp [catchAsync, hout]
          · intro err _ hne
            exact absurd rfl hne
          · intro h
            cases h
      | absent =>
          refine ⟨by simp [catchAsync, hout], ?_, ?_, ?_, by simp [catchAsync, hout]⟩
          · intro err _ h
            cases h
          · intro err _ _
            simp [catchAsync, hout]
          · intro h
            cases h
      | emitter =>
          refine ⟨by simp [catchAsync, hout], ?_, ?_, ?_, by simp [catchAsync, hout]⟩
          · intro err _ h
            cases h
          · intro err _ _
            simp [catchAsync, hout]
          · intro h
            cases h

/-- Witness for C17: `joinChat` on a fresh connection raises "User must be registered
first."; the wrapped listener returns and its only call is the acknowledgement with
`success: false` and that message. A handler raising an error with an empty message
is acknowledged with "Unexpected error". -/
theorem catchAsync_contains_errors_witness :
    (joinChat sampleEnv sampleTexts (Socket.fresh "sock-1") chatPayload
      Callback.function).outcome =
      Outcome.threw (Raised.error "User must be registered first.") ∧
    (onEvent sampleEnv sampleTexts (Socket.fresh "sock-1") ClientEvent.joinChat chatPayload
      Callback.function).trace =
      [Effect.ack (JsVal.obj
        [("success", JsVal.bool false), ("status", JsVal.str "error"),
         ("message", JsVal.str "User must be registered first."),
         ("timestamp", JsVal.str "1000"), ("server_id", JsVal.str "worker_1")])] ∧
    (catchAsync sampleEnv sampleTexts silentFailure chatPayload Callback.function).trace =
      [Effect.ack (JsVal.obj
        [("success", JsVal.bool false), ("status", JsVal.str "error"),
         ("message", JsVal.str "Unexpected error"),
         ("timestamp", JsVal.str "1000"), ("server_id", JsVal.str "worker_1")])] :=
  ⟨rfl,
   (catchAsync_contains_errors sampleEnv sampleTexts
      (controller sampleEnv sampleTexts (Socket.fresh "sock-1") ClientEvent.joinChat)
      chatPayload Callback.function).2.1 _ rfl rfl,
   (catchAsync_contains_errors sampleEnv sampleTexts silentFailure chatPayload
      Callback.function).2.1 _ rfl rfl⟩

/-- C18, evaluation: the events published through `emitToRoom` and `emitToUser`, and so
every `receive_message`, `chat_list` and `message_deleted` of `sendMessage` and
`deleteMessage`, carry both `timestamp` and `server_id`; but every `user_joined`,
`user_left`, `typing_start` and `typing_stop`, emitted directly on the socket, carries
`timestamp` and no `server_id`. A connection registered as `u1` joining chat `c1`
broadcasts `user_joined` with the keys `user_id`, `chat_id` and `timestamp` only. -/
theorem socket_broadcasts_lack_server_id :
    (∀ (env : Env) (texts : ErrorTexts) (socket : Socket) (payload : JsVal) (cb : Callback)
        (e : Effect),
      (e ∈ (joinChat env texts socket payload cb).trace ∨
       e ∈ (leaveChat env texts socket payload cb).trace ∨
       e ∈ (startTyping env texts socket payload cb).trace ∨
       e ∈ (stopTyping env texts socket payload cb).trace) →
      e.isPublish = true →
      e.payload.hasKey "timestamp" = true ∧ e.payload.hasKey "server_id" = false) ∧
    (∀ (env : Env) (payload : JsVal) (cb : Callback) (e : Effect),
      (e ∈ (sendMessage env payload cb).trace ∨ e ∈ (deleteMessage env payload cb).trace) →
      e.isPublish = true →
      e.payload.hasKey "timestamp" = true ∧ e.payload.hasKey "server_id" = true) ∧
    (joinChat sampleEnv sampleTexts sampleSocket chatPayload Callback.function).trace.head? =
      some (Effect.broadcast "chat_c1" "user_joined"
        (JsVal.obj [("user_id", JsVal.str "u1"), ("chat_id", JsVal.str "c1"),
                    ("timestamp", JsVal.str "1000")])) := by
  refine ⟨?_, ?_, rfl⟩
  · intro env texts socket payload cb e hmem hpub
    rcases hmem with h | h | h | h
    · obtain ⟨topic, he⟩ := joinChat_publishes env texts socket payload cb e h hpub
      rw [he]
      exact ⟨rfl, rfl⟩
    · obtain ⟨topic, he⟩ := leaveChat_publishes env texts socket payload cb e h hpub
      rw [he]
      exact ⟨rfl, rfl⟩
    · obtain ⟨topic, he⟩ := typingNotice_publishes _ env texts socket payload cb e h hpub
      rw [he]
      exact ⟨rfl, rfl⟩
    · obtain ⟨topic, he⟩ := typingNotice_publishes _ env texts socket payload cb e h hpub
      rw [he]
      exact ⟨rfl, rfl⟩
  · intro env payload cb e hmem hpub
    rcases hmem with h | h
    · cases hout : (sendMessage env payload cb).outcome with
      | threw err =>
          rw [(sendMessage_threw_trace env payload cb err hout).1] at h
          cases h
      | returned =>
          have hvalid : passesValidation payload = true := by
            by_contra hv
            have hinvalid : passesValidation payload = false := by simpa using hv
            obtain ⟨e2, he2⟩ := sendMessage_of_invalid env payload cb hinvalid
            rw [he2] at hout
            cases hout
          cases hname : (payload.prop "chat_id").toStr with
          | none =>
              rw [sendMessage_of_unconvertible env payload cb hvalid hname] at hout
              cases hout
          | some chatName =>
              rw [sendMessage_of_valid env payload cb hvalid chatName hname] at h
              simp only [List.mem_append] at h
              rcases h with ((h | h) | h) | h
              · exact emitToRoom_stamped _ _ _ _ _ _ e h
              · exact emitChatList_stamped _ _ _ _ e h
              · rw [isPublish_false_of_isQueueAdd e
                  (enqueueJobs_all_queueAdd _ _ _ _ _ e h)] at hpub
                cases hpub
              · rw [sendResponse_no_broadcast _ _ _ _ _ e h] at hpub
                cases hpub
    · by_cases hvalid : passesDeleteValidation payload = true
      · cases hname : (payload.prop "chat_id").toStr with
        | none =>
            rw [deleteMessage_of_unconvertible env payload cb hvalid hname] at h
            cases h
        | some chatName =>
            rw [deleteMessage_of_valid env payload cb hvalid chatName hname] at h
            simp only [List.mem_append] at h
            rcases h with (h | h) | h
            · exact emitToRoom_stamped _ _ _ _ _ _ e h
            · simp only [addToMessageQueue, List.mem_singleton] at h
              subst h
              cases hpub
            · rw [sendResponse_no_broadcast _ _ _ _ _ e h] at hpub
              cases hpub
      · have hinvalid : passesDeleteValidation payload = false := by simpa using hvalid
        obtain ⟨e2, he2, _⟩ := deleteMessage_of_invalid env payload cb hinvalid
        rw [he2] at h
        cases h

/-- C19 (as amended): when the emit on the bus raises, `emitToRoom` and `emitToUser`
catch the error and return `false`; nothing propagates to their caller. So how
`sendMessage` and `deleteMessage` end does not depend on the bus, for any payload; and
with every emit raising, `sendMessage` on a payload that passes validation and
`deleteMessage` on a payload with its three identifiers, the `chat_id` having a string
conversion, still return, and acknowledge with `success: true` when the last argument
is a callback. -/
theorem emit_errors_are_swallowed (env : Env) (payload : JsVal) (cb : Callback) :
    (∀ now roomId event p, (emitToRoom env now true roomId event p).1 = false) ∧
    (∀ now userId event p, (emitToUser env now true userId event p).1 = false) ∧
    ((sendMessage { env with emitRaises := fun _ => true } payload cb).outcome =
        (sendMessage { env with emitRaises := fun _ => false } payload cb).outcome ∧
      (deleteMessage { env with emitRaises := fun _ => true } payload cb).outcome =
        (deleteMessage { env with emitRaises := fun _ => false } payload cb).outcome) ∧
    (passesValidation payload = true → (∃ name, (payload.prop "chat_id").toStr = some name) →
      (sendMessage { env with emitRaises := fun _ => true } payload cb).outcome =
        Outcome.returned ∧
      (cb = Callback.function →
        ∃ p, (sendMessage { env with emitRaises := fun _ => true } payload cb).trace.getLast? =
            some (Effect.ack p) ∧
          p.prop "success" = JsVal.bool true ∧
          p.prop "message" = JsVal.str "Message sent successfully")) ∧
    (passesDeleteValidation payload = true →
      (∃ name, (payload.prop "chat_id").toStr = some name) →
      (deleteMessage { env with emitRaises := fun _ => true } payload cb).outcome =
        Outcome.returned ∧
      (cb = Callback.function →
        ∃ p, (deleteMessage { env with emitRaises := fun _ => true } payload cb).trace.getLast? =
            some (Effect.ack p) ∧
          p.prop "success" = JsVal.bool true ∧
          p.prop "message" = JsVal.str "Message deleted successfully")) := by
  refine ⟨fun _ _ _ _ => rfl, ?_, ⟨?_, ?_⟩, ?_, ?_⟩
  · intro now userId event p
    unfold emitToUser
    split <;> rfl
  · by_cases hvalid : passesValidation payload = true
    · cases hname : (payload.prop "chat_id").toStr with
      | none =>
          rw [sendMessage_of_unconvertible _ payload cb hvalid hname,
            sendMessage_of_unconvertible _ payload cb hvalid hname]
      | some name =>
          rw [sendMessage_of_valid _ payload cb hvalid name hname,
            sendMessage_of_valid _ payload cb hvalid name hname]
    · have hinvalid : passesValidation payload = false := by simpa using hvalid
      rw [sendMessage_invalid_eq _ { env with emitRaises := fun _ => false } payload cb hinvalid]
  · by_cases hvalid : passesDeleteValidation payload = true
    · cases hname : (payload.prop "chat_id").toStr with
      | none =>
          rw [deleteMessage_of_unconvertible _ payload cb hvalid hname,
            deleteMessage_of_unconvertible _ payload cb hvalid hname]
      | some name =>
          rw [deleteMessage_of_valid _ payload cb hvalid name hname,
            deleteMessage_of_valid _ payload cb hvalid name hname]
    · have hinvalid : passesDeleteValidation payload = false := by simpa using hvalid
      obtain ⟨e, _, he⟩ := deleteMessage_of_invalid env payload cb hinvalid
      rw [he, he]
  · rintro hvalid ⟨name, hname⟩
    rw [sendMessage_of_valid _ payload cb hvalid name hname]
    refine ⟨rfl, ?_⟩
    intro hcb
    subst hcb
    simp [sendResponse, JsVal.prop, lookupField]
  · rintro hvalid ⟨name, hname⟩
    rw [deleteMessage_of_valid _ payload cb hvalid name hname]
    refine ⟨rfl, ?_⟩
    intro hcb
    subst hcb
    simp [sendResponse, JsVal.prop, lookupField]

/-- Witness for C19: with every emit raising, the delivery example and the deletion
example both return. -/
theorem emit_errors_are_swallowed_witness :
    passesValidation samplePayload = true ∧
    (samplePayload.prop "chat_id").toStr = some "c1" ∧
    (sendMessage { sampleEnv with emitRaises := fun _ => true } samplePayload
      Callback.function).outcome = Outcome.returned ∧
    passesDeleteValidation deletePayload = true ∧
    (deletePayload.prop "chat_id").toStr = some "c1" ∧
    (deleteMessage { sampleEnv with emitRaises := fun _ => true } deletePayload
      Callback.function).outcome = Outcome.returned :=
  ⟨rfl, rfl,
   ((emit_errors_are_swallowed sampleEnv samplePayload Callback.function).2.2.2.1 rfl
      ⟨"c1", rfl⟩).1,
   rfl, rfl,
   ((emit_errors_are_swallowed sampleEnv deletePayload Callback.function).2.2.2.2 rfl
      ⟨"c1", rfl⟩).1⟩

/-- C19, counterexample: with every emit on the bus raising, `emitToRoom` returns
`false` instead of raising, and the listener for `sendMessage`, given the delivery
example, returns and acknowledges with `success: true`, not with a failure. -/
theorem sendMessage_reports_success_when_bus_down :
    busDownEnv.emitRaises 0 = true ∧
    (emitToRoom busDownEnv 1001 (busDownEnv.emitRaises 0) "chat_c1" "receive_message"
      (JsVal.obj [])).1 = false ∧
    (sendMessage busDownEnv samplePayload Callback.function).outcome = Outcome.returned ∧
    ((onEvent busDownEnv sampleTexts sampleSocket ClientEvent.sendMessage samplePayload
      Callback.function).trace.getLast?.map
        (fun e => (e.isAck, e.payload.prop "success"))) = some (true, JsVal.bool true) ∧
    ((onEvent busDownEnv sampleTexts sampleSocket ClientEvent.deleteMessage deletePayload
      Callback.function).trace.getLast?.map
        (fun e => (e.isAck, e.payload.prop "success"))) = some (true, JsVal.bool true) :=
  ⟨rfl, rfl, rfl, rfl, rfl⟩

/-- C20: `addToMessageQueue` and `addToNotificationQueue` make one `add` call on their
queue, with the job type and data given and with the options `{ attempts: 3, backoff:
{ type: "exponential", delay: 2000 } }` overridden key by key by the caller's options
object: a key the caller supplies has the caller's value, any other key has the
default's. With empty options, or none, the options are exactly the defaults. -/
theorem queue_options_override_defaults (rejected : Bool) (jobType : String) (data : JsVal)
    (fields : List (String × JsVal)) (hkeys : (fields.map Prod.fst).Nodup) :
    (∃ merged,
      addToMessageQueue rejected jobType data (JsVal.obj fields) =
        (!rejected,
         [Effect.queueAdd QueueName.messageQueue jobType data (JsVal.obj merged)]) ∧
      addToNotificationQueue rejected jobType data (JsVal.obj fields) =
        (!rejected,
         [Effect.queueAdd QueueName.notificationQueue jobType data (JsVal.obj merged)]) ∧
      ∀ key, lookupField merged key =
        if key ∈ fields.map Prod.fst then lookupField fields key
        else lookupField
          [("attempts", JsVal.num 3),
           ("backoff", JsVal.obj [("type", JsVal.str "exponential"),
                                  ("delay", JsVal.num 2000)])] key) ∧
    (∀ options, options = JsVal.obj [] ∨ options = JsVal.undefined →
      addToMessageQueue rejected jobType data options =
        (!rejected,
         [Effect.queueAdd QueueName.messageQueue jobType data
            (JsVal.obj
              [("attempts", JsVal.num 3),
               ("backoff", JsVal.obj [("type", JsVal.str "exponential"),
                                      ("delay", JsVal.num 2000)])])]) ∧
      addToNotificationQueue rejected jobType data options =
        (!rejected,
         [Effect.queueAdd QueueName.notificationQueue jobType data
            (JsVal.obj
              [("attempts", JsVal.num 3),
               ("backoff", JsVal.obj [("type", JsVal.str "exponential"),
                                      ("delay", JsVal.num 2000)])])])) := by
  constructor
  · refine ⟨assignFields defaultJobOptions fields, rfl, rfl, ?_⟩
    intro key
    exact lookupField_assignFields fields hkeys defaultJobOptions key
  · intro options hopt
    rcases hopt with h | h <;> subst h <;> exact ⟨rfl, rfl⟩

/-- Witness for C20: with the caller's options `{ attempts: 5 }` the job is submitted
with 5 attempts and the default exponential backoff from 2000 ms. -/
theorem queue_options_override_defaults_witness :
    (fiveAttempts.map Prod.fst).Nodup ∧
    addToMessageQueue false "saveMessage" JsVal.null (JsVal.obj fiveAttempts) =
      (true,
       [Effect.queueAdd QueueName.messageQueue "saveMessage" JsVal.null
          (JsVal.obj
            [("attempts", JsVal.num 5),
             ("backoff", JsVal.obj [("type", JsVal.str "exponential"),
                                    ("delay", JsVal.num 2000)])])]) ∧
    (∃ merged,
      addToMessageQueue false "saveMessage" JsVal.null (JsVal.obj fiveAttempts) =
        (!false,
         [Effect.queueAdd QueueName.messageQueue "saveMessage" JsVal.null
            (JsVal.obj merged)]) ∧
      addToNotificationQueue false "saveMessage" JsVal.null (JsVal.obj fiveAttempts) =
        (!false,
         [Effect.queueAdd QueueName.notificationQueue "saveMessage" JsVal.null
            (JsVal.obj merged)]) ∧
      ∀ key, lookupField merged key =
        if key ∈ fiveAttempts.map Prod.fst then lookupField fiveAttempts key
        else lookupField
          [("attempts", JsVal.num 3),
           ("backoff", JsVal.obj [("type", JsVal.str "exponential"),
                                  ("delay", JsVal.num 2000)])] key) :=
  ⟨by decide, rfl,
   (queue_options_override_defaults false "saveMessage" JsVal.null fiveAttempts
      (by decide)).1⟩

/-! ## Durable job queue: retries -/

/-- C21: a job admitted with the options that `addToMessageQueue` and
`addToNotificationQueue` submit by default (3 attempts, exponential backoff from 2000
ms), whose handler fails on every attempt, goes through exactly the states queued,
active, queued, active, queued, active, failed, however long it is followed; it has
then made exactly 3 attempts, `failed` has no further transition, and the two retry
delays are 2000 and 4000, the second strictly greater than the first. -/
theorem failing_job_lifecycle (fuel : Nat) (hfuel : 6 ≤ fuel) (jobType : String)
    (data : JsVal) :
    (addToMessageQueue false jobType data (JsVal.obj [])).2 =
      [Effect.queueAdd QueueName.messageQueue jobType data (JsVal.obj defaultJobOptions)] ∧
    (addToNotificationQueue false jobType data (JsVal.obj [])).2 =
      [Effect.queueAdd QueueName.notificationQueue jobType data
        (JsVal.obj defaultJobOptions)] ∧
    (admitJob (JsVal.obj defaultJobOptions)).maxAttempts = 3 ∧
    (Job.run (fun _ => true) fuel (admitJob (JsVal.obj defaultJobOptions))).1 =
      [JobState.queued, JobState.active, JobState.queued, JobState.active,
       JobState.queued, JobState.active, JobState.failed] ∧
    (Job.run (fun _ => true) fuel (admitJob (JsVal.obj defaultJobOptions))).2.1 =
      [2000, 4000] ∧
    (2000 : Nat) < 4000 ∧
    (Job.run (fun _ => true) fuel (admitJob (JsVal.obj defaultJobOptions))).2.2.attemptsMade =
      3 ∧
    (Job.run (fun _ => true) fuel (admitJob (JsVal.obj defaultJobOptions))).2.2.state =
      JobState.failed ∧
    (∀ handlerFails,
      (Job.run (fun _ => true) fuel (admitJob (JsVal.obj defaultJobOptions))).2.2.step
        handlerFails = none) := by
  obtain ⟨k, hk⟩ : ∃ k, fuel = k + 6 := ⟨fuel - 6, by omega⟩
  subst hk
  have hjob : admitJob (JsVal.obj defaultJobOptions) = ⟨0, 3, 2000, JobState.queued⟩ := by
    rfl
  have hrun : Job.run (fun _ => true) (k + 6) ⟨0, 3, 2000, JobState.queued⟩ =
      ([JobState.queued, JobState.active, JobState.queued, JobState.active,
        JobState.queued, JobState.active, JobState.failed], [2000, 4000],
       ⟨3, 3, 2000, JobState.failed⟩) := by
    cases k <;> simp [Job.run, Job.step]
  rw [hjob, hrun]
  refine ⟨rfl, rfl, rfl, rfl, rfl, by decide, rfl, rfl, ?_⟩
  intro handlerFails
  rfl

/-- Witness for C21: followed for 10 transitions, the always failing job with the
default options goes through the seven states and ends failed. -/
theorem failing_job_lifecycle_witness :
    (6 : Nat) ≤ 10 ∧
    (Job.run (fun _ => true) 10 (admitJob (JsVal.obj defaultJobOptions))).1 =
      [JobState.queued, JobState.active, JobState.queued, JobState.active,
       JobState.queued, JobState.active, JobState.failed] ∧
    (Job.run (fun _ => true) 10 (admitJob (JsVal.obj defaultJobOptions))).2.1 =
      [2000, 4000] :=
  ⟨by decide,
   (failing_job_lifecycle 10 (by decide) "saveMessage" JsVal.null).2.2.2.1,
   (failing_job_lifecycle 10 (by decide) "saveMessage" JsVal.null).2.2.2.2.1⟩

/-! ## Message delivery pipeline: `deleteMessage` and the order of the enqueues -/

theorem filter_publish_or_add_sendResponse (env : Env) (now : Nat) (cb : Callback)
    (message : String) (data : JsVal) :
    (sendResponse env now cb message data).filter (fun e => e.isPublish || e.isQueueAdd) =
      [] := by
  rw [List.filter_eq_nil_iff]
  intro e he
  simp [sendResponse_no_broadcast env now cb message data e he,
    (sendResponse_no_emit_no_add env now cb message data e he).2]

theorem sendMessage_queueAdds (env : Env) (payload : JsVal) (cb : Callback)
    (hvalid : passesValidation payload = true) (chatName : String)
    (hname : (payload.prop "chat_id").toStr = some chatName) :
    (sendMessage env payload cb).trace.filter Effect.isQueueAdd =
      enqueueJobs env
        (messageData env (payload.prop "user_id") (payload.prop "chat_id")
          (payload.prop "data") ((payload.prop "message_type").orDefault (JsVal.str "text")))
        (payload.prop "chat_id") (payload.prop "user_id")
        ((payload.prop "participants").orDefault (JsVal.arr [])) := by
  rw [sendMessage_of_valid env payload cb hvalid chatName hname]
  have hroom : ∀ now raises roomId event p,
      (emitToRoom env now raises roomId event p).2.filter Effect.isQueueAdd = [] := by
    intro now raises roomId event p
    rw [List.filter_eq_nil_iff]
    intro e he
    simp [isQueueAdd_false_of_isEmit e (emitToRoom_all_emit _ _ _ _ _ _ e he)]
  have husers : ∀ update items,
      (emitChatList env update 0 items).filter Effect.isQueueAdd = [] := by
    intro update items
    rw [List.filter_eq_nil_iff]
    intro e he
    simp [isQueueAdd_false_of_isEmit e (emitChatList_all_emit _ _ _ _ e he)]
  have hresp : ∀ now message data,
      (sendResponse env now cb message data).filter Effect.isQueueAdd = [] := by
    intro now message data
    rw [List.filter_eq_nil_iff]
    intro e he
    simp [(sendResponse_no_emit_no_add env now cb message data e he).2]
  simp only [List.filter_append, hroom, husers, hresp, List.nil_append, List.append_nil]
  exact List.filter_eq_self.2 (enqueueJobs_all_queueAdd _ _ _ _ _)

theorem sendMessage_reaches_enqueue_iff (env : Env) (payload : JsVal) (cb : Callback) :
    (∃ e ∈ (sendMessage env payload cb).trace, e.isQueueAdd = true) ↔
      passesValidation payload = true ∧ ∃ name, (payload.prop "chat_id").toStr = some name := by
  constructor
  · rintro ⟨e, he, _⟩
    cases hout : (sendMessage env payload cb).outcome with
    | threw err =>
        rw [(sendMessage_threw_trace env payload cb err hout).1] at he
        cases he
    | returned =>
        have hvalid : passesValidation payload = true := by
          by_contra hv
          have hinvalid : passesValidation payload = false := by simpa using hv
          obtain ⟨e2, he2⟩ := sendMessage_of_invalid env payload cb hinvalid
          rw [he2] at hout
          cases hout
        refine ⟨hvalid, ?_⟩
        cases hname : (payload.prop "chat_id").toStr with
        | none =>
            rw [sendMessage_of_unconvertible env payload cb hvalid hname] at hout
            cases hout
        | some name => exact ⟨name, rfl⟩
  · rintro ⟨hvalid, name, hname⟩
    have hadds := sendMessage_queueAdds env payload cb hvalid name hname
    have hmem : Effect.queueAdd QueueName.messageQueue "saveMessage"
        (JsVal.obj [("messageData",
          messageData env (payload.prop "user_id") (payload.prop "chat_id")
            (payload.prop "data")
            ((payload.prop "message_type").orDefault (JsVal.str "text")))])
        (JsVal.obj defaultJobOptions) ∈
        (sendMessage env payload cb).trace.filter Effect.isQueueAdd := by
      rw [hadds]
      unfold enqueueJobs
      simp only [addToMessageQueue, addToNotificationQueue, assignFields, JsVal.spread,
        List.foldl]
      split
      · simp
      · split
        · simp
        · split
          · split <;> simp
          · simp
    exact ⟨_, (List.mem_filter.1 hmem).1, rfl⟩

/-- C22 (as amended): when `message_id`, `chat_id` and `user_id` are truthy and
`chat_id` has the string conversion `chatName`, `deleteMessage` returns, and what it
publishes and enqueues is, in this order, one `message_deleted` on the topic
`chat_<chatName>` and one `deleteMessage` job, both carrying as flag the caller's
`delete_for_everyone`, `false` when that is missing. When one of the three is falsy
(missing, `null`, `false`, `0` or the empty string) the call raises and nothing is
emitted or enqueued; the same holds when `chat_id` has no string conversion. -/
theorem deleteMessage_emits_then_enqueues (env : Env) (payload : JsVal) (cb : Callback) :
    (passesDeleteValidation payload = true →
      ∀ chatName, (payload.prop "chat_id").toStr = some chatName →
      (deleteMessage env payload cb).outcome = Outcome.returned ∧
      ∀ flag, flag = (payload.prop "delete_for_everyone").orDefault (JsVal.bool false) →
        (deleteMessage env payload cb).trace.filter (fun e => e.isPublish || e.isQueueAdd) =
          [Effect.emit ("chat_" ++ chatName) "message_deleted"
            (JsVal.obj
              [("success", JsVal.bool true),
               ("message", JsVal.str "Message deleted successfully."),
               ("data", JsVal.obj
                  [("message_id", payload.prop "message_id"),
                   ("deleted_by", payload.prop "user_id"),
                   ("deleted_at", JsVal.date (env.clock 0)),
                   ("chat_id", payload.prop "chat_id"),
                   ("delete_for_everyone", flag),
                   ("data", payload.prop "data"), ("server_id", env.serverId)]),
               ("timestamp", JsVal.str (env.isoString (env.clock 1))),
               ("server_id", env.serverId)]),
           Effect.queueAdd QueueName.messageQueue "deleteMessage"
            (JsVal.obj
              [("messageId", payload.prop "message_id"), ("deletedBy", payload.prop "user_id"),
               ("deleteForEveryone", flag), ("chatId", payload.prop "chat_id")])
            (JsVal.obj
              [("attempts", JsVal.num 3),
               ("backoff", JsVal.obj [("type", JsVal.str "exponential"),
                                      ("delay", JsVal.num 2000)])])]) ∧
    (payload.prop "delete_for_everyone" = JsVal.undefined →
      (payload.prop "delete_for_everyone").orDefault (JsVal.bool false) = JsVal.bool false) ∧
    ((passesDeleteValidation payload = false ↔
        (payload.prop "message_id").truthy = false ∨ (payload.prop "chat_id").truthy = false ∨
        (payload.prop "user_id").truthy = false) ∧
      (passesDeleteValidation payload = false ∨ (payload.prop "chat_id").toStr = none →
        (∃ e, (deleteMessage env payload cb).outcome = Outcome.threw e) ∧
        (deleteMessage env payload cb).trace = [])) := by
  refine ⟨?_, ?_, ?_, ?_⟩
  · intro hvalid chatName hname
    rw [deleteMessage_of_valid env payload cb hvalid chatName hname]
    refine ⟨rfl, ?_⟩
    intro flag hflag
    subst hflag
    simp only [List.filter_append, filter_publish_or_add_sendResponse, List.append_nil]
    simp [emitToRoom, addToMessageQueue, Effect.isPublish, Effect.isQueueAdd,
      LISTENER.MESSAGE_DELETED, assignFields, setField, JsVal.spread, defaultJobOptions]
  · intro h
    rw [h]
    rfl
  · simp only [passesDeleteValidation, Bool.and_eq_false_iff]
    constructor
    · rintro ((h | h) | h)
      · exact Or.inl h
      · exact Or.inr (Or.inl h)
      · exact Or.inr (Or.inr h)
    · rintro (h | h | h)
      · exact Or.inl (Or.inl h)
      · exact Or.inl (Or.inr h)
      · exact Or.inr h
  · intro hfail
    by_cases hvalid : passesDeleteValidation payload = true
    · have hnone : (payload.prop "chat_id").toStr = none := by
        rcases hfail with h | h
        · rw [hvalid] at h
          cases h
        · exact h
      rw [deleteMessage_of_unconvertible env payload cb hvalid hnone]
      exact ⟨⟨_, rfl⟩, rfl⟩
    · have hinvalid : passesDeleteValidation payload = false := by simpa using hvalid
      obtain ⟨e, he, _⟩ := deleteMessage_of_invalid env payload cb hinvalid
      rw [he]
      exact ⟨⟨e, rfl⟩, rfl⟩

/-- Witness for C22: deleting message `m1` of chat `c1` for everyone publishes
`message_deleted` on `chat_c1` and then adds the job, both with the flag `true`. -/
theorem deleteMessage_emits_then_enqueues_witness :
    passesDeleteValidation deleteForEveryonePayload = true ∧
    (deleteForEveryonePayload.prop "chat_id").toStr = some "c1" ∧
    ((deleteMessage sampleEnv deleteForEveryonePayload Callback.function).trace.filter
        (fun e => e.isPublish || e.isQueueAdd)).map
      (fun e => match e with
        | Effect.emit topic event p =>
            (topic, event, (p.prop "data").prop "delete_for_everyone")
        | Effect.queueAdd _ jobType data _ => ("", jobType, data.prop "deleteForEveryone")
        | _ => ("", "", JsVal.undefined)) =
      [("chat_c1", "message_deleted", JsVal.bool true),
       ("", "deleteMessage", JsVal.bool true)] ∧
    (deleteMessage sampleEnv deleteForEveryonePayload Callback.function).outcome =
      Outcome.returned :=
  ⟨rfl, rfl, rfl,
   ((deleteMessage_emits_then_enqueues sampleEnv deleteForEveryonePayload
      Callback.function).1 rfl "c1" rfl).1⟩

/-- C22, counterexample: with `message_id: 0`, `chat_id: "c1"` and `user_id: "u1"` all
three identifiers are present, yet `deleteMessage` raises and emits and enqueues
nothing. -/
theorem deleteMessage_rejects_message_id_zero :
    zeroMessagePayload.prop "message_id" = JsVal.num 0 ∧
    zeroMessagePayload.prop "chat_id" = JsVal.str "c1" ∧
    zeroMessagePayload.prop "user_id" = JsVal.str "u1" ∧
    (deleteMessage sampleEnv zeroMessagePayload Callback.function).outcome =
      Outcome.threw (Raised.error "Message ID, Chat ID and User ID are required.") ∧
    (deleteMessage sampleEnv zeroMessagePayload Callback.function).trace = [] :=
  ⟨rfl, rfl, rfl, rfl, rfl⟩

/-- C24: in every run of `sendMessage` that reaches the enqueues, that is, that makes a
queue addition, the additions stop at the first rejected one: when the `saveMessage`
addition is rejected it is the only addition made, and when `updateChatList` is
rejected the additions are those two and no notification job; in every case the handler
returns and, when the last argument is a callback, acknowledges with `success: true`
and `queued_for_processing: true`. The runs that reach the enqueues are those on a
payload that passes validation and whose `chat_id` has a string conversion. -/
theorem sendMessage_enqueues_stop_at_first_failure (env : Env) (payload : JsVal)
    (cb : Callback)
    (hreached : ∃ e ∈ (sendMessage env payload cb).trace, e.isQueueAdd = true) :
    (∀ msg, msg = messageData env (payload.prop "user_id") (payload.prop "chat_id")
        (payload.prop "data") ((payload.prop "message_type").orDefault (JsVal.str "text")) →
      (env.queueRejects 0 = true →
        (sendMessage env payload cb).trace.filter Effect.isQueueAdd =
          [Effect.queueAdd QueueName.messageQueue "saveMessage"
            (JsVal.obj [("messageData", msg)]) (JsVal.obj defaultJobOptions)]) ∧
      (env.queueRejects 0 = false → env.queueRejects 1 = true →
        (sendMessage env payload cb).trace.filter Effect.isQueueAdd =
          [Effect.queueAdd QueueName.messageQueue "saveMessage"
            (JsVal.obj [("messageData", msg)]) (JsVal.obj defaultJobOptions),
           Effect.queueAdd QueueName.messageQueue "updateChatList"
            (JsVal.obj [("chatId", payload.prop "chat_id"),
                        ("participants",
                         (payload.prop "participants").orDefault (JsVal.arr []))])
            (JsVal.obj defaultJobOptions)])) ∧
    (sendMessage env payload cb).outcome = Outcome.returned ∧
    (cb = Callback.function →
      ∃ p, (sendMessage env payload cb).trace.getLast? = some (Effect.ack p) ∧
        p.prop "success" = JsVal.bool true ∧
        (p.prop "data").prop "queued_for_processing" = JsVal.bool true) ∧
    (∀ (env2 : Env) (p : JsVal) (c : Callback),
      (∃ e ∈ (sendMessage env2 p c).trace, e.isQueueAdd = true) ↔
        passesValidation p = true ∧ ∃ name, (p.prop "chat_id").toStr = some name) := by
  obtain ⟨hvalid, chatName, hname⟩ := (sendMessage_reaches_enqueue_iff env payload cb).1 hreached
  refine ⟨?_, ?_, ?_, fun env2 p c => sendMessage_reaches_enqueue_iff env2 p c⟩
  · intro msg hmsg
    subst hmsg
    rw [sendMessage_queueAdds env payload cb hvalid chatName hname]
    constructor
    · intro hsave
      simp [enqueueJobs, addToMessageQueue, hsave, assignFields, JsVal.spread]
    · intro hsave hupdate
      simp [enqueueJobs, addToMessageQueue, hsave, hupdate, assignFields, JsVal.spread]
  · rw [sendMessage_of_valid env payload cb hvalid chatName hname]
  · intro hcb
    subst hcb
    rw [sendMessage_of_valid env payload Callback.function hvalid chatName hname]
    simp [sendResponse, JsVal.prop, lookupField, JsVal.orDefault, messageData, JsVal.spread,
      assignFields, setField]

/-- Witness for C24: in the delivery example with the `saveMessage` addition rejected,
one addition is made, and the acknowledgement still says `queued_for_processing:
true`. -/
theorem sendMessage_enqueues_stop_at_first_failure_witness :
    (∃ e ∈ (sendMessage saveDownEnv samplePayload Callback.function).trace,
      e.isQueueAdd = true) ∧
    saveDownEnv.queueRejects 0 = true ∧
    ((sendMessage saveDownEnv samplePayload Callback.function).trace.filter
      Effect.isQueueAdd).length = 1 ∧
    ((sendMessage updateDownEnv samplePayload Callback.function).trace.filter
      Effect.isQueueAdd).length = 2 ∧
    (∃ p, (sendMessage saveDownEnv samplePayload Callback.function).trace.getLast? =
        some (Effect.ack p) ∧
      p.prop "success" = JsVal.bool true ∧
      (p.prop "data").prop "queued_for_processing" = JsVal.bool true) :=
  ⟨⟨_, List.getElem?_mem (rfl : (sendMessage saveDownEnv samplePayload
      Callback.function).trace[3]? = some _), rfl⟩,
   rfl, rfl, rfl,
   (sendMessage_enqueues_stop_at_first_failure saveDownEnv samplePayload Callback.function
      ⟨_, List.getElem?_mem (rfl : (sendMessage saveDownEnv samplePayload
        Callback.function).trace[3]? = some _), rfl⟩).2.2.1 rfl⟩

/-! ## Fleet supervisor, cursor arithmetic, Redis client -/

theorem digitChar_value (m : Nat) (h : m < 10) : (Nat.digitChar m).toNat - 48 = m := by
  interval_cases m <;> rfl

theorem digitsValue_toDigitsCore (fuel : Nat) :
    ∀ (n : Nat) (ds : List Char), n < fuel →
      digitsValue (Nat.toDigitsCore 10 fuel n ds) 0 = digitsValue ds n := by
  induction fuel with
  | zero => intro n ds h; omega
  | succ fuel ih =>
      intro n ds h
      simp only [Nat.toDigitsCore]
      by_cases hq : n / 10 = 0
      · simp only [hq, if_true]
        have hlt : n < 10 := by omega
        simp only [digitsValue, List.foldl, Nat.mod_eq_of_lt hlt, digitChar_value n hlt,
          Nat.zero_mul, Nat.zero_add]
      · simp only [hq, if_false]
        rw [ih (n / 10) _ (by omega)]
        simp only [digitsValue, List.foldl, digitChar_value (n % 10) (Nat.mod_lt _ (by decide))]
        congr 1
        omega

theorem natRepr_injective (a b : Nat) (h : Nat.repr a = Nat.repr b) : a = b := by
  have hd : Nat.toDigits 10 a = Nat.toDigits 10 b := by
    have h2 := congrArg String.data h
    simpa [Nat.repr, List.asString] using h2
  have ha := digitsValue_toDigitsCore (a + 1) a [] (by omega)
  have hb := digitsValue_toDigitsCore (b + 1) b [] (by omega)
  simp only [Nat.toDigits] at hd
  rw [hd] at ha
  rw [ha] at hb
  simpa [digitsValue] using hb

theorem worker_name_injective (a b : Nat)
    (h : "worker_" ++ toString a = "worker_" ++ toString b) : a = b := by
  have h2 : ("worker_" ++ toString a).data = ("worker_" ++ toString b).data := by rw [h]
  simp only [String.data_append, List.append_cancel_left_eq] at h2
  exact natRepr_injective a b (String.ext h2)

/-- C23, evaluation: the `n` workers forked at startup get the identities `worker_1`,
..., `worker_n` and the ports `p`, ..., `p + n - 1`, pairwise distinct, as claimed. But
the `exit` listener forks no replacement at all: the worker object it is handed has no
`env`, so the read `worker.env.PORT`, by which the listener means to reuse the port of
the dead worker, raises a `TypeError` before `cluster.fork` is called, for every
worker, clock reading and base port. After the first of two workers exits, the live
workers are the second one alone; no worker has the port 5400 any more. -/
theorem exit_listener_forks_no_replacement :
    (∀ n p : Nat,
      (forkWorkers n p).length = n ∧
      (∀ i, i < n →
        (forkWorkers n p)[i]? =
          some ⟨"worker_" ++ toString (i + 1), JsVal.num ((p + i : Nat) : Int)⟩) ∧
      ((forkWorkers n p).map (fun w => w.SERVER_ID)).Nodup ∧
      ((forkWorkers n p).map (fun w => w.PORT)).Nodup) ∧
    (∀ (now p : Nat) (worker : Worker),
      worker.asJs.prop "env" = JsVal.undefined ∧
      onWorkerExit now p worker.asJs = Except.error Raised.typeError) ∧
    (∀ (now p : Nat) (live : List ForkEnv) (dead : ForkEnv) (worker : Worker),
      replaceWorker now p live dead worker.asJs =
        live.filter (fun w => w.SERVER_ID != dead.SERVER_ID)) ∧
    forkWorkers 2 5400 = [⟨"worker_1", JsVal.num 5400⟩, ⟨"worker_2", JsVal.num 5401⟩] ∧
    replaceWorker sampleNow 5400 (forkWorkers 2 5400) ⟨"worker_1", JsVal.num 5400⟩
        sampleWorker.asJs = [⟨"worker_2", JsVal.num 5401⟩] := by
  have hexit : ∀ (now p : Nat) (worker : Worker),
      onWorkerExit now p worker.asJs = Except.error Raised.typeError := by
    intro now p worker
    simp [onWorkerExit, Worker.asJs, JsVal.prop, lookupField, JsVal.toStr]
  refine ⟨?_, ?_, ?_, rfl, rfl⟩
  · intro n p
    refine ⟨by simp [forkWorkers], ?_, ?_, ?_⟩
    · intro i hi
      simp [forkWorkers, List.getElem?_map, List.getElem?_range hi]
    · simp only [forkWorkers, List.map_map]
      refine List.Nodup.map ?_ (List.nodup_range n)
      intro a b hab
      have := worker_name_injective (a + 1) (b + 1) hab
      omega
    · simp only [forkWorkers, List.map_map]
      refine List.Nodup.map ?_ (List.nodup_range n)
      intro a b hab
      simp only [Function.comp, JsVal.num.injEq] at hab
      omega
  · intro now p worker
    exact ⟨by simp [Worker.asJs, JsVal.prop, lookupField], hexit now p worker⟩
  · intro now p live dead worker
    simp [replaceWorker, hexit]

/-- C25: starting from the three default instances, all healthy, the cursor reaches 2
after two requests and the next request goes to the third instance; the third instance
then fails a probe and the request at cursor 3 goes to the second instance
(`[A, B][3 % 2]`); the third instance passes a probe and the request at cursor 4 goes
to the second instance again (`[A, B, C][4 % 3]`), although all three instances are
healthy at that selection. -/
theorem cursor_repeats_instance :
    (runEvents (LoadBalancer.init defaultInstances) flappingEvents).1 =
      [Routed.proxied "http://localhost:5400", Routed.proxied "http://localhost:5401",
       Routed.proxied "http://localhost:5402", Routed.proxied "http://localhost:5401",
       Routed.proxied "http://localhost:5401"] ∧
    (runEvents (LoadBalancer.init defaultInstances) (flappingEvents.take 2)).2.currentServerIndex =
      2 ∧
    healthyServers (runEvents (LoadBalancer.init defaultInstances) (flappingEvents.take 4)).2 =
      ["http://localhost:5400", "http://localhost:5401"] ∧
    (runEvents (LoadBalancer.init defaultInstances) (flappingEvents.take 6)).2.currentServerIndex =
      4 ∧
    healthyServers (runEvents (LoadBalancer.init defaultInstances) (flappingEvents.take 6)).2 =
      defaultInstances ∧
    (∃ events : List LbEvent, ∃ (i : Nat) (target other : String),
      (runEvents (LoadBalancer.init defaultInstances) events).1[i]? =
        some (Routed.proxied target) ∧
      (runEvents (LoadBalancer.init defaultInstances) events).1[i + 1]? =
        some (Routed.proxied target) ∧
      other ≠ target ∧
      other ∈ healthyServers (runEvents (LoadBalancer.init defaultInstances)
        (events.take (events.length - 1))).2) := by
  refine ⟨by decide, by decide, by decide, by decide, by decide, ?_⟩
  exact ⟨flappingEvents, 3, "http://localhost:5401", "http://localhost:5400",
    by decide, by decide, by decide, by decide⟩

/-- C26: `createRedisClient` stores the client in `redisClient` before connecting.
Once `redisClient` holds a client, every call returns that client and calls the
package not at all. So after a first call that succeeds, a second call returns the
same, connected client without creating or connecting another; and after a first call
whose `connect` raised (and was rethrown), a second call returns the client of the
first call, never connected, without raising and without calling `connect` again. -/
theorem createRedisClient_caches_before_connect (m : RedisModule)
    (hnone : m.redisClient = none) (createRaises connectRaises : Bool) :
    createRedisClient m false false =
      (RedisResult.returned ⟨m.created, true, ["error", "connect"]⟩,
       ⟨some ⟨m.created, true, ["error", "connect"]⟩, m.created + 1⟩,
       [RedisCall.createClient, RedisCall.connect m.created,
        RedisCall.on m.created "error", RedisCall.on m.created "connect"]) ∧
    createRedisClient (createRedisClient m false false).2.1 createRaises connectRaises =
      (RedisResult.returned ⟨m.created, true, ["error", "connect"]⟩,
       (createRedisClient m false false).2.1, []) ∧
    createRedisClient m false true =
      (RedisResult.raised, ⟨some ⟨m.created, false, []⟩, m.created + 1⟩,
       [RedisCall.createClient, RedisCall.connect m.created]) ∧
    createRedisClient (createRedisClient m false true).2.1 createRaises connectRaises =
      (RedisResult.returned ⟨m.created, false, []⟩,
       (createRedisClient m false true).2.1, []) ∧
    (∀ (cached : RedisModule) (client : RedisClient), cached.redisClient = some client →
      createRedisClient cached createRaises connectRaises =
        (RedisResult.returned client, cached, [])) := by
  have hok : createRedisClient m false false =
      (RedisResult.returned ⟨m.created, true, ["error", "connect"]⟩,
       ⟨some ⟨m.created, true, ["error", "connect"]⟩, m.created + 1⟩,
       [RedisCall.createClient, RedisCall.connect m.created,
        RedisCall.on m.created "error", RedisCall.on m.created "connect"]) := by
    simp [createRedisClient, hnone]
  have hfail : createRedisClient m false true =
      (RedisResult.raised, ⟨some ⟨m.created, false, []⟩, m.created + 1⟩,
       [RedisCall.createClient, RedisCall.connect m.created]) := by
    simp [createRedisClient, hnone]
  have hcached : ∀ (cached : RedisModule) (client : RedisClient),
      cached.redisClient = some client →
      createRedisClient cached createRaises connectRaises =
        (RedisResult.returned client, cached, []) := by
    intro cached client hc
    simp [createRedisClient, hc]
  refine ⟨hok, ?_, hfail, ?_, hcached⟩
  · rw [hok]
    exact hcached _ _ rfl
  · rw [hfail]
    exact hcached _ _ rfl

/-- Witness for C26: from the module state at load time, a first call whose `connect`
raises leaves client 0 cached and never connected, and a second call, for which
`connect` would succeed, returns that client and makes no call. -/
theorem createRedisClient_caches_before_connect_witness :
    RedisModule.init.redisClient = none ∧
    (createRedisClient RedisModule.init false true).1 = RedisResult.raised ∧
    createRedisClient (createRedisClient RedisModule.init false true).2.1 false false =
      (RedisResult.returned ⟨RedisModule.init.created, false, []⟩,
       (createRedisClient RedisModule.init false true).2.1, []) :=
  ⟨rfl, rfl,
   (createRedisClient_caches_before_connect RedisModule.init rfl false false).2.2.2.1⟩

end ChatApp
